import Mathlib

/-!
# hotel-california: reservation rules, store transaction and auth guard

A shallow embedding of the Go sources

* `internal/service/service.go` (reservation rule engine),
* `internal/store/mysql/store.go` (persistence gateway, `UpdateReservation` transaction),
* `internal/middleware/auth/middleware.go` (auth guard),
* `internal/api-error/apierror.go` (uniform error values),

followed by theorems about them.

Conventions of the embedding

* A `time.Time` is an instant, counted in nanoseconds since the Unix epoch (`Time`).
  Every `time.Now()` of the source is an explicit argument of the embedded function.
* A Go `error` is a value of `GoError`; a nil error or nil pointer is `none`.
* Pointers to structs are embedded as values; `*T` that may be nil is `Option T`. The
  package-level error values of `apierror` are read as declared; an assignment to
  `res.Result.BaseError` is applied to the value that the response carries.
* Calls through the `mysqlstore.Store` interface are recorded in a call log (`World.calls`),
  next to the state of the store behind the interface (`World.db`).
* Logging (`s.log`, `m.log`) writes to the logger only and is left out.
-/

namespace HotelCalifornia

/-! ## Time -/

/-- Instant in nanoseconds since 1970-01-01T00:00:00Z. -/
abbrev Time := Int

/-- Nanoseconds in one second. -/
def nsPerSecond : Int := 1000000000

/-- Go `time.Unix(sec, 0)`. -/
def Time.unix (sec : Int) : Time := sec * nsPerSecond

/-- Go `t.Unix()`: whole seconds since the epoch, rounded down. -/
def Time.toUnix (t : Time) : Int := t / nsPerSecond

/-- Go `t.After(u)`. -/
def Time.After (t u : Time) : Bool := decide (u < t)

/-- Go `t.Before(u)`. -/
def Time.Before (t u : Time) : Bool := decide (t < u)

/-- Go `t.Equal(u)`. -/
def Time.Equal (t u : Time) : Bool := decide (t = u)

/-- Go `isLeap` of package time. -/
def isLeap (year : Int) : Bool :=
  year % 4 == 0 && (year % 100 != 0 || year % 400 == 0)

/-- Go `daysIn(month, year)` of package time. -/
def daysIn (month year : Int) : Int :=
  if month == 2 then (if isLeap year then 29 else 28)
  else if month == 4 || month == 6 || month == 9 || month == 11 then 30
  else 31

/-- Days from 1970-01-01 to the civil date `year-month-day` (proleptic Gregorian calendar),
which is what `time.Date(year, month, day, 0, 0, 0, 0, time.UTC)` counts. -/
def daysFromCivil (year month day : Int) : Int :=
  let y := if month ≤ 2 then year - 1 else year
  let era := y / 400
  let yoe := y - era * 400
  let mp := (month + 9) % 12
  let doy := (153 * mp + 2) / 5 + day - 1
  let doe := yoe * 365 + yoe / 4 - yoe / 100 + doy
  era * 146097 + doe - 719468

/-- Go `time.Date(year, month, day, 0, 0, 0, 0, time.UTC)`. -/
def Time.date (year month day : Int) : Time :=
  Time.unix (daysFromCivil year month day * 86400)

/-- The zero `time.Time{}`: January 1, year 1, 00:00:00 UTC. -/
def Time.zero : Time := Time.date 1 1 1

/-! ## Parsing a date with layout `2006-01-02` -/

/-- Go `isDigit(s, 0)` of package time, on the head of the remaining input. -/
def isDigit (c : Char) : Bool := decide ('0' ≤ c ∧ c ≤ '9')

/-- Value of a decimal digit character. -/
def digitVal (c : Char) : Int := (c.toNat : Int) - 48

/-- Go `getnum(s, true)` of package time: exactly two digits, and the rest of the input. -/
def getnum : List Char → Option (Int × List Char)
  | a :: b :: rest =>
    if isDigit a && isDigit b then some (digitVal a * 10 + digitVal b, rest) else none
  | _ => none

/-- Go `skip(value, "-")` of package time: the literal `-` of the layout. -/
def skipDash : List Char → Option (List Char)
  | c :: rest => if c == '-' then some rest else none
  | [] => none

/-- The `stdLongYear` case of `time.Parse`: four digits, and the rest of the input. -/
def getLongYear : List Char → Option (Int × List Char)
  | a :: b :: c :: e :: rest =>
    if isDigit a && isDigit b && isDigit c && isDigit e then
      some (digitVal a * 1000 + digitVal b * 100 + digitVal c * 10 + digitVal e, rest)
    else none
  | _ => none

/-- Go `time.Parse("2006-01-02", value)`: `none` stands for a `*time.ParseError`.
The layout is read chunk by chunk (year, `-`, zero-padded month, `-`, zero-padded day, end of
input); the month range is checked when the month is read, the day against `daysIn` at the end.
Every accepted input consists of ten ASCII characters, so reading characters instead of bytes
accepts the same strings. -/
def timeParse (value : String) : Option Time :=
  match getLongYear value.toList with
  | none => none
  | some (year, v1) =>
    match skipDash v1 with
    | none => none
    | some v2 =>
      match getnum v2 with
      | none => none
      | some (month, v3) =>
        if month ≤ 0 || 12 < month then none
        else
          match skipDash v3 with
          | none => none
          | some v4 =>
            match getnum v4 with
            | none => none
            | some (day, v5) =>
              if !v5.isEmpty then none
              else if day < 1 || daysIn month year < day then none
              else some (Time.date year month day)

/-! ## Errors (`internal/api-error/apierror.go`) -/

/-- Bit field `Errors` of `*jwt.ValidationError`, one flag per bit that `jwt.Parse` can set
for map claims. -/
structure ValidationFlags where
  Malformed : Bool
  SignatureInvalid : Bool
  Expired : Bool
  IssuedAt : Bool
  NotValidYet : Bool
deriving DecidableEq, Repr

/-- Go `error` values that occur in the embedded code. -/
inductive GoError where
  /-- An `errors.New(text)` value. -/
  | errorString (text : String)
  /-- A `*jwt.ValidationError` with its `Errors` bit field. -/
  | validationError (flags : ValidationFlags)
deriving DecidableEq, Repr

/-- Go `ErrNotValidDestination` of package service. -/
def ErrNotValidDestination : GoError := .errorString "destination not valid"

/-- Go `ErrFailedParseDate` of package service. -/
def ErrFailedParseDate : GoError := .errorString "failed to parse date"

/-- Go `errTokenHasExpired` of the auth middleware. -/
def errTokenHasExpired : GoError := .errorString "token has expired"

/-- Go `errParsingUserId` of the auth middleware. -/
def errParsingUserId : GoError := .errorString "error while parsing user ID"

/-- Text of the first validation failure, as `(*jwt.ValidationError).Error()` reports it. -/
def validationText (f : ValidationFlags) : String :=
  if f.Malformed then "token contains an invalid number of segments"
  else if f.SignatureInvalid then "signature is invalid"
  else if f.NotValidYet then "Token is not valid yet"
  else if f.IssuedAt then "Token used before issued"
  else if f.Expired then "Token is expired"
  else "token is invalid"

/-- Go `err.Error()`. -/
def GoError.Error : GoError → String
  | .errorString text => text
  | .validationError f => validationText f

/-- Go `apierror.APIError`. -/
structure APIError where
  Message : String
  Name : String
  Code : Int
  StatusCode : Int
  ErrorAction : Int
  BaseError : Option GoError
  MessageLocalizerKey : String
deriving DecidableEq, Repr

def CodeInternalServerError : Int := 1
def CodeBadRequestError : Int := 2
def CodeValidationError : Int := 3
def CodeUnauthorizedError : Int := 4
def CodeCouldNotCreateReservationError : Int := 5
def CodeCouldNotChangeReservationCheckInDateError : Int := 6

def NameInternalServerError : String := "InternalServerError"
def NameBadRequestError : String := "BadRequestError"
def NameValidationError : String := "ValidationError"
def NameUnauthorizedError : String := "UnauthorizedError"
def NameCouldNotCreateReservationError : String := "CouldNotCreateReservationError"
def NameCouldNotChangeReservationCheckInDateError : String :=
  "CouldNotChangeReservationCheckInDateError"

/-- Declarations that `apierror.go` and `service.go` use and that are not part of the sources
at hand: the message keys `localization.CouldNotCreateReservation` and
`localization.CouldNotChangeReservationCheckInDate`, and the error value
`apierror.CouldNotCheckInGreaterThanCheckout` (the `CheckInAfterCheckout` of the
specification). The embedded code takes them as a parameter. -/
structure Decls where
  locCouldNotCreateReservation : String
  locCouldNotChangeReservationCheckInDate : String
  CouldNotCheckInGreaterThanCheckout : APIError
deriving DecidableEq, Repr

/-- Go `apierror.DefaultInternalServerError`. -/
def DefaultInternalServerError : APIError :=
  { Message := "", Name := NameInternalServerError, Code := CodeInternalServerError,
    StatusCode := 500, ErrorAction := 0, BaseError := none,
    MessageLocalizerKey := "default-internal-server-error-message" }

/-- Go `apierror.DefaultUnauthorizedError`. -/
def DefaultUnauthorizedError : APIError :=
  { Message := "", Name := NameUnauthorizedError, Code := CodeUnauthorizedError,
    StatusCode := 401, ErrorAction := 0, BaseError := none,
    MessageLocalizerKey := "default-unauthorized-error-message" }

/-- Go `apierror.CouldNotCreateReservation`. -/
def CouldNotCreateReservation (d : Decls) : APIError :=
  { Message := "", Name := NameCouldNotCreateReservationError,
    Code := CodeCouldNotCreateReservationError,
    StatusCode := 400, ErrorAction := 0, BaseError := none,
    MessageLocalizerKey := d.locCouldNotCreateReservation }

/-- Go `apierror.CouldNotChangeReservationCheckInDate`. -/
def CouldNotChangeReservationCheckInDate (d : Decls) : APIError :=
  { Message := "", Name := NameCouldNotChangeReservationCheckInDateError,
    Code := CodeCouldNotChangeReservationCheckInDateError,
    StatusCode := 400, ErrorAction := 0, BaseError := none,
    MessageLocalizerKey := d.locCouldNotChangeReservationCheckInDate }

/-- Go `apierror.NewBadRequestError`. -/
def NewBadRequestError (message : GoError) : APIError :=
  { Message := message.Error, Name := NameBadRequestError, Code := CodeBadRequestError,
    StatusCode := 400, ErrorAction := 0, BaseError := none, MessageLocalizerKey := "" }

/-- The two statements `res.Result = apierror.NewBadRequestError(err)` and
`res.Result.BaseError = err` that the service performs together. -/
def badRequestWith (err : GoError) : APIError :=
  { NewBadRequestError err with BaseError := some err }

/-! ## Store records and the store interface (`internal/store/mysql/store.go`) -/

/-- Go `mysqlstore.User`. -/
structure User where
  ID : Int
  FirstName : String
  LastName : String
  Username : String
  Password : String
  CreatedAt : Time
  IsActive : Bool
  IsDeleted : Bool
deriving DecidableEq, Repr

/-- The zero value `User{}`. -/
def User.zeroValue : User :=
  { ID := 0, FirstName := "", LastName := "", Username := "", Password := "",
    CreatedAt := Time.zero, IsActive := false, IsDeleted := false }

/-- Go `mysqlstore.Reservation`. A Go `time.Time` is an instant together with a location.
`CheckInDate` and `CheckOutDate` hold the instants, which is all that `After` compares;
`CheckInDateOffset` and `CheckOutDateOffset` hold the offsets east of UTC, in seconds, that
the locations of these two values give at their instants, which is what `Format` reads.
The location of `CreatedAt` is read nowhere. -/
structure Reservation where
  ID : Int
  UserID : Int
  User : User
  PNR : String
  Destination : String
  CheckInDate : Time
  CheckInDateOffset : Int
  CheckOutDate : Time
  CheckOutDateOffset : Int
  Accommodation : String
  GuestCount : Int
  CreatedAt : Time
  IsActive : Bool
  IsDeleted : Bool
deriving DecidableEq, Repr

/-- The zero value `Reservation{}`; the zero `time.Time` is in UTC. -/
def Reservation.zeroValue : Reservation :=
  { ID := 0, UserID := 0, User := User.zeroValue, PNR := "", Destination := "",
    CheckInDate := Time.zero, CheckInDateOffset := 0, CheckOutDate := Time.zero,
    CheckOutDateOffset := 0, Accommodation := "", GuestCount := 0,
    CreatedAt := Time.zero, IsActive := false, IsDeleted := false }

/-- Go interface `mysqlstore.Store`, the methods the reservation operations call, over a
store state `σ`. Each method returns its Go results and the state it leaves behind. -/
structure Store (σ : Type) where
  CreateReservation : Reservation → σ → Option GoError × σ
  UpdateReservation : Reservation → σ → Option GoError × σ
  SignIn : String → String → σ → (Option User × Option GoError) × σ
  FindReservation : String → Int → σ → (Option Reservation × Option GoError) × σ
  FindReservations : Int → σ → (List Reservation × Option GoError) × σ

/-- One call through the `mysqlstore.Store` interface. -/
inductive StoreCall where
  | CreateReservation (res : Reservation)
  | UpdateReservation (res : Reservation)
  | SignIn (username password : String)
  | FindReservation (pnr : String) (userID : Int)
  | FindReservations (userID : Int)
deriving DecidableEq, Repr

/-- State around the service: the store behind the interface, the log of the calls made
through the interface, oldest first, and the state of the package variable
`apierror.CouldNotCreateReservation`. That variable is a pointer which the service hands out
as it is: `createErrorMessage` and `createErrorBaseError` are the current values of its
fields `Message` and `BaseError`, the two that the program assigns to (`BaseError` in
`service.go`, `Message` in `Localize`). In a fresh process they are as declared, empty and
nil. The other `*APIError` package variables are modelled at their declared values. -/
structure World (σ : Type) where
  db : σ
  calls : List StoreCall
  createErrorMessage : String := ""
  createErrorBaseError : Option GoError := none
deriving DecidableEq

/-- The current value of the package variable `apierror.CouldNotCreateReservation`: its
declaration, with the two fields that have been assigned to. -/
def World.CouldNotCreateReservation {σ : Type} (d : Decls) (w : World σ) : APIError :=
  { HotelCalifornia.CouldNotCreateReservation d with
    Message := w.createErrorMessage, BaseError := w.createErrorBaseError }

/-- The state after `Localize` was applied, through a pointer, to the package variable
`apierror.CouldNotCreateReservation` and left the value `apiErr` in it. -/
def World.assignCouldNotCreateReservation {σ : Type} (apiErr : APIError) (w : World σ) :
    World σ :=
  { w with createErrorMessage := apiErr.Message, createErrorBaseError := apiErr.BaseError }

/-- The service calls `s.ms.CreateReservation(ctx, &rev)`. -/
def World.callCreateReservation {σ : Type} (ms : Store σ) (rev : Reservation) (w : World σ) :
    Option GoError × World σ :=
  let r := ms.CreateReservation rev w.db
  (r.1, { w with db := r.2, calls := w.calls ++ [StoreCall.CreateReservation rev] })

/-- The service calls `s.ms.UpdateReservation(ctx, &rev)`. -/
def World.callUpdateReservation {σ : Type} (ms : Store σ) (rev : Reservation) (w : World σ) :
    Option GoError × World σ :=
  let r := ms.UpdateReservation rev w.db
  (r.1, { w with db := r.2, calls := w.calls ++ [StoreCall.UpdateReservation rev] })

/-- The service calls `s.ms.SignIn(ctx, userName, password)`. -/
def World.callSignIn {σ : Type} (ms : Store σ) (username password : String) (w : World σ) :
    (Option User × Option GoError) × World σ :=
  let r := ms.SignIn username password w.db
  (r.1, { w with db := r.2, calls := w.calls ++ [StoreCall.SignIn username password] })

/-- The service calls `s.ms.FindReservation(ctx, pnr, userID)`. -/
def World.callFindReservation {σ : Type} (ms : Store σ) (pnr : String) (userID : Int)
    (w : World σ) : (Option Reservation × Option GoError) × World σ :=
  let r := ms.FindReservation pnr userID w.db
  (r.1, { w with db := r.2, calls := w.calls ++ [StoreCall.FindReservation pnr userID] })

/-- The service calls `s.ms.FindReservations(ctx, userID)`. -/
def World.callFindReservations {σ : Type} (ms : Store σ) (userID : Int) (w : World σ) :
    (List Reservation × Option GoError) × World σ :=
  let r := ms.FindReservations userID w.db
  (r.1, { w with db := r.2, calls := w.calls ++ [StoreCall.FindReservations userID] })

/-! ## Requests and responses (`hotelcalifornia.go`) -/

/-- Go `hotelcalifornia.Header`. -/
structure Header where
  AcceptLanguage : String
  Token : String
deriving DecidableEq, Repr

/-- Go `hotelcalifornia.CreateReservationRequest`. -/
structure CreateReservationRequest extends Header where
  IPAddress : String
  UserId : Int
  Destination : String
  CheckInDate : String
  CheckOutDate : String
  Accommodation : String
  GuestCount : Int
deriving DecidableEq, Repr

/-- Go `hotelcalifornia.CreateReservationData`. -/
structure CreateReservationData where
  IsSuccessfully : Bool
  PNR : String
deriving DecidableEq, Repr

/-- Go `hotelcalifornia.CreateReservationResponse`. -/
structure CreateReservationResponse where
  Result : Option APIError
  Data : Option CreateReservationData
deriving DecidableEq, Repr

/-- Go `hotelcalifornia.UpdateReservationRequest`. -/
structure UpdateReservationRequest extends Header where
  IPAddress : String
  UserId : Int
  PNR : String
  Destination : String
  CheckInDate : String
  CheckOutDate : String
  Accommodation : String
  GuestCount : Int
deriving DecidableEq, Repr

/-- Go `hotelcalifornia.UpdateReservationData`. -/
structure UpdateReservationData where
  IsSuccessfully : Bool
deriving DecidableEq, Repr

/-- Go `hotelcalifornia.UpdateReservationResponse`. -/
structure UpdateReservationResponse where
  Result : Option APIError
  Data : Option UpdateReservationData
deriving DecidableEq, Repr

/-! ## The reservation rule engine (`internal/service/service.go`) -/

/-- Go `AccommodationTypes`. -/
def AccommodationTypes : List String := ["beach", "city", "mountain"]

/-- Go `pnrLen`. -/
def pnrLen : Nat := 8

/-- Go `charset`. -/
def charset : String := "abcdefghijklmnopqrstuvwxyzABCDEFGHIJKLMNOPQRSTUVWXYZ0123456789"

/-- Go `envvars.JWTToken`. -/
structure JWTToken where
  Secret : String
deriving DecidableEq, Repr

/-- Go `service.Service`: the environment name, the store behind the interface and the token
configuration (the logger is left out). -/
structure Service (σ : Type) where
  environment : String
  ms : Store σ
  jw : JWTToken

/-- Go `(*Service).validAccommodation`: the loop returns true at the first equal entry. -/
def validAccommodation (ac : String) : Bool :=
  AccommodationTypes.any fun a => a == ac

/-- Go `rand.Intn(n)`: a value in `[0, n)`, here the reduction of a raw draw of the source. -/
def Intn (raw n : Nat) : Nat := raw % n

/-- Go `(*Service).generatePNR`: position `i` holds `charset[rand.Intn(len(charset))]` for
the `i`-th draw `rnd i` of the random source. -/
def generatePNR (rnd : Nat → Nat) (length : Nat) : String :=
  String.mk ((List.range length).map fun i =>
    charset.toList.getD (Intn (rnd i) charset.length) 'a')

/-- Go `(*Service).parseDate`, always called with `dateLayout = "2006-01-02"`: the parsed
time and a nil error, or the zero time and `ErrFailedParseDate`. Both times are in UTC, the
location of a layout without zone and of the zero time, so the reservation values that the
service builds from them keep the offset 0 of `Reservation.zeroValue`. -/
def parseDate (dateString : String) : Time × Option GoError :=
  match timeParse dateString with
  | none => (Time.zero, some ErrFailedParseDate)
  | some parsedTime => (parsedTime, none)

/-- Go `(*Service).CreateReservation`. `now` is the value of `time.Now()`, `rnd` the random
source. When the store fails, `res.Result` is the package variable
`apierror.CouldNotCreateReservation` itself, not a copy: the assignment to its `BaseError`
stays in the variable, and the response shows the `Message` that the variable holds at that
moment. -/
def Service.CreateReservation {σ : Type} (d : Decls) (s : Service σ) (now : Time)
    (rnd : Nat → Nat) (req : CreateReservationRequest) (w : World σ) :
    CreateReservationResponse × World σ :=
  let userId := req.UserId
  if validAccommodation req.Accommodation == false then
    ({ Result := some (badRequestWith ErrNotValidDestination), Data := none }, w)
  else
    match parseDate req.CheckInDate with
    | (_, some err) => ({ Result := some (badRequestWith err), Data := none }, w)
    | (checkInDate, none) =>
      match parseDate req.CheckOutDate with
      | (_, some err) => ({ Result := some (badRequestWith err), Data := none }, w)
      | (checkOutDate, none) =>
        if checkInDate.After checkOutDate then
          ({ Result := some d.CouldNotCheckInGreaterThanCheckout, Data := none }, w)
        else
          let pnr := generatePNR rnd pnrLen
          let rev : Reservation :=
            { Reservation.zeroValue with
              UserID := userId, PNR := pnr, Destination := req.Destination,
              CheckInDate := checkInDate, CheckOutDate := checkOutDate, CreatedAt := now,
              Accommodation := req.Accommodation, GuestCount := req.GuestCount,
              IsActive := true, IsDeleted := false }
          match w.callCreateReservation s.ms rev with
          | (some err, w1) =>
            let w2 : World σ := { w1 with createErrorBaseError := some err }
            ({ Result := some (w2.CouldNotCreateReservation d), Data := none }, w2)
          | (none, w1) =>
            ({ Result := none, Data := some { IsSuccessfully := true, PNR := pnr } }, w1)

/-- Go `(*Service).UpdateReservation`. `now` is the value of `time.Now()`. -/
def Service.UpdateReservation {σ : Type} (d : Decls) (s : Service σ) (now : Time)
    (req : UpdateReservationRequest) (w : World σ) :
    UpdateReservationResponse × World σ :=
  let userId := req.UserId
  let pnr := req.PNR
  if validAccommodation req.Accommodation == false then
    ({ Result := some (badRequestWith ErrNotValidDestination), Data := none }, w)
  else
    match parseDate req.CheckInDate with
    | (_, some err) => ({ Result := some (badRequestWith err), Data := none }, w)
    | (checkInDate, none) =>
      match parseDate req.CheckOutDate with
      | (_, some err) => ({ Result := some (badRequestWith err), Data := none }, w)
      | (checkOutDate, none) =>
        if now.After checkInDate then
          ({ Result := some (CouldNotChangeReservationCheckInDate d), Data := none }, w)
        else if checkInDate.After checkOutDate then
          ({ Result := some d.CouldNotCheckInGreaterThanCheckout, Data := none }, w)
        else
          let rev : Reservation :=
            { Reservation.zeroValue with
              PNR := pnr, UserID := userId, Destination := req.Destination,
              CheckInDate := checkInDate, CheckOutDate := checkOutDate,
              Accommodation := req.Accommodation, GuestCount := req.GuestCount }
          match w.callUpdateReservation s.ms rev with
          | (some err, w1) => ({ Result := some (badRequestWith err), Data := none }, w1)
          | (none, w1) =>
            ({ Result := none, Data := some { IsSuccessfully := true } }, w1)

/-! ## The MySQL store (`internal/store/mysql/store.go`) -/

/-- Statements the store sends to the database, in the order sent. -/
inductive DBOp where
  /-- Statement `s.db.Begin()` that opened a transaction. -/
  | begin
  /-- Statement `tx.Where("pnr = ?", pnr).First(..)`. -/
  | first (pnr : String)
  /-- Statement `tx.Save(&reservation)`. -/
  | save (row : Reservation)
  /-- Statement `tx.Commit()`; `ok` tells whether it succeeded. -/
  | commit (ok : Bool)
  /-- Statement `tx.Rollback()`. -/
  | rollback
  /-- Statement `s.db.Create(res)`. -/
  | create (row : Reservation)
  /-- Query of `(*store).SignIn` on the users table. -/
  | signIn (username password : String)
  /-- Query of `(*store).FindReservation` with `Preload("User")`. -/
  | find (pnr : String) (userID : Int)
  /-- Query of `(*store).FindReservations` with `Preload("User")`. -/
  | findAll (userID : Int)
deriving DecidableEq, Repr

/-- State of the database: the rows of the reservations table in primary-key order, the users
table, and the statements received so far. -/
structure DB where
  reservations : List Reservation
  users : List User
  trace : List DBOp
deriving DecidableEq, Repr

/-- Errors the database driver may answer with; `none` lets the statement succeed. -/
structure Faults where
  beginErr : Option GoError
  firstErr : Option GoError
  saveErr : Option GoError
  commitErr : Option GoError
  createErr : Option GoError
  signInErr : Option GoError
  findErr : Option GoError
  findAllErr : Option GoError
deriving DecidableEq, Repr

/-- No driver error at all. -/
def Faults.none : Faults :=
  { beginErr := Option.none, firstErr := Option.none, saveErr := Option.none,
    commitErr := Option.none, createErr := Option.none, signInErr := Option.none,
    findErr := Option.none, findAllErr := Option.none }

/-- Go `gorm.ErrRecordNotFound`. -/
def ErrRecordNotFound : GoError := .errorString "record not found"

/-- Append a statement to the trace. -/
def DB.record (db : DB) (op : DBOp) : DB :=
  { db with trace := db.trace ++ [op] }

/-- Number of transactions that were begun and have neither been committed nor rolled back
after the statements of `trace`. A commit ends the transaction whether or not it succeeds. -/
def openTransactions (trace : List DBOp) : Nat :=
  trace.foldl (fun n op =>
    match op with
    | .begin => n + 1
    | .commit _ => n - 1
    | .rollback => n - 1
    | _ => n) 0

/-- Query `Where("pnr = ?", pnr).First(&reservation)`: the first row in primary-key order
whose `pnr` column equals `pnr`, or `gorm.ErrRecordNotFound`; a driver error comes first. -/
def DB.first (db : DB) (f : Faults) (pnr : String) : Except GoError Reservation :=
  match f.firstErr with
  | some err => .error err
  | Option.none =>
    match db.reservations.find? (fun r => r.PNR == pnr) with
    | some row => .ok row
    | Option.none => .error ErrRecordNotFound

/-- Statement `Save(&reservation)` once committed: the row with the primary key of
`reservation` is overwritten with all its fields; a value whose primary key is zero is
inserted as a new row instead, under the next auto-increment value. -/
def DB.saveRow (db : DB) (reservation : Reservation) : DB :=
  if reservation.ID == 0 then
    let nextID := (db.reservations.map (fun r => r.ID)).foldl max 0 + 1
    { db with reservations := db.reservations ++ [{ reservation with ID := nextID }] }
  else
    { db with
      reservations :=
        db.reservations.map fun r => if r.ID == reservation.ID then reservation else r }

/-- Go `(*store).UpdateReservation`. `f` holds the answers of the database driver, `now` is
the value of `time.Now()`. -/
def store.UpdateReservation (f : Faults) (now : Time) (res : Reservation) (db : DB) :
    Option GoError × DB :=
  match f.beginErr with
  | some err => (some err, db)
  | none =>
    let db1 := (db.record .begin).record (.first res.PNR)
    match db.first f res.PNR with
    | .error err => (some err, db1.record .rollback)
    | .ok reservation =>
      if res.UserID != reservation.UserID then
        (some (.errorString
          "the reservation you are trying to update does not belong to this user"), db1)
      else if now.After reservation.CheckInDate then
        (some (.errorString "the check-in date of a past reservation cannot be changed"), db1)
      else
        let reservation : Reservation :=
          { reservation with
            Destination := res.Destination, CheckInDate := res.CheckInDate,
            CheckInDateOffset := res.CheckInDateOffset,
            CheckOutDate := res.CheckOutDate,
            CheckOutDateOffset := res.CheckOutDateOffset,
            Accommodation := res.Accommodation, GuestCount := res.GuestCount }
        let db2 := db1.record (.save reservation)
        match f.saveErr with
        | some err => (some err, db2.record .rollback)
        | none =>
          match f.commitErr with
          | some err => (some err, (db2.record (.commit false)).record .rollback)
          | none => (none, (db2.saveRow reservation).record (.commit true))

/-- Go `(*store).CreateReservation`: the row is inserted; a zero primary key is replaced by
the next auto-increment value. -/
def store.CreateReservation (f : Faults) (res : Reservation) (db : DB) : Option GoError × DB :=
  match f.createErr with
  | some err => (some err, db.record (.create res))
  | none =>
    let nextID := (db.reservations.map (fun r => r.ID)).foldl max 0 + 1
    let row := if res.ID == 0 then { res with ID := nextID } else res
    (none, { db.record (.create res) with reservations := db.reservations ++ [row] })

/-- Go `(*store).SignIn`: the first user row with the given username and password digest
that is active and not deleted is scanned into `usr`; without such a row `usr` stays the zero
user, whose `ID` is 0. -/
def store.SignIn (f : Faults) (username password : String) (db : DB) :
    (Option User × Option GoError) × DB :=
  match f.signInErr with
  | some err => ((none, some err), db.record (.signIn username password))
  | none =>
    let usr := (db.users.find? fun u =>
      u.Username == username && u.Password == password && u.IsActive == true
        && u.IsDeleted == false).getD User.zeroValue
    if usr.ID == 0 then
      ((none, some (.errorString "user not found")), db.record (.signIn username password))
    else ((some usr, none), db.record (.signIn username password))

/-- A row as the driver scans it from the table: the columns hold instants, and the driver
hands them out in its own location, which is UTC because the DSN sets no `loc`. -/
def DB.scan (r : Reservation) : Reservation :=
  { r with CheckInDateOffset := 0, CheckOutDateOffset := 0 }

/-- Clause `Preload("User")`: the `User` field is filled with the users row whose primary key
is the `user_id` of the reservation, when there is one. -/
def DB.preloadUser (db : DB) (r : Reservation) : Reservation :=
  match db.users.find? (fun u => u.ID == r.UserID) with
  | some u => { r with User := u }
  | none => r

/-- Go `(*store).FindReservation`: the first row in primary-key order with the given `pnr`
and `user_id`, with its user preloaded, or `gorm.ErrRecordNotFound`. -/
def store.FindReservation (f : Faults) (pnr : String) (userID : Int) (db : DB) :
    (Option Reservation × Option GoError) × DB :=
  match f.findErr with
  | some err => ((none, some err), db.record (.find pnr userID))
  | none =>
    match db.reservations.find? (fun r => r.PNR == pnr && r.UserID == userID) with
    | some row =>
      ((some (db.preloadUser (DB.scan row)), none), db.record (.find pnr userID))
    | none => ((none, some ErrRecordNotFound), db.record (.find pnr userID))

/-- Go `(*store).FindReservations`: every row with the given `user_id`, users preloaded. -/
def store.FindReservations (f : Faults) (userID : Int) (db : DB) :
    (List Reservation × Option GoError) × DB :=
  match f.findAllErr with
  | some err => (([], some err), db.record (.findAll userID))
  | none =>
    ((((db.reservations.filter fun r => r.UserID == userID).map
        fun r => db.preloadUser (DB.scan r)), none),
      db.record (.findAll userID))

/-- The MySQL store behind the `mysqlstore.Store` interface; `now` is the clock reading of
its `UpdateReservation`. -/
def mysqlStore (f : Faults) (now : Time) : Store DB :=
  { CreateReservation := store.CreateReservation f
    UpdateReservation := store.UpdateReservation f now
    SignIn := store.SignIn f
    FindReservation := store.FindReservation f
    FindReservations := store.FindReservations f }

/-! ## Remaining requests and responses, and the service interface (`hotelcalifornia.go`) -/

/-- Go `hotelcalifornia.HealthRequest`. -/
structure HealthRequest where
  IPAddress : String
deriving DecidableEq, Repr

/-- Go `hotelcalifornia.HealthResponse`. -/
structure HealthResponse where
  Ping : String
deriving DecidableEq, Repr

/-- Go `hotelcalifornia.SignInRequest`. -/
structure SignInRequest where
  IPAddress : String
  UserName : String
  Password : String
deriving DecidableEq, Repr

/-- Go `hotelcalifornia.SignInData`. -/
structure SignInData where
  IsSuccessfully : Bool
  Token : String
deriving DecidableEq, Repr

/-- Go `hotelcalifornia.SignInResponse`. -/
structure SignInResponse where
  Result : Option APIError
  Data : Option SignInData
deriving DecidableEq, Repr

/-- Go `hotelcalifornia.FindReservationRequest`. -/
structure FindReservationRequest extends Header where
  IPAddress : String
  UserId : Int
  PNR : String
deriving DecidableEq, Repr

/-- Go `hotelcalifornia.FindReservationData`. -/
structure FindReservationData where
  PNR : String
  Destination : String
  CheckInDate : String
  CheckOutDate : String
  Accommodation : String
  GuestCount : Int
  UserName : String
deriving DecidableEq, Repr

/-- Go `hotelcalifornia.FindReservationResponse`. -/
structure FindReservationResponse where
  Result : Option APIError
  Data : Option FindReservationData
deriving DecidableEq, Repr

/-- Go `hotelcalifornia.FindReservationsRequest`. -/
structure FindReservationsRequest extends Header where
  IPAddress : String
  UserId : Int
deriving DecidableEq, Repr

/-- Go `hotelcalifornia.FindReservationsData`. -/
structure FindReservationsData where
  Reservations : List FindReservationData
  IsSuccessfully : Bool
deriving DecidableEq, Repr

/-- Go `hotelcalifornia.FindReservationsResponse`. -/
structure FindReservationsResponse where
  Result : Option APIError
  Data : Option FindReservationsData
deriving DecidableEq, Repr

/-- Go interface `hotelcalifornia.Service`, over the state `ω` its implementation works on. -/
structure ServiceInterface (ω : Type) where
  Health : HealthRequest → ω → HealthResponse × ω
  SignIn : SignInRequest → ω → SignInResponse × ω
  CreateReservation : CreateReservationRequest → ω → CreateReservationResponse × ω
  UpdateReservation : UpdateReservationRequest → ω → UpdateReservationResponse × ω
  FindReservation : FindReservationRequest → ω → FindReservationResponse × ω
  FindReservations : FindReservationsRequest → ω → FindReservationsResponse × ω

/-! ## Tokens (`github.com/golang-jwt/jwt/v4`, imported by the middleware) -/

/-- A decoded JSON value of a claim set; a JSON number stands for its whole seconds. -/
inductive JSONValue where
  | null
  | bool (b : Bool)
  | number (n : Int)
  | string (s : String)
  | array
  | object
deriving DecidableEq, Repr

/-- Go `jwt.MapClaims`. -/
abbrev MapClaims := List (String × JSONValue)

/-- The segments of a compact token once decoded: the claim set, and for each key whether
the signature segment verifies under it with the signing method of the header. -/
structure RawToken where
  Claims : MapClaims
  verifies : String → Bool

/-- Go `jwt.Claims` as held by a parsed token: map claims, or another implementation. -/
inductive Claims where
  | mapClaims (m : MapClaims)
  | otherClaims
deriving DecidableEq, Repr

/-- Go `jwt.Token`, the fields the middleware reads. -/
structure Token where
  Claims : Claims
  Valid : Bool
deriving DecidableEq, Repr

/-- The two results of `jwt.Parse`. -/
structure ParseResult where
  token : Option Token
  err : Option GoError
deriving DecidableEq, Repr

/-- Library `MapClaims.VerifyExpiresAt(now, false)`: an absent or zero `exp` passes, a number
passes while `now` is before it, any other value fails. -/
def verifyExpiresAt (m : MapClaims) (now : Time) : Bool :=
  match m.lookup "exp" with
  | none => true
  | some (.number exp) => if exp == 0 then true else now.Before (Time.unix exp)
  | some _ => false

/-- Library `MapClaims.VerifyIssuedAt(now, false)`. -/
def verifyIssuedAt (m : MapClaims) (now : Time) : Bool :=
  match m.lookup "iat" with
  | none => true
  | some (.number iat) =>
    if iat == 0 then true else now.After (Time.unix iat) || now.Equal (Time.unix iat)
  | some _ => false

/-- Library `MapClaims.VerifyNotBefore(now, false)`. -/
def verifyNotBefore (m : MapClaims) (now : Time) : Bool :=
  match m.lookup "nbf" with
  | none => true
  | some (.number nbf) =>
    if nbf == 0 then true else now.After (Time.unix nbf) || now.Equal (Time.unix nbf)
  | some _ => false

/-- Library `jwt.Parse(tokenString, keyFunc)` with the key function of the middleware, which
answers `secret` for every token. `decode` splits and decodes the token string (`none` when
it is malformed), `now` is the clock reading of the library, truncated to seconds for the
comparison. The signature is verified first, then the claims are validated (`exp`, `iat`,
`nbf`); the token is `Valid`, and the error nil, exactly when nothing failed. -/
def jwtParse (decode : String → Option RawToken) (secret : String) (now : Time)
    (tokenString : String) : ParseResult :=
  match decode tokenString with
  | none =>
    { token := none
      err := some (.validationError
        { Malformed := true, SignatureInvalid := false, Expired := false, IssuedAt := false,
          NotValidYet := false }) }
  | some raw =>
    if !raw.verifies secret then
      { token := some { Claims := .mapClaims raw.Claims, Valid := false }
        err := some (.validationError
          { Malformed := false, SignatureInvalid := true, Expired := false, IssuedAt := false,
            NotValidYet := false }) }
    else
      let nowSec := Time.unix now.toUnix
      let flags : ValidationFlags :=
        { Malformed := false
          SignatureInvalid := false
          Expired := !verifyExpiresAt raw.Claims nowSec
          IssuedAt := !verifyIssuedAt raw.Claims nowSec
          NotValidYet := !verifyNotBefore raw.Claims nowSec }
      if flags.Expired || flags.IssuedAt || flags.NotValidYet then
        { token := some { Claims := .mapClaims raw.Claims, Valid := false }
          err := some (.validationError flags) }
      else
        { token := some { Claims := .mapClaims raw.Claims, Valid := true }, err := none }

/-- Go `strconv.ParseInt(s, 10, 64)`: an optional sign, then one or more decimal digits, and
the value must fit a signed 64-bit integer; `none` stands for a `*strconv.NumError`. -/
def ParseInt (s : String) : Option Int :=
  let cs := s.toList
  let neg := cs.head? == some '-'
  let digits := if cs.head? == some '-' || cs.head? == some '+' then cs.tail else cs
  if digits.isEmpty || !digits.all isDigit then none
  else
    let n := digits.foldl (fun acc c => acc * 10 + digitVal c) 0
    let v := if neg then -n else n
    if v < -9223372036854775808 || 9223372036854775807 < v then none else some v

/-! ## The auth guard (`internal/middleware/auth/middleware.go`) -/

/-- A Go call either returns or panics at run time. -/
inductive Outcome (α : Type) where
  | returns (a : α)
  | panics (msg : String)
deriving DecidableEq, Repr

/-- Go `authmiddlaware.AuthMiddleware` (the logger is left out). -/
structure AuthMiddleware (ω : Type) where
  next : ServiceInterface ω
  jw : JWTToken

/-- Body of `(*AuthMiddleware).isTokenValid` after the call of `jwt.Parse`, whose results
are `res`; `now` is the value of `time.Now()`. The two results are the user id and the
error. -/
def isTokenValidWith (res : ParseResult) (now : Time) : Outcome (Int × Option GoError) :=
  match res.err, res.token with
  | some err, _ => .returns (0, some err)
  | none, none => .panics "invalid memory address or nil pointer dereference"
  | none, some token =>
    if !token.Valid then .returns (0, none)
    else
      match token.Claims with
      | .otherClaims => .returns (0, none)
      | .mapClaims claims =>
        match claims.lookup "exp" with
        | some (.number exp) =>
          let expirationTime := Time.unix exp
          if now.After expirationTime then .returns (0, some errTokenHasExpired)
          else
            match claims.lookup "sub" with
            | some (.string sub) =>
              match ParseInt sub with
              | none => .returns (0, some errParsingUserId)
              | some userid => .returns (userid, none)
            | _ => .panics "interface conversion: interface is not string"
        | _ => .panics "interface conversion: interface is not float64"

/-- Go `(*AuthMiddleware).isTokenValid`. `parseNow` is the clock reading inside `jwt.Parse`,
`now` the later value of `time.Now()`. -/
def AuthMiddleware.isTokenValid {ω : Type} (decode : String → Option RawToken)
    (m : AuthMiddleware ω) (parseNow now : Time) (tokenString : String) :
    Outcome (Int × Option GoError) :=
  isTokenValidWith (jwtParse decode m.jw.Secret parseNow tokenString) now

/-- Go `(*AuthMiddleware).Health`. -/
def AuthMiddleware.Health {ω : Type} (m : AuthMiddleware ω) (req : HealthRequest) (w : ω) :
    HealthResponse × ω :=
  m.next.Health req w

/-- Go `(*AuthMiddleware).SignIn`. -/
def AuthMiddleware.SignIn {ω : Type} (m : AuthMiddleware ω) (req : SignInRequest) (w : ω) :
    SignInResponse × ω :=
  m.next.SignIn req w

/-- Go `(*AuthMiddleware).CreateReservation`. -/
def AuthMiddleware.CreateReservation {ω : Type} (decode : String → Option RawToken)
    (m : AuthMiddleware ω) (parseNow now : Time) (req : CreateReservationRequest) (w : ω) :
    Outcome (CreateReservationResponse × ω) :=
  let token := req.Token
  match m.isTokenValid decode parseNow now token with
  | .panics msg => .panics msg
  | .returns (_, some _) => .returns ({ Result := some DefaultUnauthorizedError, Data := none }, w)
  | .returns (userId, none) => .returns (m.next.CreateReservation { req with UserId := userId } w)

/-- Go `(*AuthMiddleware).UpdateReservation`. -/
def AuthMiddleware.UpdateReservation {ω : Type} (decode : String → Option RawToken)
    (m : AuthMiddleware ω) (parseNow now : Time) (req : UpdateReservationRequest) (w : ω) :
    Outcome (UpdateReservationResponse × ω) :=
  let token := req.Token
  match m.isTokenValid decode parseNow now token with
  | .panics msg => .panics msg
  | .returns (_, some _) => .returns ({ Result := some DefaultUnauthorizedError, Data := none }, w)
  | .returns (userId, none) => .returns (m.next.UpdateReservation { req with UserId := userId } w)

/-- Go `(*AuthMiddleware).FindReservation`. -/
def AuthMiddleware.FindReservation {ω : Type} (decode : String → Option RawToken)
    (m : AuthMiddleware ω) (parseNow now : Time) (req : FindReservationRequest) (w : ω) :
    Outcome (FindReservationResponse × ω) :=
  let token := req.Token
  match m.isTokenValid decode parseNow now token with
  | .panics msg => .panics msg
  | .returns (_, some _) => .returns ({ Result := some DefaultUnauthorizedError, Data := none }, w)
  | .returns (userId, none) => .returns (m.next.FindReservation { req with UserId := userId } w)

/-- Go `(*AuthMiddleware).FindReservations`. -/
def AuthMiddleware.FindReservations {ω : Type} (decode : String → Option RawToken)
    (m : AuthMiddleware ω) (parseNow now : Time) (req : FindReservationsRequest) (w : ω) :
    Outcome (FindReservationsResponse × ω) :=
  let token := req.Token
  match m.isTokenValid decode parseNow now token with
  | .panics msg => .panics msg
  | .returns (_, some _) => .returns ({ Result := some DefaultUnauthorizedError, Data := none }, w)
  | .returns (userId, none) => .returns (m.next.FindReservations { req with UserId := userId } w)

/-- An error is expiry-classed when it is the `errTokenHasExpired` of the middleware or a
validation error of the library with the `Expired` bit set. -/
def expiryClassed (err : GoError) : Bool :=
  match err with
  | .validationError flags => flags.Expired
  | e => e == errTokenHasExpired

/-! ## Formatting dates and integers (`time.Format`, `strconv.FormatInt`) -/

/-- The decimal digit character of a value below ten. -/
def digitChar (n : Nat) : Char := Char.ofNat (48 + n)

/-- Decimal digits of `n`, most significant first, without leading zeros (`0` for zero).
The first argument bounds the recursion; `n + 1` is enough for `n`. -/
def decimalDigits : Nat → Nat → List Char
  | 0, _ => []
  | fuel + 1, n =>
    if n < 10 then [digitChar n] else decimalDigits fuel (n / 10) ++ [digitChar (n % 10)]

/-- Decimal digits of `n`. -/
def decimal (n : Nat) : List Char := decimalDigits (n + 1) n

/-- Go `strconv.FormatInt(i, 10)`. -/
def FormatInt (i : Int) : String :=
  String.mk (if i < 0 then '-' :: decimal i.natAbs else decimal i.natAbs)

/-- Go `appendInt(b, x, width)` of package time: a minus sign for a negative value, then the
decimal digits padded with zeros on the left up to `width`. -/
def appendInt (x : Int) (width : Nat) : List Char :=
  let digits := decimal x.natAbs
  let padded := List.replicate (width - digits.length) '0' ++ digits
  if x < 0 then '-' :: padded else padded

/-- Civil date `(year, month, day)` of the day that lies `z` days after 1970-01-01 (proleptic
Gregorian calendar), which is what `t.Date()` returns for a time of that day in UTC. -/
def civilFromDays (z : Int) : Int × Int × Int :=
  let z1 := z + 719468
  let era := z1 / 146097
  let doe := z1 - era * 146097
  let yoe := (doe - doe / 1460 + doe / 36524 - doe / 146096) / 365
  let y := yoe + era * 400
  let doy := doe - (365 * yoe + yoe / 4 - yoe / 100)
  let mp := (5 * doy + 2) / 153
  let d := doy - (153 * mp + 2) / 5 + 1
  let m := if mp < 10 then mp + 3 else mp - 9
  (if m ≤ 2 then y + 1 else y, m, d)

/-- Go `t.Format("2006-01-02")` for the instant `t` in a location whose offset east of UTC
at that instant is `offset` seconds: the four-digit year, the two-digit month and the
two-digit day of `t.Date()`, the civil date in that location, joined by `-`. -/
def Time.Format (t : Time) (offset : Int) : String :=
  let date := civilFromDays ((t + offset * nsPerSecond) / (86400 * nsPerSecond))
  String.mk (appendInt date.1 4 ++ '-' :: appendInt date.2.1 2 ++ '-' :: appendInt date.2.2 2)

/-! ## Lookup and sign-in (`internal/service/service.go`) -/

/-- The view that `(*Service).FindReservation` and `(*Service).FindReservations` build from
a stored reservation; `fmt.Sprintf("%s %s", ..)` joins the two names with one space. -/
def findReservationData (reservation : Reservation) : FindReservationData :=
  { PNR := reservation.PNR
    Destination := reservation.Destination
    CheckInDate := reservation.CheckInDate.Format reservation.CheckInDateOffset
    CheckOutDate := reservation.CheckOutDate.Format reservation.CheckOutDateOffset
    Accommodation := reservation.Accommodation
    GuestCount := reservation.GuestCount
    UserName := reservation.User.FirstName ++ " " ++ reservation.User.LastName }

/-- Go `(*Service).FindReservation`. A store that answers a nil reservation with a nil error
makes the field access panic. -/
def Service.FindReservation {σ : Type} (s : Service σ) (req : FindReservationRequest)
    (w : World σ) : Outcome (FindReservationResponse × World σ) :=
  match w.callFindReservation s.ms req.PNR req.UserId with
  | ((_, some err), w1) => .returns ({ Result := some (badRequestWith err), Data := none }, w1)
  | ((none, none), _) => .panics "invalid memory address or nil pointer dereference"
  | ((some reservation, none), w1) =>
    .returns ({ Result := none, Data := some (findReservationData reservation) }, w1)

/-- Go `(*Service).FindReservations`. -/
def Service.FindReservations {σ : Type} (s : Service σ) (req : FindReservationsRequest)
    (w : World σ) : FindReservationsResponse × World σ :=
  match w.callFindReservations s.ms req.UserId with
  | ((_, some err), w1) => ({ Result := some (badRequestWith err), Data := none }, w1)
  | ((reservations, none), w1) =>
    ({ Result := none
       Data := some { Reservations := reservations.map findReservationData
                      IsSuccessfully := true } }, w1)

/-- The claim set that the JSON encoding of `jwt.RegisteredClaims` with `ExpiresAt` and
`Subject` set decodes to: `sub` is left out when empty, `exp` is the whole seconds of
`jwt.NewNumericDate(expiresAt)`, which truncates to the second. -/
def registeredClaims (expiresAt : Time) (subject : String) : MapClaims :=
  (if subject == "" then [] else [("sub", JSONValue.string subject)])
    ++ [("exp", JSONValue.number expiresAt.toUnix)]

/-- Library `jwt.NewWithClaims(jwt.SigningMethodHS256, claims).SignedString(secretKey)`:
signing with HMAC and a byte-slice key does not fail. `encode` is the compact serialisation
of the claims signed with the key; base64, JSON and HMAC are not unfolded. -/
def SignedString (encode : MapClaims → String → String) (claims : MapClaims)
    (secretKey : String) : String × Option GoError :=
  (encode claims secretKey, none)

/-- Go `(*Service).createToken`. `now` is the value of `time.Now()`. -/
def createToken {σ : Type} (encode : MapClaims → String → String) (s : Service σ) (now : Time)
    (userid : Int) : String × Option GoError :=
  let expirationTime := now + 24 * (3600 * nsPerSecond)
  let claims := registeredClaims expirationTime (FormatInt userid)
  match SignedString encode claims s.jw.Secret with
  | (_, some err) => ("", some err)
  | (tokenString, none) => (tokenString, none)

/-- Go `(*Service).SignIn`. `md5hex` is `hex.EncodeToString` of `md5.Sum` (the digest is not
unfolded), `now` the value of `time.Now()` in `createToken`. A store that answers a nil user
with a nil error makes the field access panic. -/
def Service.SignIn {σ : Type} (md5hex : String → String)
    (encode : MapClaims → String → String) (s : Service σ) (now : Time)
    (req : SignInRequest) (w : World σ) : Outcome (SignInResponse × World σ) :=
  let userName := req.UserName
  let password := md5hex req.Password
  match w.callSignIn s.ms userName password with
  | ((_, some err), w1) => .returns ({ Result := some (badRequestWith err), Data := none }, w1)
  | ((none, none), _) => .panics "invalid memory address or nil pointer dereference"
  | ((some usr, none), w1) =>
    match createToken encode s now usr.ID with
    | (_, some err) => .returns ({ Result := some (badRequestWith err), Data := none }, w1)
    | (token, none) =>
      .returns ({ Result := none, Data := some { IsSuccessfully := true, Token := token } }, w1)

/-! ## Request validation (`internal/transport/http/http.go`) -/

/-- One `validate` struct tag of a request type, evaluated on a decoded request: the Go name
of the field, the tag, and whether the value of the field violates it. -/
structure FieldCheck where
  Field : String
  Tag : String
  violated : Bool
deriving DecidableEq, Repr

/-- Library `validator.New().Struct(req)`: the failures of the tagged fields, in declaration
order. Without a registered tag-name function a failure reports the Go name of the field. -/
def structErrors (checks : List FieldCheck) : List FieldCheck :=
  checks.filter fun c => c.violated

/-- Go `validate` of the transport: nil without failures, else an error built from the first
failure. -/
def validate (checks : List FieldCheck) : Option GoError :=
  match structErrors checks with
  | [] => none
  | firstErr :: _ =>
    some (.errorString
      ("validation failed, tag: " ++ firstErr.Tag ++ ", field: " ++ firstErr.Field))

/-- Go `apierror.NewValidationError`. -/
def NewValidationError (message : String) (messageLocalizerKey : String) : APIError :=
  { Message := message, Name := NameValidationError, Code := CodeValidationError,
    StatusCode := 400, ErrorAction := 0, BaseError := none,
    MessageLocalizerKey := messageLocalizerKey }

/-- The last step of the function that `makeDecoder` returns, once header, query and body
are decoded into `req`: the two results are the request and the error. -/
def validateDecoded {α : Type} (req : α) (checks : List FieldCheck) :
    Option α × Option APIError :=
  match validate checks with
  | some err => (none, some { NewValidationError err.Error "" with BaseError := some err })
  | none => (some req, none)

/-- The `validate` tags of `hotelcalifornia.SignInRequest`; `required` fails on the zero
value. -/
def SignInRequest.checks (req : SignInRequest) : List FieldCheck :=
  [ { Field := "UserName", Tag := "required", violated := req.UserName == "" },
    { Field := "Password", Tag := "required", violated := req.Password == "" } ]

/-- The `validate` tags of `hotelcalifornia.CreateReservationRequest`. -/
def CreateReservationRequest.checks (req : CreateReservationRequest) : List FieldCheck :=
  [ { Field := "Destination", Tag := "required", violated := req.Destination == "" },
    { Field := "CheckInDate", Tag := "required", violated := req.CheckInDate == "" },
    { Field := "CheckOutDate", Tag := "required", violated := req.CheckOutDate == "" },
    { Field := "Accommodation", Tag := "required", violated := req.Accommodation == "" },
    { Field := "GuestCount", Tag := "required", violated := req.GuestCount == 0 } ]

/-- The `validate` tags of `hotelcalifornia.UpdateReservationRequest`. -/
def UpdateReservationRequest.checks (req : UpdateReservationRequest) : List FieldCheck :=
  [ { Field := "PNR", Tag := "required", violated := req.PNR == "" },
    { Field := "Destination", Tag := "required", violated := req.Destination == "" },
    { Field := "CheckInDate", Tag := "required", violated := req.CheckInDate == "" },
    { Field := "CheckOutDate", Tag := "required", violated := req.CheckOutDate == "" },
    { Field := "Accommodation", Tag := "required", violated := req.Accommodation == "" },
    { Field := "GuestCount", Tag := "required", violated := req.GuestCount == 0 } ]

/-- The `validate` tags of `hotelcalifornia.FindReservationRequest`. -/
def FindReservationRequest.checks (req : FindReservationRequest) : List FieldCheck :=
  [ { Field := "PNR", Tag := "required", violated := req.PNR == "" } ]

/-! ## A wrapped service that records its calls -/

/-- One call of a method of `hotelcalifornia.Service`. -/
inductive ServiceCall where
  | Health (req : HealthRequest)
  | SignIn (req : SignInRequest)
  | CreateReservation (req : CreateReservationRequest)
  | UpdateReservation (req : UpdateReservationRequest)
  | FindReservation (req : FindReservationRequest)
  | FindReservations (req : FindReservationsRequest)
deriving DecidableEq, Repr

/-- The service `next` with a log of the calls it receives, oldest first. -/
def recording {ω : Type} (next : ServiceInterface ω) : ServiceInterface (ω × List ServiceCall) :=
  { Health := fun req w =>
      ((next.Health req w.1).1, (next.Health req w.1).2, w.2 ++ [ServiceCall.Health req])
    SignIn := fun req w =>
      ((next.SignIn req w.1).1, (next.SignIn req w.1).2, w.2 ++ [ServiceCall.SignIn req])
    CreateReservation := fun req w =>
      ((next.CreateReservation req w.1).1, (next.CreateReservation req w.1).2,
        w.2 ++ [ServiceCall.CreateReservation req])
    UpdateReservation := fun req w =>
      ((next.UpdateReservation req w.1).1, (next.UpdateReservation req w.1).2,
        w.2 ++ [ServiceCall.UpdateReservation req])
    FindReservation := fun req w =>
      ((next.FindReservation req w.1).1, (next.FindReservation req w.1).2,
        w.2 ++ [ServiceCall.FindReservation req])
    FindReservations := fun req w =>
      ((next.FindReservations req w.1).1, (next.FindReservations req w.1).2,
        w.2 ++ [ServiceCall.FindReservations req]) }

/-- The auth middleware around the recording version of `next`. -/
def recordingMiddleware {ω : Type} (next : ServiceInterface ω) (jw : JWTToken) :
    AuthMiddleware (ω × List ServiceCall) :=
  { next := recording next, jw := jw }

/-! ## Well-formed dates, in the words of the specification -/

/-- Number of days of `month` in `year`: 31, 30, or 28 and 29 for February, with a leap year
every fourth year except the centuries not divisible by 400. -/
def daysInMonth (year month : Nat) : Nat :=
  if month = 2 then
    (if year % 400 = 0 ∨ (year % 4 = 0 ∧ year % 100 ≠ 0) then 29 else 28)
  else if month = 4 ∨ month = 6 ∨ month = 9 ∨ month = 11 then 30
  else 31

/-- A well-formed `YYYY-MM-DD` calendar date: four decimal digits, `-`, two decimal digits,
`-`, two decimal digits, where the month is between 1 and 12 and the day between 1 and the
number of days of that month in that year. -/
def wellFormedDate (dateString : String) : Prop :=
  ∃ y1 y2 y3 y4 m1 m2 d1 d2 : Nat,
    y1 < 10 ∧ y2 < 10 ∧ y3 < 10 ∧ y4 < 10 ∧ m1 < 10 ∧ m2 < 10 ∧ d1 < 10 ∧ d2 < 10
    ∧ dateString.toList
        = [digitChar y1, digitChar y2, digitChar y3, digitChar y4, '-', digitChar m1,
           digitChar m2, '-', digitChar d1, digitChar d2]
    ∧ 1 ≤ 10 * m1 + m2 ∧ 10 * m1 + m2 ≤ 12
    ∧ 1 ≤ 10 * d1 + d2
    ∧ 10 * d1 + d2 ≤ daysInMonth (1000 * y1 + 100 * y2 + 10 * y3 + y4) (10 * m1 + m2)

/-- The reservation value that `(*Service).UpdateReservation` builds and hands to the
store (`rev` in `service.go`), for the parsed dates `checkInDate` and `checkOutDate`. -/
def updateRev (req : UpdateReservationRequest) (checkInDate checkOutDate : Time) :
    Reservation :=
  { Reservation.zeroValue with
    PNR := req.PNR, UserID := req.UserId, Destination := req.Destination,
    CheckInDate := checkInDate, CheckOutDate := checkOutDate,
    Accommodation := req.Accommodation, GuestCount := req.GuestCount }

/-- The reservation value that `(*Service).CreateReservation` builds and hands to the
store (`rev` in `service.go`), for the parsed dates, the clock reading and the random
source. -/
def createRev (req : CreateReservationRequest) (now : Time) (rnd : Nat → Nat)
    (checkInDate checkOutDate : Time) : Reservation :=
  { Reservation.zeroValue with
    UserID := req.UserId, PNR := generatePNR rnd pnrLen, Destination := req.Destination,
    CheckInDate := checkInDate, CheckOutDate := checkOutDate, CreatedAt := now,
    Accommodation := req.Accommodation, GuestCount := req.GuestCount,
    IsActive := true, IsDeleted := false }

/-- The tail of `(*Service).UpdateReservation` from the call of the store on. -/
def updateViaStore {σ : Type} (s : Service σ) (rev : Reservation) (w : World σ) :
    UpdateReservationResponse × World σ :=
  match w.callUpdateReservation s.ms rev with
  | (some err, w1) => ({ Result := some (badRequestWith err), Data := none }, w1)
  | (none, w1) => ({ Result := none, Data := some { IsSuccessfully := true } }, w1)

/-! ## Localization (`internal/localization/localization.go`) -/

/-- A `*i18n.Localizer` as the code uses it: for a message id, the localized message when
`l.Localize` returns a nil error, and `none` when it returns an error. -/
abbrev Localizer := String → Option String

/-- Go `localization.Localize`: the localized message, or the default message when the
localizer returns an error. -/
def Localize (l : Localizer) (messageID : String) (defaultMessage : String) : String :=
  match l messageID with
  | none => defaultMessage
  | some localizedMessage => localizedMessage

/-- Go `(*APIError).Localize`: the `Message` field is overwritten in place. -/
def APIError.Localize (apiErr : APIError) (l : Localizer) : APIError :=
  { apiErr with
    Message := HotelCalifornia.Localize l apiErr.MessageLocalizerKey apiErr.Message }

/-! ## Encoding errors (`internal/transport/http/http.go`) -/

/-- An `error` value as the transport receives it: an `*APIError`, an error that wraps
nothing, or an error whose `Unwrap` method yields `inner`. -/
inductive ErrorChain where
  | apiError (apiErr : APIError)
  | other (err : GoError)
  | wraps (text : String) (inner : ErrorChain)
deriving DecidableEq, Repr

/-- Go `errors.As(err, &apiErr)` with a target of type `*APIError`: the first `*APIError`
on the chain of `Unwrap`. `*APIError` has no `Unwrap` method, so its `BaseError` is not
followed. -/
def errorsAs : ErrorChain → Option APIError
  | .apiError apiErr => some apiErr
  | .other _ => none
  | .wraps _ inner => errorsAs inner

/-- The JSON object that `encoding/json` writes for an `*APIError`: the fields whose tag is
not `json:"-"`; `errorAction` is left out when it is zero (`omitempty`). -/
structure APIErrorJSON where
  message : String
  name : String
  code : Int
  statusCode : Int
  errorAction : Option Int
deriving DecidableEq, Repr

/-- The encoding of an `*APIError` by `encoding/json`, following the struct tags. -/
def APIError.toJSON (apiErr : APIError) : APIErrorJSON :=
  { message := apiErr.Message, name := apiErr.Name, code := apiErr.Code,
    statusCode := apiErr.StatusCode,
    errorAction := if apiErr.ErrorAction == 0 then none else some apiErr.ErrorAction }

/-- Go `errorResponse`; the only value ever stored in `Data` is nil. -/
structure errorResponse where
  Data : Option Unit
  Result : APIError
deriving DecidableEq, Repr

/-- The JSON object written for an `errorResponse`; `data = none` is JSON `null`. -/
structure errorResponseJSON where
  data : Option Unit
  result : APIErrorJSON
deriving DecidableEq, Repr

/-- The encoding of an `errorResponse` by `encoding/json`. -/
def errorResponse.toJSON (er : errorResponse) : errorResponseJSON :=
  { data := er.Data, result := er.Result.toJSON }

/-- What `errorEncoder` did with the `http.ResponseWriter`: the `Content-Type` header it
set, the status it passed to `WriteHeader`, and the body it wrote. -/
structure ResponseWriter where
  ContentType : String
  StatusCode : Int
  body : errorResponseJSON
deriving DecidableEq, Repr

/-- Go `errorEncoder`. `l` is the localizer that `localization.AddLocalizerToContext` put
into the context of the request. `internal` is the current value of the package variable
`apierror.DefaultInternalServerError`: it is the object localized when the error is not
classified, and `Localize` overwrites its message in place. An `*APIError` found on the chain
is taken to be another object than that variable; `Localize` overwrites the message of that
object in place as well. The results are what was written, the value of the variable
afterwards, and the value that the `*APIError` found on the chain holds afterwards (`none`
when there is none on the chain). -/
def errorEncoder (l : Localizer) (err : ErrorChain) (internal : APIError) :
    ResponseWriter × APIError × Option APIError :=
  match errorsAs err with
  | none =>
    let apiErr := internal.Localize l
    let er : errorResponse := { Data := none, Result := apiErr }
    ({ ContentType := "application/json; charset=utf-8", StatusCode := apiErr.StatusCode,
       body := er.toJSON }, apiErr, none)
  | some apiErr =>
    let apiErr := apiErr.Localize l
    let er : errorResponse := { Data := none, Result := apiErr }
    ({ ContentType := "application/json; charset=utf-8", StatusCode := apiErr.StatusCode,
       body := er.toJSON }, internal, some apiErr)

/-! ## Sample values -/

/-- Modelled from the spec: `apierror.CouldNotCheckInGreaterThanCheckout` is referenced by
`service.go` but declared outside the sources at hand; section 7 of the specification names
this failure `CheckInAfterCheckout`, a caller-correctable failure of its own. Sample value
used where a concrete one is needed. -/
def sampleCheckInAfterCheckout : APIError :=
  { Message := "", Name := "CheckInAfterCheckout", Code := 7, StatusCode := 400,
    ErrorAction := 0, BaseError := none, MessageLocalizerKey := "check-in-after-checkout" }

/-- Modelled from the spec: sample values for the declarations of `Decls`, which are not in
the sources at hand. -/
def sampleDecls : Decls :=
  { locCouldNotCreateReservation := "could-not-create-reservation"
    locCouldNotChangeReservationCheckInDate := "could-not-change-reservation-check-in-date"
    CouldNotCheckInGreaterThanCheckout := sampleCheckInAfterCheckout }

/-- A stored reservation of user 7 with check-in 2030-01-01 and check-out 2030-01-05. -/
def sampleRow : Reservation :=
  { Reservation.zeroValue with
    ID := 1, UserID := 7, PNR := "abcdEFGH", Destination := "Rome",
    CheckInDate := Time.date 2030 1 1, CheckOutDate := Time.date 2030 1 5,
    Accommodation := "city", GuestCount := 2, CreatedAt := Time.date 2024 6 1,
    IsActive := true, IsDeleted := false }

/-- A stored reservation of user 7 whose check-in 2020-01-01 lies before `sampleNow`. -/
def samplePastRow : Reservation :=
  { sampleRow with CheckInDate := Time.date 2020 1 1, CheckOutDate := Time.date 2020 1 5 }

/-- The clock reading 2025-01-01T00:00:00Z. -/
def sampleNow : Time := Time.date 2025 1 1

/-- A database holding `sampleRow` only. -/
def sampleDB : DB := { reservations := [sampleRow], users := [], trace := [] }

/-- A database holding `samplePastRow` only. -/
def samplePastDB : DB := { reservations := [samplePastRow], users := [], trace := [] }

/-- The service over the MySQL store without driver errors, store clock at `sampleNow`. -/
def sampleService : Service DB :=
  { environment := "dev", ms := mysqlStore Faults.none sampleNow, jw := { Secret := "secret" } }

/-- A world around `sampleDB` with an empty call log. -/
def sampleWorld : World DB := { db := sampleDB, calls := [] }

/-- A world around `samplePastDB` with an empty call log. -/
def samplePastWorld : World DB := { db := samplePastDB, calls := [] }

/-- A create request of user 7 for a same-day stay on 2030-02-01. -/
def sampleCreate : CreateReservationRequest :=
  { AcceptLanguage := "en", Token := "tok", IPAddress := "127.0.0.1", UserId := 7,
    Destination := "Oslo", CheckInDate := "2030-02-01", CheckOutDate := "2030-02-01",
    Accommodation := "beach", GuestCount := 2 }

/-- An update request of user 7 for PNR `abcdEFGH`, 2031-01-01 to 2031-01-02. -/
def sampleUpdate : UpdateReservationRequest :=
  { AcceptLanguage := "en", Token := "tok", IPAddress := "127.0.0.1", UserId := 7,
    PNR := "abcdEFGH", Destination := "Oslo", CheckInDate := "2031-01-01",
    CheckOutDate := "2031-01-02", Accommodation := "beach", GuestCount := 1 }

/-- A random source. -/
def sampleRnd : Nat → Nat := fun i => i * 17 + 3

/-- A wrapped service that answers every call with an empty response. -/
def sampleNext : ServiceInterface Unit :=
  { Health := fun _ w => ({ Ping := "Pong" }, w)
    SignIn := fun _ w => ({ Result := none, Data := none }, w)
    CreateReservation := fun _ w => ({ Result := none, Data := none }, w)
    UpdateReservation := fun _ w => ({ Result := none, Data := none }, w)
    FindReservation := fun _ w => ({ Result := none, Data := none }, w)
    FindReservations := fun _ w => ({ Result := none, Data := none }, w) }

/-- The auth middleware around `sampleNext` with the secret `secret`. -/
def sampleMiddleware : AuthMiddleware Unit :=
  { next := sampleNext, jw := { Secret := "secret" } }

/-- A token of user 42 that expires at second 1735689600 (2025-01-01T00:00:00Z), signed
with the secret `secret`. -/
def sampleRawToken : RawToken :=
  { Claims := [("exp", .number 1735689600), ("sub", .string "42")]
    verifies := fun key => key == "secret" }

/-- A decoder that knows the token string `tok` only. -/
def sampleDecode : String → Option RawToken :=
  fun tokenString => if tokenString == "tok" then some sampleRawToken else none

/-- A find request carrying the token `tok`. -/
def sampleFind : FindReservationRequest :=
  { AcceptLanguage := "en", Token := "tok", IPAddress := "127.0.0.1", UserId := 0,
    PNR := "abcdEFGH" }

/-- A list request carrying the token `tok`. -/
def sampleFindAll : FindReservationsRequest :=
  { AcceptLanguage := "en", Token := "tok", IPAddress := "127.0.0.1", UserId := 0 }

/-- A decoder that reads the token string `tok` as a token with the given claims, signed
with the secret `secret`. -/
def sampleDecodeWith (claims : MapClaims) : String → Option RawToken :=
  fun tokenString =>
    if tokenString == "tok" then
      some { Claims := claims, verifies := fun key => key == "secret" }
    else none

/-- The user record of user 7. -/
def sampleUser : User :=
  { ID := 7, FirstName := "John", LastName := "Doe", Username := "jdoe",
    Password := "5ebe2294ecd0e0f08eab7690d2a6ee69", CreatedAt := Time.date 2024 1 1,
    IsActive := true, IsDeleted := false }

/-- A world whose database holds `sampleRow` and the user record of its owner. -/
def sampleUsersWorld : World DB :=
  { db := { reservations := [sampleRow], users := [sampleUser], trace := [] }, calls := [] }

/-- A find request of user 7 for PNR `abcdEFGH`. -/
def sampleFindOwn : FindReservationRequest :=
  { AcceptLanguage := "en", Token := "tok", IPAddress := "127.0.0.1", UserId := 7,
    PNR := "abcdEFGH" }

/-- A health request. -/
def sampleHealth : HealthRequest := { IPAddress := "127.0.0.1" }

/-- A sign-in request. -/
def sampleSignIn : SignInRequest :=
  { IPAddress := "127.0.0.1", UserName := "jdoe", Password := "secret" }

/-- The MD5 digest in hexadecimal of the password `secret`; the digest of another password
is not needed and reads as the empty string. -/
def sampleMd5hex : String → String :=
  fun password => if password == "secret" then "5ebe2294ecd0e0f08eab7690d2a6ee69" else ""

/-- A readable stand-in for the compact serialisation: the claims written as `name=value`
and joined by `;` (the signature segment is left out). -/
def sampleEncode : MapClaims → String → String :=
  fun claims _ =>
    String.intercalate ";" (claims.map fun kv =>
      kv.1 ++ "=" ++
        match kv.2 with
        | .number n => FormatInt n
        | .string str => str
        | _ => "")

/-- The decoder for `sampleEncode` on the token of user 7 that expires at second 1735776000
(2025-01-02T00:00:00Z), signed with the secret `secret`. -/
def sampleDecodeIssued : String → Option RawToken :=
  fun tokenString =>
    if tokenString == "sub=7;exp=1735776000" then
      some { Claims := [("sub", .string "7"), ("exp", .number 1735776000)]
             verifies := fun key => key == "secret" }
    else none

/-- Modelled from the spec: the language files are not part of the sources at hand; a sample
localizer that knows the generic internal-error message and the message of
`sampleDecls.locCouldNotCreateReservation`, and no other message id. -/
def sampleLocalizer : Localizer :=
  fun messageID =>
    if messageID == "default-internal-server-error-message" then
      some "An unexpected error occurred"
    else if messageID == "could-not-create-reservation" then
      some "The reservation could not be created"
    else none

/-- A stored reservation of user 8, with another primary key and PNR than `sampleRow`. -/
def sampleOtherRow : Reservation :=
  { Reservation.zeroValue with
    ID := 2, UserID := 8, PNR := "zyxw9876", Destination := "Lima",
    CheckInDate := Time.date 2030 3 1, CheckOutDate := Time.date 2030 3 9,
    Accommodation := "mountain", GuestCount := 4, CreatedAt := Time.date 2024 7 1,
    IsActive := true, IsDeleted := false }

/-- A database that holds `sampleOtherRow` and `sampleRow`, in that order. -/
def sampleTwoRowsDB : DB :=
  { reservations := [sampleOtherRow, sampleRow], users := [sampleUser], trace := [] }

/-- The value that the service hands to the store for `sampleUpdate`. -/
def sampleUpdateRev : Reservation :=
  updateRev sampleUpdate (Time.date 2031 1 1) (Time.date 2031 1 2)

/-- A stored reservation of user 8 that carries the PNR of `sampleRow`. -/
def sampleTwinRow : Reservation :=
  { sampleOtherRow with PNR := "abcdEFGH" }

/-- A database in which two reservations carry the same PNR: the one of user 8 comes first in
primary-key order, the one of user 7 second. -/
def sampleTwinDB : DB :=
  { reservations := [sampleTwinRow, { sampleRow with ID := 3 }], users := [], trace := [] }

/-- The sample service over a store whose driver answers every insert with
`duplicate entry`. -/
def sampleFailingService : Service DB :=
  { sampleService with
    ms := mysqlStore { Faults.none with createErr := some (.errorString "duplicate entry") }
      sampleNow }

/-- The world after a create of `sampleCreate` failed in the store of `sampleFailingService`
and `errorEncoder` encoded the response with `sampleLocalizer`: the response is the shared
variable `apierror.CouldNotCreateReservation`, so what `Localize` left in it is the state of
the variable. -/
def sampleWorldAfterFailure : World DB :=
  let r :=
    Service.CreateReservation sampleDecls sampleFailingService sampleNow sampleRnd sampleCreate
      sampleWorld
  match r.1.Result with
  | none => r.2
  | some apiErr =>
    match (errorEncoder sampleLocalizer (.apiError apiErr) DefaultInternalServerError).2.2 with
    | none => r.2
    | some localized => r.2.assignCouldNotCreateReservation localized

/-- A reservation as a store may hand it out with its dates in a location fourteen hours
east of UTC: check-in 2030-01-01T00:30+14:00, which is the instant 2029-12-31T10:30Z, and
check-out 2030-01-05T00:30+14:00. -/
def sampleEasternRow : Reservation :=
  { sampleRow with
    User := sampleUser
    CheckInDate := Time.date 2029 12 31 + 37800 * nsPerSecond, CheckInDateOffset := 50400
    CheckOutDate := Time.date 2030 1 4 + 37800 * nsPerSecond, CheckOutDateOffset := 50400 }

/-- A store without state that answers every lookup with `sampleEasternRow`. -/
def sampleEasternStore : Store Unit :=
  { CreateReservation := fun _ _ => (none, ())
    UpdateReservation := fun _ _ => (none, ())
    SignIn := fun _ _ _ => ((none, some (.errorString "user not found")), ())
    FindReservation := fun _ _ _ => ((some sampleEasternRow, none), ())
    FindReservations := fun _ _ => (([sampleEasternRow], none), ()) }

/-! ## Auxiliary lemmas -/

theorem validAccommodation_iff (ac : String) :
    validAccommodation ac = true ↔ ac = "beach" ∨ ac = "city" ∨ ac = "mountain" := by
  simp only [validAccommodation, AccommodationTypes, List.any_cons, List.any_nil,
    Bool.or_false, Bool.or_eq_true, beq_iff_eq]
  constructor
  · rintro (h | h | h)
    · exact Or.inl h.symm
    · exact Or.inr (Or.inl h.symm)
    · exact Or.inr (Or.inr h.symm)
  · rintro (h | h | h)
    · exact Or.inl h.symm
    · exact Or.inr (Or.inl h.symm)
    · exact Or.inr (Or.inr h.symm)

theorem validAccommodation_false (ac : String) (h1 : ac ≠ "beach") (h2 : ac ≠ "city")
    (h3 : ac ≠ "mountain") : validAccommodation ac = false := by
  cases h : validAccommodation ac with
  | false => rfl
  | true =>
    rcases (validAccommodation_iff ac).1 h with h | h | h
    · exact absurd h h1
    · exact absurd h h2
    · exact absurd h h3

theorem parseDate_of_timeParse (dateString : String) (t : Time)
    (h : timeParse dateString = some t) : parseDate dateString = (t, none) := by
  simp [parseDate, h]

theorem charset_length : charset.length = 62 := by decide

theorem charset_alphanumeric :
    ∀ k, k < 62 →
      (('a' ≤ charset.toList.getD k 'a' ∧ charset.toList.getD k 'a' ≤ 'z')
        ∨ ('A' ≤ charset.toList.getD k 'a' ∧ charset.toList.getD k 'a' ≤ 'Z')
        ∨ ('0' ≤ charset.toList.getD k 'a' ∧ charset.toList.getD k 'a' ≤ '9')) := by
  decide

theorem generatePNR_toList (rnd : Nat → Nat) (length : Nat) :
    (generatePNR rnd length).toList
      = (List.range length).map fun i => charset.toList.getD (Intn (rnd i) charset.length) 'a' :=
  rfl

theorem generatePNR_length (rnd : Nat → Nat) (length : Nat) :
    (generatePNR rnd length).length = length := by
  show ((List.range length).map _).length = length
  rw [List.length_map, List.length_range]

theorem find_of_unique (rows : List Reservation) (R : Reservation) (pnr : String)
    (hmem : R ∈ rows) (hpnr : pnr = R.PNR)
    (hunique : rows.Pairwise fun a b => a.PNR ≠ b.PNR) :
    rows.find? (fun r => r.PNR == pnr) = some R := by
  induction rows with
  | nil => cases hmem
  | cons a t ih =>
    rw [List.pairwise_cons] at hunique
    rcases List.mem_cons.1 hmem with h | h
    · subst h
      simp [List.find?, hpnr]
    · have hne : a.PNR ≠ pnr := by
        rw [hpnr]
        exact hunique.1 R h
      have hbeq : (a.PNR == pnr) = false := by simpa using hne
      rw [List.find?, hbeq]
      exact ih h hunique.2

theorem first_of_unique (db : DB) (f : Faults) (R : Reservation) (pnr : String)
    (hmem : R ∈ db.reservations) (hpnr : pnr = R.PNR)
    (hunique : db.reservations.Pairwise fun a b => a.PNR ≠ b.PNR)
    (hf : f.firstErr = none) : db.first f pnr = .ok R := by
  simp [DB.first, hf, find_of_unique db.reservations R pnr hmem hpnr hunique]

theorem store_update_owner_mismatch (f : Faults) (now : Time) (res : Reservation) (db : DB)
    (R : Reservation) (hb : f.beginErr = none) (hfirst : db.first f res.PNR = .ok R)
    (huser : res.UserID ≠ R.UserID) :
    store.UpdateReservation f now res db
      = (some (.errorString
          "the reservation you are trying to update does not belong to this user"),
         (db.record .begin).record (.first res.PNR)) := by
  simp [store.UpdateReservation, hb, hfirst, huser]

theorem store_update_past_checkin (f : Faults) (now : Time) (res : Reservation) (db : DB)
    (R : Reservation) (hb : f.beginErr = none) (hfirst : db.first f res.PNR = .ok R)
    (huser : res.UserID = R.UserID) (hpast : R.CheckInDate < now) :
    store.UpdateReservation f now res db
      = (some (.errorString "the check-in date of a past reservation cannot be changed"),
         (db.record .begin).record (.first res.PNR)) := by
  simp [store.UpdateReservation, hb, hfirst, huser, Time.After, hpast]

theorem service_update_shape {σ : Type} (d : Decls) (s : Service σ) (now : Time)
    (req : UpdateReservationRequest) (w : World σ) :
    (∃ e, Service.UpdateReservation d s now req w = ({ Result := some e, Data := none }, w))
    ∨ (∃ checkIn checkOut, timeParse req.CheckInDate = some checkIn
        ∧ timeParse req.CheckOutDate = some checkOut
        ∧ Service.UpdateReservation d s now req w
            = updateViaStore s (updateRev req checkIn checkOut) w) := by
  unfold Service.UpdateReservation
  by_cases hva : validAccommodation req.Accommodation = true
  · cases hci : timeParse req.CheckInDate with
    | none => exact Or.inl ⟨_, by simp [hva, parseDate, hci]; rfl⟩
    | some checkIn =>
      cases hco : timeParse req.CheckOutDate with
      | none => exact Or.inl ⟨_, by simp [hva, parseDate, hci, hco]; rfl⟩
      | some checkOut =>
        by_cases h1 : now.After checkIn = true
        · exact Or.inl ⟨_, by simp [hva, parseDate, hci, hco, h1]; rfl⟩
        · by_cases h2 : checkIn.After checkOut = true
          · exact Or.inl ⟨_, by simp [hva, parseDate, hci, hco, h1, h2]; rfl⟩
          · refine Or.inr ⟨checkIn, checkOut, rfl, rfl, ?_⟩
            simp [hva, parseDate, hci, hco, h1, h2, updateViaStore, updateRev]
  · exact Or.inl ⟨_, by simp [hva]; rfl⟩

theorem service_update_passes {σ : Type} (d : Decls) (s : Service σ) (now : Time)
    (req : UpdateReservationRequest) (w : World σ) (checkIn checkOut : Time)
    (hac : req.Accommodation = "beach" ∨ req.Accommodation = "city"
      ∨ req.Accommodation = "mountain")
    (hin : timeParse req.CheckInDate = some checkIn)
    (hout : timeParse req.CheckOutDate = some checkOut)
    (hnow : now ≤ checkIn) (hord : checkIn ≤ checkOut) :
    Service.UpdateReservation d s now req w
      = updateViaStore s (updateRev req checkIn checkOut) w := by
  have hva := (validAccommodation_iff req.Accommodation).2 hac
  simp [Service.UpdateReservation, hva, parseDate_of_timeParse _ _ hin,
    parseDate_of_timeParse _ _ hout, Time.After, not_lt.2 hnow, not_lt.2 hord,
    updateViaStore, updateRev]

theorem updateViaStore_of_error (s : Service DB) (f : Faults) (storeNow : Time)
    (rev : Reservation) (w : World DB) (err : GoError) (db1 : DB)
    (h : store.UpdateReservation f storeNow rev w.db = (some err, db1)) :
    updateViaStore { s with ms := mysqlStore f storeNow } rev w
      = ({ Result := some (badRequestWith err), Data := none },
         { w with
           db := db1, calls := w.calls ++ [StoreCall.UpdateReservation rev] }) := by
  simp [updateViaStore, World.callUpdateReservation, mysqlStore, h]

theorem store_update_other_user (f : Faults) (now : Time) (res : Reservation) (db : DB)
    (R : Reservation) (hmem : R ∈ db.reservations)
    (hunique : db.reservations.Pairwise fun a b => a.PNR ≠ b.PNR)
    (hpnr : res.PNR = R.PNR) (huser : res.UserID ≠ R.UserID) :
    ∃ err db1, store.UpdateReservation f now res db = (some err, db1)
      ∧ db1.reservations = db.reservations
      ∧ (∀ row, DBOp.save row ∈ db1.trace → DBOp.save row ∈ db.trace) := by
  cases hb : f.beginErr with
  | some e => exact ⟨e, db, by simp [store.UpdateReservation, hb], rfl, fun _ h => h⟩
  | none =>
    cases hf : f.firstErr with
    | some e =>
      refine ⟨e, ((db.record .begin).record (.first res.PNR)).record .rollback,
        by simp [store.UpdateReservation, hb, DB.first, hf], rfl, ?_⟩
      intro row h
      simpa [DB.record] using h
    | none =>
      have hfirst := first_of_unique db f R res.PNR hmem hpnr hunique hf
      refine ⟨_, _, store_update_owner_mismatch f now res db R hb hfirst huser, rfl, ?_⟩
      intro row h
      simpa [DB.record] using h

theorem store_update_past_fails (f : Faults) (now : Time) (res : Reservation) (db : DB)
    (R : Reservation) (hmem : R ∈ db.reservations)
    (hunique : db.reservations.Pairwise fun a b => a.PNR ≠ b.PNR)
    (hpnr : res.PNR = R.PNR) (huser : res.UserID = R.UserID) (hpast : R.CheckInDate < now) :
    ∃ err db1, store.UpdateReservation f now res db = (some err, db1)
      ∧ db1.reservations = db.reservations := by
  cases hb : f.beginErr with
  | some e => exact ⟨e, db, by simp [store.UpdateReservation, hb], rfl⟩
  | none =>
    cases hf : f.firstErr with
    | some e =>
      exact ⟨e, ((db.record .begin).record (.first res.PNR)).record .rollback,
        by simp [store.UpdateReservation, hb, DB.first, hf], rfl⟩
    | none =>
      have hfirst := first_of_unique db f R res.PNR hmem hpnr hunique hf
      exact ⟨_, _, store_update_past_checkin f now res db R hb hfirst huser hpast, rfl⟩

theorem seconds_le_truncated (exp now : Int) (h : exp * 1000000000 ≤ now) :
    ¬ now / 1000000000 * 1000000000 < exp * 1000000000 := by
  omega

theorem unix_le_truncated (exp : Int) (now : Time) (h : Time.unix exp ≤ now) :
    ¬ Time.unix now.toUnix < Time.unix exp :=
  seconds_le_truncated exp now h

theorem jwtParse_expired (decode : String → Option RawToken) (secret : String)
    (parseNow : Time) (tokenString : String) (raw : RawToken) (exp : Int)
    (hdecode : decode tokenString = some raw) (hsig : raw.verifies secret = true)
    (hexp : raw.Claims.lookup "exp" = some (.number exp)) (hnz : exp ≠ 0)
    (hnow : Time.unix exp ≤ parseNow) :
    ∃ flags, flags.Expired = true
      ∧ jwtParse decode secret parseNow tokenString
          = { token := some { Claims := .mapClaims raw.Claims, Valid := false }
              err := some (.validationError flags) } := by
  have hver : verifyExpiresAt raw.Claims (Time.unix parseNow.toUnix) = false := by
    simp [verifyExpiresAt, hexp, hnz, Time.Before, unix_le_truncated exp parseNow hnow]
  refine ⟨{ Malformed := false, SignatureInvalid := false, Expired := true,
            IssuedAt := !verifyIssuedAt raw.Claims (Time.unix parseNow.toUnix),
            NotValidYet := !verifyNotBefore raw.Claims (Time.unix parseNow.toUnix) }, rfl, ?_⟩
  simp [jwtParse, hdecode, hsig, hver]

theorem service_create_passes {σ : Type} (d : Decls) (s : Service σ) (now : Time)
    (rnd : Nat → Nat) (req : CreateReservationRequest) (w : World σ) (checkIn checkOut : Time)
    (hac : req.Accommodation = "beach" ∨ req.Accommodation = "city"
      ∨ req.Accommodation = "mountain")
    (hin : timeParse req.CheckInDate = some checkIn)
    (hout : timeParse req.CheckOutDate = some checkOut)
    (hord : checkIn ≤ checkOut) :
    Service.CreateReservation d s now rnd req w
      = (match w.callCreateReservation s.ms (createRev req now rnd checkIn checkOut) with
         | (some err, w1) =>
           ({ Result := some
                (World.CouldNotCreateReservation d
                  { w1 with createErrorBaseError := some err })
              Data := none }, { w1 with createErrorBaseError := some err })
         | (none, w1) =>
           ({ Result := none
              Data := some { IsSuccessfully := true, PNR := generatePNR rnd pnrLen } }, w1)) := by
  have hva := (validAccommodation_iff req.Accommodation).2 hac
  simp [Service.CreateReservation, hva, parseDate_of_timeParse _ _ hin,
    parseDate_of_timeParse _ _ hout, Time.After, not_lt.2 hord, createRev]

theorem validate_first_failure (checks : List FieldCheck)
    (h : ∃ c ∈ checks, c.violated = true) :
    ∃ ok bad rest, checks = ok ++ bad :: rest ∧ (∀ c ∈ ok, c.violated = false)
      ∧ bad.violated = true
      ∧ validate checks
          = some (.errorString
              ("validation failed, tag: " ++ bad.Tag ++ ", field: " ++ bad.Field)) := by
  induction checks with
  | nil =>
    obtain ⟨c, hc, _⟩ := h
    cases hc
  | cons a t ih =>
    cases ha : a.violated with
    | true =>
      exact ⟨[], a, t, rfl, fun _ hc => (by cases hc), ha,
        (by simp [validate, structErrors, ha])⟩
    | false =>
      have ht : ∃ c ∈ t, c.violated = true := by
        obtain ⟨c, hc, hv⟩ := h
        rcases List.mem_cons.1 hc with rfl | hc
        · rw [ha] at hv
          cases hv
        · exact ⟨c, hc, hv⟩
      obtain ⟨ok, bad, rest, hsplit, hok, hbad, hval⟩ := ih ht
      refine ⟨a :: ok, bad, rest, by rw [hsplit]; rfl, ?_, hbad, ?_⟩
      · intro c hc
        rcases List.mem_cons.1 hc with rfl | hc
        · exact ha
        · exact hok c hc
      · simpa [validate, structErrors, ha] using hval

theorem isDigit_bounds (c : Char) (h : isDigit c = true) : 48 ≤ c.toNat ∧ c.toNat ≤ 57 := by
  simp only [isDigit, decide_eq_true_eq] at h
  exact h

theorem digitChar_toNat (n : Nat) (h : n < 10) : (digitChar n).toNat = 48 + n := by
  interval_cases n <;> rfl

theorem isDigit_digitChar (n : Nat) (h : n < 10) : isDigit (digitChar n) = true := by
  interval_cases n <;> rfl

theorem digitVal_digitChar (n : Nat) (h : n < 10) : digitVal (digitChar n) = (n : Int) := by
  unfold digitVal
  rw [digitChar_toNat n h]
  omega

theorem digitChar_of_isDigit (c : Char) (h : isDigit c = true) :
    c.toNat - 48 < 10 ∧ digitChar (c.toNat - 48) = c := by
  have hb := isDigit_bounds c h
  refine ⟨by omega, ?_⟩
  unfold digitChar
  rw [Nat.add_sub_cancel' hb.1]
  exact Char.ofNat_toNat c

theorem getLongYear_eq_some (l : List Char) (year : Int) (rest : List Char) :
    getLongYear l = some (year, rest) ↔
      ∃ a b c e, l = a :: b :: c :: e :: rest
        ∧ isDigit a = true ∧ isDigit b = true ∧ isDigit c = true ∧ isDigit e = true
        ∧ year = digitVal a * 1000 + digitVal b * 100 + digitVal c * 10 + digitVal e := by
  constructor
  · intro h
    rcases l with _ | ⟨a, _ | ⟨b, _ | ⟨c, _ | ⟨e, r⟩⟩⟩⟩ <;> simp [getLongYear] at h
    obtain ⟨⟨⟨⟨ha, hb⟩, hc⟩, he⟩, hy, hr⟩ := h
    exact ⟨a, b, c, e, by rw [hr], ha, hb, hc, he, hy.symm⟩
  · rintro ⟨a, b, c, e, rfl, ha, hb, hc, he, rfl⟩
    simp [getLongYear, ha, hb, hc, he]

theorem getnum_eq_some (l : List Char) (n : Int) (rest : List Char) :
    getnum l = some (n, rest) ↔
      ∃ a b, l = a :: b :: rest ∧ isDigit a = true ∧ isDigit b = true
        ∧ n = digitVal a * 10 + digitVal b := by
  constructor
  · intro h
    rcases l with _ | ⟨a, _ | ⟨b, r⟩⟩ <;> simp [getnum] at h
    obtain ⟨⟨ha, hb⟩, hn, hr⟩ := h
    exact ⟨a, b, by rw [hr], ha, hb, hn.symm⟩
  · rintro ⟨a, b, rfl, ha, hb, rfl⟩
    simp [getnum, ha, hb]

theorem skipDash_eq_some (l rest : List Char) :
    skipDash l = some rest ↔ l = '-' :: rest := by
  constructor
  · intro h
    rcases l with _ | ⟨c, r⟩ <;> simp [skipDash] at h
    obtain ⟨hc, hr⟩ := h
    rw [hc, hr]
  · rintro rfl
    simp [skipDash]

theorem timeParse_eq_some (value : String) (t : Time) :
    timeParse value = some t ↔
      ∃ a b c e m1 m2 d1 d2 : Char,
        value.toList = [a, b, c, e, '-', m1, m2, '-', d1, d2]
        ∧ (isDigit a = true ∧ isDigit b = true ∧ isDigit c = true ∧ isDigit e = true)
        ∧ (isDigit m1 = true ∧ isDigit m2 = true ∧ isDigit d1 = true ∧ isDigit d2 = true)
        ∧ 1 ≤ digitVal m1 * 10 + digitVal m2 ∧ digitVal m1 * 10 + digitVal m2 ≤ 12
        ∧ 1 ≤ digitVal d1 * 10 + digitVal d2
        ∧ digitVal d1 * 10 + digitVal d2
            ≤ daysIn (digitVal m1 * 10 + digitVal m2)
                (digitVal a * 1000 + digitVal b * 100 + digitVal c * 10 + digitVal e)
        ∧ t = Time.date (digitVal a * 1000 + digitVal b * 100 + digitVal c * 10 + digitVal e)
                (digitVal m1 * 10 + digitVal m2) (digitVal d1 * 10 + digitVal d2) := by
  unfold timeParse
  generalize value.toList = l
  constructor
  · intro h
    cases h1 : getLongYear l with
    | none => simp [h1] at h
    | some p1 =>
      obtain ⟨year, v1⟩ := p1
      simp only [h1] at h
      cases h2 : skipDash v1 with
      | none => simp [h2] at h
      | some v2 =>
        simp only [h2] at h
        cases h3 : getnum v2 with
        | none => simp [h3] at h
        | some p3 =>
          obtain ⟨month, v3⟩ := p3
          simp only [h3] at h
          by_cases hm : (month ≤ 0 || 12 < month) = true
          · simp [hm] at h
          · simp only [hm] at h
            cases h4 : skipDash v3 with
            | none => simp [h4] at h
            | some v4 =>
              simp only [h4] at h
              cases h5 : getnum v4 with
              | none => simp [h5] at h
              | some p5 =>
                obtain ⟨day, v5⟩ := p5
                simp only [h5] at h
                by_cases he : (!v5.isEmpty) = true
                · simp [he] at h
                · by_cases hd : (day < 1 || daysIn month year < day) = true
                  · simp [he, hd] at h
                  · simp [he, hd] at h
                    obtain ⟨a, b, c, e, hl1, ha, hb, hc, hee, hy⟩ :=
                      (getLongYear_eq_some _ _ _).1 h1
                    have hl2 := (skipDash_eq_some _ _).1 h2
                    obtain ⟨m1, m2, hl3, hm1, hm2, hmv⟩ := (getnum_eq_some _ _ _).1 h3
                    have hl4 := (skipDash_eq_some _ _).1 h4
                    obtain ⟨d1, d2, hl5, hd1, hd2, hdv⟩ := (getnum_eq_some _ _ _).1 h5
                    have hv5 : v5 = [] := by simpa using he
                    simp only [Bool.or_eq_true, decide_eq_true_eq, not_or, not_le, not_lt] at hm hd
                    subst hy hmv hdv
                    refine ⟨a, b, c, e, m1, m2, d1, d2, ?_, ⟨ha, hb, hc, hee⟩,
                      ⟨hm1, hm2, hd1, hd2⟩, by omega, by omega, by omega, hd.2, h.symm⟩
                    rw [hl1, hl2, hl3, hl4, hl5, hv5]
  · rintro ⟨a, b, c, e, m1, m2, d1, d2, hl, ⟨ha, hb, hc, he⟩, ⟨hm1, hm2, hd1, hd2⟩,
      h1, h2, h3, h4, rfl⟩
    have hm : ¬ (digitVal m1 * 10 + digitVal m2 ≤ 0) := by omega
    have hm' : ¬ (12 < digitVal m1 * 10 + digitVal m2) := by omega
    have hd : ¬ (digitVal d1 * 10 + digitVal d2 < 1) := by omega
    have hd' := not_lt.2 h4
    subst hl
    simp [getLongYear, getnum, skipDash, ha, hb, hc, he, hm1, hm2, hd1, hd2,
      hm, hm', hd, hd']

theorem digitVal_of_isDigit (c : Char) (h : isDigit c = true) :
    digitVal c = ((c.toNat - 48 : Nat) : Int) := by
  have hb := isDigit_bounds c h
  unfold digitVal
  omega

theorem daysIn_eq_daysInMonth (year month : Nat) :
    daysIn (month : Int) (year : Int) = (daysInMonth year month : Int) := by
  unfold daysIn daysInMonth isLeap
  by_cases h2 : month = 2
  · subst h2
    by_cases hl : year % 400 = 0 ∨ (year % 4 = 0 ∧ year % 100 ≠ 0)
    · have : ((year : Int) % 4 == 0 && ((year : Int) % 100 != 0 || (year : Int) % 400 == 0))
          = true := by
        simp only [Bool.and_eq_true, Bool.or_eq_true, beq_iff_eq, bne_iff_ne]
        omega
      simp [this, hl]
    · have : ((year : Int) % 4 == 0 && ((year : Int) % 100 != 0 || (year : Int) % 400 == 0))
          = false := by
        rw [Bool.eq_false_iff]
        simp only [ne_eq, Bool.and_eq_true, Bool.or_eq_true, beq_iff_eq, bne_iff_ne]
        omega
      simp [this, hl]
  · have h2' : ¬ ((month : Int) = 2) := by omega
    by_cases h30 : month = 4 ∨ month = 6 ∨ month = 9 ∨ month = 11
    · have : ((month : Int) = 4 ∨ (month : Int) = 6 ∨ (month : Int) = 9 ∨ (month : Int) = 11) := by
        omega
      simp [h2, h2', h30]
      all_goals omega
    · have : ¬ ((month : Int) = 4 ∨ (month : Int) = 6 ∨ (month : Int) = 9 ∨ (month : Int) = 11) := by
        omega
      simp [h2, h2', h30]
      all_goals omega

theorem timeParse_accepts_iff (dateString : String) :
    (∃ t, timeParse dateString = some t) ↔ wellFormedDate dateString := by
  constructor
  · rintro ⟨t, h⟩
    obtain ⟨a, b, c, e, m1, m2, d1, d2, hl, ⟨ha, hb, hc, he⟩, ⟨hm1, hm2, hd1, hd2⟩,
      h1, h2, h3, h4, -⟩ := (timeParse_eq_some dateString t).1 h
    rw [digitVal_of_isDigit a ha, digitVal_of_isDigit b hb, digitVal_of_isDigit c hc,
      digitVal_of_isDigit e he, digitVal_of_isDigit m1 hm1, digitVal_of_isDigit m2 hm2,
      digitVal_of_isDigit d1 hd1, digitVal_of_isDigit d2 hd2] at *
    refine ⟨a.toNat - 48, b.toNat - 48, c.toNat - 48, e.toNat - 48, m1.toNat - 48,
      m2.toNat - 48, d1.toNat - 48, d2.toNat - 48,
      (digitChar_of_isDigit a ha).1, (digitChar_of_isDigit b hb).1,
      (digitChar_of_isDigit c hc).1, (digitChar_of_isDigit e he).1,
      (digitChar_of_isDigit m1 hm1).1, (digitChar_of_isDigit m2 hm2).1,
      (digitChar_of_isDigit d1 hd1).1, (digitChar_of_isDigit d2 hd2).1, ?_, ?_, ?_, ?_, ?_⟩
    · rw [(digitChar_of_isDigit a ha).2, (digitChar_of_isDigit b hb).2,
        (digitChar_of_isDigit c hc).2, (digitChar_of_isDigit e he).2,
        (digitChar_of_isDigit m1 hm1).2, (digitChar_of_isDigit m2 hm2).2,
        (digitChar_of_isDigit d1 hd1).2, (digitChar_of_isDigit d2 hd2).2]
      exact hl
    · omega
    · omega
    · omega
    · have hcast : (((m1.toNat - 48 : Nat) : Int) * 10 + ((m2.toNat - 48 : Nat) : Int))
          = ((10 * (m1.toNat - 48) + (m2.toNat - 48) : Nat) : Int) := by push_cast; ring
      have hcasty : (((a.toNat - 48 : Nat) : Int) * 1000 + ((b.toNat - 48 : Nat) : Int) * 100
          + ((c.toNat - 48 : Nat) : Int) * 10 + ((e.toNat - 48 : Nat) : Int))
          = ((1000 * (a.toNat - 48) + 100 * (b.toNat - 48) + 10 * (c.toNat - 48)
              + (e.toNat - 48) : Nat) : Int) := by push_cast; ring
      rw [hcast, hcasty, daysIn_eq_daysInMonth] at h4
      omega
  · rintro ⟨y1, y2, y3, y4, m1, m2, d1, d2, hy1, hy2, hy3, hy4, hm1, hm2, hd1, hd2, hl,
      h1, h2, h3, h4⟩
    refine ⟨_, (timeParse_eq_some dateString _).2
      ⟨digitChar y1, digitChar y2, digitChar y3, digitChar y4, digitChar m1, digitChar m2,
        digitChar d1, digitChar d2, hl,
        ⟨isDigit_digitChar y1 hy1, isDigit_digitChar y2 hy2, isDigit_digitChar y3 hy3,
          isDigit_digitChar y4 hy4⟩,
        ⟨isDigit_digitChar m1 hm1, isDigit_digitChar m2 hm2, isDigit_digitChar d1 hd1,
          isDigit_digitChar d2 hd2⟩, ?_, ?_, ?_, ?_, rfl⟩⟩
    · rw [digitVal_digitChar _ hm1, digitVal_digitChar _ hm2]
      omega
    · rw [digitVal_digitChar _ hm1, digitVal_digitChar _ hm2]
      omega
    · rw [digitVal_digitChar _ hd1, digitVal_digitChar _ hd2]
      omega
    · rw [digitVal_digitChar _ hm1, digitVal_digitChar _ hm2,
        digitVal_digitChar _ hd1, digitVal_digitChar _ hd2, digitVal_digitChar _ hy1,
        digitVal_digitChar _ hy2, digitVal_digitChar _ hy3, digitVal_digitChar _ hy4]
      have hcast : ((m1 : Int) * 10 + (m2 : Int)) = ((10 * m1 + m2 : Nat) : Int) := by
        push_cast; ring
      have hcasty : ((y1 : Int) * 1000 + (y2 : Int) * 100 + (y3 : Int) * 10 + (y4 : Int))
          = ((1000 * y1 + 100 * y2 + 10 * y3 + y4 : Nat) : Int) := by push_cast; ring
      rw [hcast, hcasty, daysIn_eq_daysInMonth]
      omega

theorem parseDate_accepts_iff (dateString : String) :
    (parseDate dateString).2 = none ↔ wellFormedDate dateString := by
  rw [← timeParse_accepts_iff]
  unfold parseDate
  cases h : timeParse dateString with
  | none => simp [ErrFailedParseDate]
  | some t => simp

theorem parseDate_of_not_wellFormed (dateString : String) (h : ¬ wellFormedDate dateString) :
    parseDate dateString = (Time.zero, some ErrFailedParseDate) := by
  have hnone : timeParse dateString = none := by
    cases ht : timeParse dateString with
    | none => rfl
    | some t => exact absurd ((timeParse_accepts_iff dateString).1 ⟨t, ht⟩) h
  simp [parseDate, hnone]

set_option maxHeartbeats 4000000 in
theorem yoe_inv (yoe doy : Int) (h0 : 0 ≤ yoe) (h1 : yoe ≤ 399) (hd0 : 0 ≤ doy)
    (hd : doy ≤ 364 ∨ (doy = 365 ∧ (yoe + 1) % 4 = 0
      ∧ ((yoe + 1) % 100 ≠ 0 ∨ (yoe + 1) % 400 = 0))) :
    (yoe * 365 + yoe / 4 - yoe / 100 + doy
      - (yoe * 365 + yoe / 4 - yoe / 100 + doy) / 1460
      + (yoe * 365 + yoe / 4 - yoe / 100 + doy) / 36524
      - (yoe * 365 + yoe / 4 - yoe / 100 + doy) / 146096) / 365 = yoe := by
  interval_cases yoe <;> omega

theorem civilFromDays_of (era doe yoe : Int) (h1 : 0 ≤ doe) (h2 : doe < 146097)
    (hyoe : (doe - doe / 1460 + doe / 36524 - doe / 146096) / 365 = yoe) :
    civilFromDays (era * 146097 + doe - 719468)
      = (if (if (5 * (doe - (365 * yoe + yoe / 4 - yoe / 100)) + 2) / 153 < 10
              then (5 * (doe - (365 * yoe + yoe / 4 - yoe / 100)) + 2) / 153 + 3
              else (5 * (doe - (365 * yoe + yoe / 4 - yoe / 100)) + 2) / 153 - 9) ≤ 2
           then yoe + era * 400 + 1 else yoe + era * 400,
         if (5 * (doe - (365 * yoe + yoe / 4 - yoe / 100)) + 2) / 153 < 10
           then (5 * (doe - (365 * yoe + yoe / 4 - yoe / 100)) + 2) / 153 + 3
           else (5 * (doe - (365 * yoe + yoe / 4 - yoe / 100)) + 2) / 153 - 9,
         doe - (365 * yoe + yoe / 4 - yoe / 100)
           - (153 * ((5 * (doe - (365 * yoe + yoe / 4 - yoe / 100)) + 2) / 153) + 2) / 5 + 1) := by
  have hera : (era * 146097 + doe - 719468 + 719468) / 146097 = era := by omega
  have hdoe : era * 146097 + doe - 719468 + 719468 - era * 146097 = doe := by omega
  simp only [civilFromDays, hera, hdoe, hyoe]

theorem civil_core (y doy : Int) (hd0 : 0 ≤ doy)
    (hd : doy ≤ 364 ∨ (doy = 365 ∧ (y + 1) % 4 = 0
      ∧ ((y + 1) % 100 ≠ 0 ∨ (y + 1) % 400 = 0))) :
    civilFromDays (y / 400 * 146097
        + ((y - y / 400 * 400) * 365 + (y - y / 400 * 400) / 4 - (y - y / 400 * 400) / 100
            + doy) - 719468)
      = (if (if (5 * doy + 2) / 153 < 10 then (5 * doy + 2) / 153 + 3
              else (5 * doy + 2) / 153 - 9) ≤ 2
           then y + 1 else y,
         if (5 * doy + 2) / 153 < 10 then (5 * doy + 2) / 153 + 3
           else (5 * doy + 2) / 153 - 9,
         doy - (153 * ((5 * doy + 2) / 153) + 2) / 5 + 1) := by
  have hy0 : 0 ≤ y - y / 400 * 400 := by omega
  have hy1 : y - y / 400 * 400 ≤ 399 := by omega
  have hleap : doy ≤ 364 ∨ (doy = 365 ∧ (y - y / 400 * 400 + 1) % 4 = 0
      ∧ ((y - y / 400 * 400 + 1) % 100 ≠ 0 ∨ (y - y / 400 * 400 + 1) % 400 = 0)) := by
    omega
  have hyoe := yoe_inv (y - y / 400 * 400) doy hy0 hy1 hd0 hleap
  have hdoe0 : 0 ≤ (y - y / 400 * 400) * 365 + (y - y / 400 * 400) / 4
      - (y - y / 400 * 400) / 100 + doy := by omega
  have hdoe1 : (y - y / 400 * 400) * 365 + (y - y / 400 * 400) / 4
      - (y - y / 400 * 400) / 100 + doy < 146097 := by omega
  rw [civilFromDays_of (y / 400) _ (y - y / 400 * 400) hdoe0 hdoe1 hyoe]
  have hdoy : (y - y / 400 * 400) * 365 + (y - y / 400 * 400) / 4
      - (y - y / 400 * 400) / 100 + doy
      - (365 * (y - y / 400 * 400) + (y - y / 400 * 400) / 4 - (y - y / 400 * 400) / 100)
      = doy := by ring
  have hyear : y - y / 400 * 400 + y / 400 * 400 = y := by ring
  rw [hdoy, hyear]

theorem daysFromCivil_eq (year month day : Int) :
    daysFromCivil year month day
      = (if month ≤ 2 then year - 1 else year) / 400 * 146097
        + (((if month ≤ 2 then year - 1 else year)
              - (if month ≤ 2 then year - 1 else year) / 400 * 400) * 365
            + ((if month ≤ 2 then year - 1 else year)
              - (if month ≤ 2 then year - 1 else year) / 400 * 400) / 4
            - ((if month ≤ 2 then year - 1 else year)
              - (if month ≤ 2 then year - 1 else year) / 400 * 400) / 100
            + ((153 * ((month + 9) % 12) + 2) / 5 + day - 1)) - 719468 := by
  rfl

theorem civil_roundtrip (year month day : Int) (hm1 : 1 ≤ month) (hm2 : month ≤ 12)
    (hd1 : 1 ≤ day) (hd2 : day ≤ daysIn month year) :
    civilFromDays (daysFromCivil year month day) = (year, month, day) := by
  have hmonth : month = 1 ∨ month = 2 ∨ month = 3 ∨ month = 4 ∨ month = 5 ∨ month = 6
      ∨ month = 7 ∨ month = 8 ∨ month = 9 ∨ month = 10 ∨ month = 11 ∨ month = 12 := by omega
  have hfeb : month = 2 → day ≤ 28 ∨ (day = 29 ∧ year % 4 = 0
      ∧ (year % 100 ≠ 0 ∨ year % 400 = 0)) := by
    intro h
    subst h
    by_cases hl : isLeap year = true
    · have h29 : day ≤ 29 := by simpa [daysIn, hl] using hd2
      have hl2 : year % 4 = 0 ∧ (year % 100 ≠ 0 ∨ year % 400 = 0) := by
        simpa [isLeap] using hl
      omega
    · have h28 : day ≤ 28 := by simpa [daysIn, hl] using hd2
      exact Or.inl h28
  have hday : day ≤ 31 ∧ (month = 4 ∨ month = 6 ∨ month = 9 ∨ month = 11 → day ≤ 30) := by
    unfold daysIn at hd2
    constructor
    · split_ifs at hd2 <;> omega
    · intro h
      have h2 : ¬ (month = 2) := by omega
      simp [h2, h] at hd2
      split_ifs at hd2 <;> omega
  have hdoy0 : 0 ≤ (153 * ((month + 9) % 12) + 2) / 5 + day - 1 := by omega
  have hdoy : (153 * ((month + 9) % 12) + 2) / 5 + day - 1 ≤ 364
      ∨ ((153 * ((month + 9) % 12) + 2) / 5 + day - 1 = 365
        ∧ ((if month ≤ 2 then year - 1 else year) + 1) % 4 = 0
        ∧ (((if month ≤ 2 then year - 1 else year) + 1) % 100 ≠ 0
          ∨ ((if month ≤ 2 then year - 1 else year) + 1) % 400 = 0)) := by
    rcases hmonth with h | h | h | h | h | h | h | h | h | h | h | h <;> subst h
    · left; omega
    · rcases hfeb rfl with h | ⟨h, h4, h100⟩
      · left; omega
      · right
        refine ⟨by omega, ?_, ?_⟩
        · simp; omega
        · simp; omega
    all_goals (left; have := hday.2; omega)
  rw [daysFromCivil_eq, civil_core _ _ hdoy0 hdoy]
  have h30 := hday.2
  have h31 := hday.1
  rcases hmonth with h | h | h | h | h | h | h | h | h | h | h | h <;> subst h
  · have hmp : (5 * ((153 * ((1 + 9) % 12) + 2) / 5 + day - 1) + 2) / 153 = 10 := by omega
    rw [hmp]
    simp
    all_goals omega
  · have hd29 : day ≤ 29 := by rcases hfeb rfl with h | h <;> omega
    have hmp : (5 * ((153 * ((2 + 9) % 12) + 2) / 5 + day - 1) + 2) / 153 = 11 := by omega
    rw [hmp]
    simp
    all_goals omega
  · have hmp : (5 * ((153 * ((3 + 9) % 12) + 2) / 5 + day - 1) + 2) / 153 = 0 := by omega
    rw [hmp]
    simp
  · have hmp : (5 * ((153 * ((4 + 9) % 12) + 2) / 5 + day - 1) + 2) / 153 = 1 := by omega
    rw [hmp]
    simp
    all_goals omega
  · have hmp : (5 * ((153 * ((5 + 9) % 12) + 2) / 5 + day - 1) + 2) / 153 = 2 := by omega
    rw [hmp]
    simp
    all_goals omega
  · have hmp : (5 * ((153 * ((6 + 9) % 12) + 2) / 5 + day - 1) + 2) / 153 = 3 := by omega
    rw [hmp]
    simp
    all_goals omega
  · have hmp : (5 * ((153 * ((7 + 9) % 12) + 2) / 5 + day - 1) + 2) / 153 = 4 := by omega
    rw [hmp]
    simp
    all_goals omega
  · have hmp : (5 * ((153 * ((8 + 9) % 12) + 2) / 5 + day - 1) + 2) / 153 = 5 := by omega
    rw [hmp]
    simp
    all_goals omega
  · have hmp : (5 * ((153 * ((9 + 9) % 12) + 2) / 5 + day - 1) + 2) / 153 = 6 := by omega
    rw [hmp]
    simp
    all_goals omega
  · have hmp : (5 * ((153 * ((10 + 9) % 12) + 2) / 5 + day - 1) + 2) / 153 = 7 := by omega
    rw [hmp]
    simp
    all_goals omega
  · have hmp : (5 * ((153 * ((11 + 9) % 12) + 2) / 5 + day - 1) + 2) / 153 = 8 := by omega
    rw [hmp]
    simp
    all_goals omega
  · have hmp : (5 * ((153 * ((12 + 9) % 12) + 2) / 5 + day - 1) + 2) / 153 = 9 := by omega
    rw [hmp]
    simp
    all_goals omega

theorem decimalDigits_fuel (n : Nat) : ∀ fuel1 fuel2 : Nat, n < fuel1 → n < fuel2 →
    decimalDigits fuel1 n = decimalDigits fuel2 n := by
  induction n using Nat.strong_induction_on with
  | _ n ih =>
    intro fuel1 fuel2 h1 h2
    obtain ⟨f1, rfl⟩ : ∃ f1, fuel1 = f1 + 1 := ⟨fuel1 - 1, by omega⟩
    obtain ⟨f2, rfl⟩ : ∃ f2, fuel2 = f2 + 1 := ⟨fuel2 - 1, by omega⟩
    unfold decimalDigits
    by_cases h : n < 10
    · simp [h]
    · simp only [h, if_false]
      rw [ih (n / 10) (by omega) f1 f2 (by omega) (by omega)]

theorem decimal_lt_ten (n : Nat) (h : n < 10) : decimal n = [digitChar n] := by
  simp [decimal, decimalDigits, h]

theorem decimal_ge_ten (n : Nat) (h : 10 ≤ n) :
    decimal n = decimal (n / 10) ++ [digitChar (n % 10)] := by
  have h' : ¬ n < 10 := by omega
  unfold decimal
  rw [decimalDigits]
  simp only [h', if_false]
  rw [decimalDigits_fuel (n / 10) n (n / 10 + 1) (by omega) (by omega)]

theorem decimal_ne_nil (n : Nat) : decimal n ≠ [] := by
  by_cases h : n < 10
  · simp [decimal_lt_ten n h]
  · rw [decimal_ge_ten n (by omega)]
    simp

theorem decimal_all_isDigit (n : Nat) : ∀ c ∈ decimal n, isDigit c = true := by
  induction n using Nat.strong_induction_on with
  | _ n ih =>
    intro c hc
    by_cases h : n < 10
    · rw [decimal_lt_ten n h] at hc
      simp only [List.mem_singleton] at hc
      rw [hc]
      exact isDigit_digitChar n h
    · rw [decimal_ge_ten n (by omega), List.mem_append] at hc
      rcases hc with hc | hc
      · exact ih (n / 10) (by omega) c hc
      · simp only [List.mem_singleton] at hc
        rw [hc]
        exact isDigit_digitChar _ (Nat.mod_lt _ (by decide))

theorem decimal_foldl (n : Nat) :
    (decimal n).foldl (fun acc c => acc * 10 + digitVal c) (0 : Int) = (n : Int) := by
  induction n using Nat.strong_induction_on with
  | _ n ih =>
    by_cases h : n < 10
    · rw [decimal_lt_ten n h]
      simp [digitVal_digitChar n h]
    · rw [decimal_ge_ten n (by omega), List.foldl_append, ih (n / 10) (by omega)]
      simp only [List.foldl_cons, List.foldl_nil]
      rw [digitVal_digitChar _ (Nat.mod_lt _ (by decide))]
      omega

theorem decimal_head_isDigit (n : Nat) :
    ∃ c rest, decimal n = c :: rest ∧ isDigit c = true := by
  cases h : decimal n with
  | nil => exact absurd h (decimal_ne_nil n)
  | cons c rest =>
    exact ⟨c, rest, rfl, decimal_all_isDigit n c (by rw [h]; exact List.mem_cons_self _ _)⟩

theorem ParseInt_FormatInt (i : Int) (h1 : -9223372036854775808 ≤ i)
    (h2 : i ≤ 9223372036854775807) : ParseInt (FormatInt i) = some i := by
  have habs : (i.natAbs : Int) = if i < 0 then -i else i := by
    split_ifs <;> omega
  unfold FormatInt ParseInt
  generalize i.natAbs = n at habs
  obtain ⟨c, rest, hd, hc⟩ := decimal_head_isDigit n
  have hfold := decimal_foldl n
  have hcm : c ≠ '-' := by
    rintro rfl
    exact absurd hc (by decide)
  have hcp : c ≠ '+' := by
    rintro rfl
    exact absurd hc (by decide)
  have hallb : (decimal n).all isDigit = true := by
    rw [List.all_eq_true]
    exact decimal_all_isDigit n
  have hne : (decimal n).isEmpty = false := by rw [hd]; rfl
  have hh : (decimal n).head? = some c := by rw [hd]; rfl
  by_cases hneg : i < 0
  · rw [if_pos hneg] at habs
    have hl : (String.mk (if i < 0 then '-' :: decimal n else decimal n)).toList
        = '-' :: decimal n := by
      rw [if_pos hneg]
      rfl
    rw [hl]
    simp only [List.head?_cons, List.tail_cons, beq_self_eq_true, Bool.true_or, if_true]
    simp only [hne, hallb, hfold, habs]
    simp
    omega
  · rw [if_neg hneg] at habs
    have hl : (String.mk (if i < 0 then '-' :: decimal n else decimal n)).toList
        = decimal n := by
      rw [if_neg hneg]
      rfl
    rw [hl]
    simp only [hh, hne, hallb, hfold, habs]
    simp [hcm, hcp]
    rw [hfold]
    exact ⟨⟨decimal_ne_nil n, decimal_all_isDigit n⟩, ⟨by omega, by omega⟩, habs⟩

theorem replicate_zero_snoc (w : Nat) (h : 1 ≤ w) :
    List.replicate (w - 1) '0' ++ ['0'] = List.replicate w '0' := by
  obtain ⟨k, rfl⟩ : ∃ k, w = k + 1 := ⟨w - 1, by omega⟩
  rw [Nat.add_sub_cancel, List.replicate_succ']

theorem appendInt_step (q r w : Nat) (hr : r < 10) (hw : 1 ≤ w) :
    appendInt ((10 * q + r : Nat) : Int) (w + 1) = appendInt (q : Int) w ++ [digitChar r] := by
  have hn1 : ¬ (((10 * q + r : Nat) : Int) < 0) := by omega
  have hn2 : ¬ ((q : Int) < 0) := by omega
  simp only [appendInt, hn1, hn2, if_false, Int.natAbs_ofNat]
  by_cases hq : q = 0
  · subst hq
    have h0 : (0 : Nat) < 10 := by decide
    rw [Nat.mul_zero, Nat.zero_add, decimal_lt_ten r hr, decimal_lt_ten 0 h0]
    simp only [List.length_singleton, Nat.add_sub_cancel]
    have hz : digitChar 0 = '0' := rfl
    rw [hz, replicate_zero_snoc w hw]
  · have hge : 10 ≤ 10 * q + r := by omega
    have hdiv : (10 * q + r) / 10 = q := by omega
    have hmod : (10 * q + r) % 10 = r := by omega
    rw [decimal_ge_ten _ hge, hdiv, hmod, List.length_append, List.length_singleton,
      Nat.add_sub_add_right, List.append_assoc]

theorem appendInt_one (r : Nat) (hr : r < 10) : appendInt (r : Int) 1 = [digitChar r] := by
  have hn : ¬ ((r : Int) < 0) := by omega
  simp [appendInt, hn, decimal_lt_ten r hr]

theorem appendInt_two (a b : Nat) (ha : a < 10) (hb : b < 10) :
    appendInt ((10 * a + b : Nat) : Int) 2 = [digitChar a, digitChar b] := by
  rw [appendInt_step a b 1 hb (le_refl 1), appendInt_one a ha]
  rfl

theorem appendInt_four (a b c e : Nat) (ha : a < 10) (hb : b < 10) (hc : c < 10)
    (he : e < 10) :
    appendInt ((1000 * a + 100 * b + 10 * c + e : Nat) : Int) 4
      = [digitChar a, digitChar b, digitChar c, digitChar e] := by
  have h1 : 1000 * a + 100 * b + 10 * c + e = 10 * (10 * (10 * a + b) + c) + e := by ring
  rw [h1, appendInt_step _ e 3 he (by decide), appendInt_step _ c 2 hc (by decide),
    appendInt_two a b ha hb]
  rfl

theorem date_div (year month day : Int) :
    Time.date year month day / (86400 * nsPerSecond) = daysFromCivil year month day := by
  unfold Time.date Time.unix nsPerSecond
  have h : daysFromCivil year month day * 86400 * 1000000000
      = daysFromCivil year month day * (86400 * 1000000000) := by ring
  rw [h]
  exact Int.mul_ediv_cancel _ (by decide)

theorem format_timeParse (dateString : String) (t : Time)
    (h : timeParse dateString = some t) : t.Format 0 = dateString := by
  obtain ⟨a, b, c, e, m1, m2, d1, d2, hl, ⟨ha, hb, hc, he⟩, ⟨hm1, hm2, hd1, hd2⟩,
    h1, h2, h3, h4, rfl⟩ := (timeParse_eq_some dateString t).1 h
  unfold Time.Format
  rw [zero_mul, add_zero, date_div, civil_roundtrip _ _ _ h1 h2 h3 h4]
  simp only
  rw [digitVal_of_isDigit a ha, digitVal_of_isDigit b hb, digitVal_of_isDigit c hc,
    digitVal_of_isDigit e he, digitVal_of_isDigit m1 hm1, digitVal_of_isDigit m2 hm2,
    digitVal_of_isDigit d1 hd1, digitVal_of_isDigit d2 hd2]
  have hy : (((a.toNat - 48 : Nat) : Int) * 1000 + ((b.toNat - 48 : Nat) : Int) * 100
      + ((c.toNat - 48 : Nat) : Int) * 10 + ((e.toNat - 48 : Nat) : Int))
      = ((1000 * (a.toNat - 48) + 100 * (b.toNat - 48) + 10 * (c.toNat - 48)
          + (e.toNat - 48) : Nat) : Int) := by push_cast; ring
  have hm : (((m1.toNat - 48 : Nat) : Int) * 10 + ((m2.toNat - 48 : Nat) : Int))
      = ((10 * (m1.toNat - 48) + (m2.toNat - 48) : Nat) : Int) := by push_cast; ring
  have hd : (((d1.toNat - 48 : Nat) : Int) * 10 + ((d2.toNat - 48 : Nat) : Int))
      = ((10 * (d1.toNat - 48) + (d2.toNat - 48) : Nat) : Int) := by push_cast; ring
  rw [hy, hm, hd,
    appendInt_four _ _ _ _ (digitChar_of_isDigit a ha).1 (digitChar_of_isDigit b hb).1
      (digitChar_of_isDigit c hc).1 (digitChar_of_isDigit e he).1,
    appendInt_two _ _ (digitChar_of_isDigit m1 hm1).1 (digitChar_of_isDigit m2 hm2).1,
    appendInt_two _ _ (digitChar_of_isDigit d1 hd1).1 (digitChar_of_isDigit d2 hd2).1,
    (digitChar_of_isDigit a ha).2, (digitChar_of_isDigit b hb).2,
    (digitChar_of_isDigit c hc).2, (digitChar_of_isDigit e he).2,
    (digitChar_of_isDigit m1 hm1).2, (digitChar_of_isDigit m2 hm2).2,
    (digitChar_of_isDigit d1 hd1).2, (digitChar_of_isDigit d2 hd2).2]
  have hs : dateString = String.mk dateString.toList := rfl
  rw [hs, hl]
  rfl

theorem store_create_then_find (f : Faults) (rev : Reservation) (db : DB) (u : User)
    (hid : rev.ID = 0) (hfind : f.findErr = none) (hcreate : f.createErr = none)
    (huser : db.users.find? (fun x => x.ID == rev.UserID) = some u)
    (hfresh : ∀ r ∈ db.reservations, ¬ (r.PNR = rev.PNR ∧ r.UserID = rev.UserID)) :
    (store.CreateReservation f rev db).1 = none
    ∧ ∃ row db2, (store.FindReservation f rev.PNR rev.UserID
        (store.CreateReservation f rev db).2) = ((some row, none), db2)
      ∧ row.PNR = rev.PNR ∧ row.Destination = rev.Destination
      ∧ row.CheckInDate = rev.CheckInDate ∧ row.CheckOutDate = rev.CheckOutDate
      ∧ row.Accommodation = rev.Accommodation ∧ row.GuestCount = rev.GuestCount
      ∧ row.User = u ∧ row.CheckInDateOffset = 0 ∧ row.CheckOutDateOffset = 0 := by
  have hnone : db.reservations.find? (fun r => r.PNR == rev.PNR && r.UserID == rev.UserID)
      = none := by
    rw [List.find?_eq_none]
    intro r hr
    have := hfresh r hr
    simpa using this
  refine ⟨by simp [store.CreateReservation, hcreate],
    { rev with
      ID := (db.reservations.map (fun r => r.ID)).foldl max 0 + 1, User := u,
      CheckInDateOffset := 0, CheckOutDateOffset := 0 },
    ({ db.record (.create rev) with
       reservations := db.reservations
         ++ [{ rev with ID := (db.reservations.map (fun r => r.ID)).foldl max 0 + 1 }] }
      : DB).record (.find rev.PNR rev.UserID),
    ?_, rfl, rfl, rfl, rfl, rfl, rfl, rfl, rfl, rfl⟩
  simp [store.CreateReservation, store.FindReservation, hcreate, hfind, DB.record, hid,
    List.find?_append, hnone, DB.preloadUser, DB.scan, huser]

theorem add_day_seconds (now : Int) :
    (now + 24 * (3600 * 1000000000)) / 1000000000 = now / 1000000000 + 86400 := by
  omega

theorem expiry_toUnix (now : Time) :
    Time.toUnix (now + 24 * (3600 * nsPerSecond)) = now.toUnix + 86400 := by
  unfold Time.toUnix nsPerSecond
  exact add_day_seconds now

theorem FormatInt_ne_empty (i : Int) : FormatInt i ≠ "" := by
  intro h
  have h2 := congrArg String.toList h
  unfold FormatInt at h2
  have hne := decimal_ne_nil i.natAbs
  by_cases hi : i < 0
  · simp [hi] at h2
  · simp [hi] at h2
    exact hne h2

theorem registeredClaims_eq (expiresAt : Time) (i : Int) :
    registeredClaims expiresAt (FormatInt i)
      = [("sub", JSONValue.string (FormatInt i)), ("exp", JSONValue.number expiresAt.toUnix)] := by
  unfold registeredClaims
  have h : (FormatInt i == "") = false := by
    simpa using FormatInt_ne_empty i
  rw [h]
  rfl

theorem issued_claims_accepted (raw : RawToken) (secret : String) (id exp : Int)
    (decode : String → Option RawToken) (token : String) (parseNow now : Time)
    (hdec : decode token = some raw)
    (hclaims : raw.Claims = [("sub", JSONValue.string (FormatInt id)), ("exp", JSONValue.number exp)])
    (hsig : raw.verifies secret = true)
    (h1 : -9223372036854775808 ≤ id) (h2 : id ≤ 9223372036854775807)
    (hp : parseNow < Time.unix exp) (hn : now < Time.unix exp) :
    isTokenValidWith (jwtParse decode secret parseNow token) now = .returns (id, none) := by
  have hexp : (("exp" : String) == "sub") = false := by decide
  have hiat : (("iat" : String) == "sub") = false := by decide
  have hiat2 : (("iat" : String) == "exp") = false := by decide
  have hnbf : (("nbf" : String) == "sub") = false := by decide
  have hnbf2 : (("nbf" : String) == "exp") = false := by decide
  have hee : (("exp" : String) == "exp") = true := by decide
  have hss : (("sub" : String) == "sub") = true := by decide
  have hpsec : Time.unix (Time.toUnix parseNow) < Time.unix exp := by
    have : Time.unix (Time.toUnix parseNow) ≤ parseNow := by
      unfold Time.unix Time.toUnix nsPerSecond
      have := Int.ediv_mul_le parseNow (show (1000000000 : Int) ≠ 0 by decide)
      exact this
    exact lt_of_le_of_lt this hp
  have hnot : ¬ (Time.unix exp < now) := not_lt.mpr (le_of_lt hn)
  have lexp : ∀ a b : JSONValue, List.lookup "exp" [("sub", a), ("exp", b)] = some b := by
    intro a b
    rw [List.lookup_cons, hexp]
    simp only [List.lookup_cons, hee]
  have lsub : ∀ a b : JSONValue, List.lookup "sub" [("sub", a), ("exp", b)] = some a := by
    intro a b
    rw [List.lookup_cons, hss]
  have liat : ∀ a b : JSONValue, List.lookup "iat" [("sub", a), ("exp", b)] = none := by
    intro a b
    rw [List.lookup_cons, hiat]
    simp only [List.lookup_cons, hiat2, List.lookup_nil]
  have lnbf : ∀ a b : JSONValue, List.lookup "nbf" [("sub", a), ("exp", b)] = none := by
    intro a b
    rw [List.lookup_cons, hnbf]
    simp only [List.lookup_cons, hnbf2, List.lookup_nil]
  simp only [jwtParse, hdec, hsig, hclaims, verifyExpiresAt, verifyIssuedAt, verifyNotBefore,
    lexp, lsub, liat, lnbf, Time.Before, Time.After,
    isTokenValidWith, ParseInt_FormatInt id h1 h2]
  by_cases h0 : exp = 0
  · subst h0
    simp [lexp, lsub, liat, lnbf, hnot, ParseInt_FormatInt id h1 h2]
  · simp [lexp, lsub, liat, lnbf, h0, hpsec, hnot, ParseInt_FormatInt id h1 h2]

theorem badRequest_serialized (l : Localizer) (e : GoError) (internal : APIError) :
    (errorEncoder l (.apiError (badRequestWith e)) internal).1.body.result
      = { message := Localize l "" e.Error, name := "BadRequestError", code := 2,
          statusCode := 400, errorAction := none } := by
  simp only [errorEncoder, errorsAs, APIError.Localize, errorResponse.toJSON, APIError.toJSON,
    badRequestWith, NewBadRequestError, NameBadRequestError, CodeBadRequestError]
  rfl

theorem saveRow_record (db : DB) (op : DBOp) (row : Reservation) :
    ((db.record op).saveRow row).reservations = (db.saveRow row).reservations := by
  unfold DB.saveRow DB.record
  by_cases h : (row.ID == 0) = true <;> simp [h]

theorem saveRow_of_unique (db : DB) (R R2 : Reservation) (hmem : R ∈ db.reservations)
    (hkeys : (db.reservations.map fun r => r.ID).Nodup) (hid : R2.ID = R.ID)
    (hkey : R.ID ≠ 0) :
    (db.saveRow R2).reservations
      = db.reservations.map fun r => if r = R then R2 else r := by
  have h0 : (R2.ID == 0) = false := by simp [hid, hkey]
  unfold DB.saveRow
  simp only [h0, Bool.false_eq_true, if_false]
  apply List.map_congr_left
  intro r hr
  by_cases h : r = R
  · subst h
    simp [hid]
  · have hne : r.ID ≠ R.ID := fun hEq =>
      h (List.inj_on_of_nodup_map hkeys hr hmem hEq)
    simp [h, hid, hne]

theorem store_update_rows (f : Faults) (now : Time) (U R : Reservation) (db : DB)
    (hfind : db.reservations.find? (fun r => r.PNR == U.PNR) = some R)
    (hb : f.beginErr = none) (hf : f.firstErr = none) (hs : f.saveErr = none)
    (hc : f.commitErr = none) (hu : U.UserID = R.UserID) (hp : ¬ R.CheckInDate < now) :
    store.UpdateReservation f now U db
      = (none,
         (((((db.record .begin).record (.first U.PNR)).record
            (.save { R with
              Destination := U.Destination, CheckInDate := U.CheckInDate,
              CheckInDateOffset := U.CheckInDateOffset, CheckOutDate := U.CheckOutDate,
              CheckOutDateOffset := U.CheckOutDateOffset,
              Accommodation := U.Accommodation, GuestCount := U.GuestCount })).saveRow
            { R with
              Destination := U.Destination, CheckInDate := U.CheckInDate,
              CheckInDateOffset := U.CheckInDateOffset, CheckOutDate := U.CheckOutDate,
              CheckOutDateOffset := U.CheckOutDateOffset,
              Accommodation := U.Accommodation, GuestCount := U.GuestCount }).record (.commit true))) := by
  simp [store.UpdateReservation, hb, DB.first, hf, hfind, hu, Time.After, hp, hs, hc]

theorem service_create_store_error {σ : Type} (d : Decls) (s : Service σ) (now : Time)
    (rnd : Nat → Nat) (req : CreateReservationRequest) (w : World σ) (checkIn checkOut : Time)
    (e : GoError) (db1 : σ)
    (hac : req.Accommodation = "beach" ∨ req.Accommodation = "city"
      ∨ req.Accommodation = "mountain")
    (hin : timeParse req.CheckInDate = some checkIn)
    (hout : timeParse req.CheckOutDate = some checkOut)
    (hord : checkIn ≤ checkOut)
    (hstore : s.ms.CreateReservation (createRev req now rnd checkIn checkOut) w.db
      = (some e, db1)) :
    Service.CreateReservation d s now rnd req w
      = ({ Result := some
             { Message := w.createErrorMessage, Name := "CouldNotCreateReservationError",
               Code := 5, StatusCode := 400, ErrorAction := 0, BaseError := some e,
               MessageLocalizerKey := d.locCouldNotCreateReservation }
           Data := none },
         { w with
           db := db1
           calls := w.calls
             ++ [StoreCall.CreateReservation (createRev req now rnd checkIn checkOut)]
           createErrorBaseError := some e }) := by
  rw [service_create_passes d s now rnd req w checkIn checkOut hac hin hout hord]
  simp only [World.callCreateReservation, hstore, World.CouldNotCreateReservation,
    CouldNotCreateReservation, NameCouldNotCreateReservationError,
    CodeCouldNotCreateReservationError]

theorem create_data_iff {σ : Type} (d : Decls) (s : Service σ) (now : Time)
    (rnd : Nat → Nat) (creq : CreateReservationRequest) (w : World σ) :
    (Service.CreateReservation d s now rnd creq w).1.Data.isSome = true
      ↔ ∃ checkIn checkOut,
          (creq.Accommodation = "beach" ∨ creq.Accommodation = "city"
            ∨ creq.Accommodation = "mountain")
          ∧ timeParse creq.CheckInDate = some checkIn
          ∧ timeParse creq.CheckOutDate = some checkOut
          ∧ checkIn ≤ checkOut
          ∧ (s.ms.CreateReservation (createRev creq now rnd checkIn checkOut) w.db).1
              = none := by
  constructor
  · intro h
    by_cases hva : validAccommodation creq.Accommodation = true
    · have hac := (validAccommodation_iff creq.Accommodation).1 hva
      cases hci : timeParse creq.CheckInDate with
      | none => simp [Service.CreateReservation, hva, parseDate, hci] at h
      | some checkIn =>
        cases hco : timeParse creq.CheckOutDate with
        | none => simp [Service.CreateReservation, hva, parseDate, hci, hco] at h
        | some checkOut =>
          by_cases hord : checkIn ≤ checkOut
          · refine ⟨checkIn, checkOut, hac, rfl, rfl, hord, ?_⟩
            rw [service_create_passes d s now rnd creq w checkIn checkOut hac hci hco hord]
              at h
            cases hst : s.ms.CreateReservation (createRev creq now rnd checkIn checkOut) w.db
              with
            | mk err db1 =>
              cases err with
              | some e => simp [World.callCreateReservation, hst] at h
              | none => rfl
          · simp [Service.CreateReservation, hva, parseDate, hci, hco, Time.After,
              not_le.1 hord] at h
    · simp [Service.CreateReservation, hva] at h
  · rintro ⟨checkIn, checkOut, hac, hci, hco, hord, hst⟩
    rw [service_create_passes d s now rnd creq w checkIn checkOut hac hci hco hord]
    cases hst2 : s.ms.CreateReservation (createRev creq now rnd checkIn checkOut) w.db with
    | mk err db1 =>
      rw [hst2] at hst
      simp only at hst
      subst hst
      simp [World.callCreateReservation, hst2]

theorem update_data_iff {σ : Type} (d : Decls) (s : Service σ) (now : Time)
    (ureq : UpdateReservationRequest) (w : World σ) :
    (Service.UpdateReservation d s now ureq w).1.Data.isSome = true
      ↔ ∃ checkIn checkOut,
          (ureq.Accommodation = "beach" ∨ ureq.Accommodation = "city"
            ∨ ureq.Accommodation = "mountain")
          ∧ timeParse ureq.CheckInDate = some checkIn
          ∧ timeParse ureq.CheckOutDate = some checkOut
          ∧ now ≤ checkIn ∧ checkIn ≤ checkOut
          ∧ (s.ms.UpdateReservation (updateRev ureq checkIn checkOut) w.db).1 = none := by
  constructor
  · intro h
    by_cases hva : validAccommodation ureq.Accommodation = true
    · have hac := (validAccommodation_iff ureq.Accommodation).1 hva
      cases hci : timeParse ureq.CheckInDate with
      | none => simp [Service.UpdateReservation, hva, parseDate, hci] at h
      | some checkIn =>
        cases hco : timeParse ureq.CheckOutDate with
        | none => simp [Service.UpdateReservation, hva, parseDate, hci, hco] at h
        | some checkOut =>
          by_cases hnow : now ≤ checkIn
          · by_cases hord : checkIn ≤ checkOut
            · refine ⟨checkIn, checkOut, hac, rfl, rfl, hnow, hord, ?_⟩
              rw [service_update_passes d s now ureq w checkIn checkOut hac hci hco hnow
                hord] at h
              cases hst : s.ms.UpdateReservation (updateRev ureq checkIn checkOut) w.db with
              | mk err db1 =>
                cases err with
                | some e => simp [updateViaStore, World.callUpdateReservation, hst] at h
                | none => rfl
            · simp [Service.UpdateReservation, hva, parseDate, hci, hco, Time.After,
                not_lt.2 hnow, not_le.1 hord] at h
          · simp [Service.UpdateReservation, hva, parseDate, hci, hco, Time.After,
              not_le.1 hnow] at h
    · simp [Service.UpdateReservation, hva] at h
  · rintro ⟨checkIn, checkOut, hac, hci, hco, hnow, hord, hst⟩
    rw [service_update_passes d s now ureq w checkIn checkOut hac hci hco hnow hord]
    cases hst2 : s.ms.UpdateReservation (updateRev ureq checkIn checkOut) w.db with
    | mk err db1 =>
      rw [hst2] at hst
      simp only at hst
      subst hst
      simp [updateViaStore, World.callUpdateReservation, hst2]

/-! ## Theorems -/

/-- C1: for every accommodation string other than `beach`, `city` and `mountain` and every
other request content, `Service.CreateReservation` and `Service.UpdateReservation` both
return `Data = nil` and the invalid-accommodation error of the code (the bad-request error
built from `ErrNotValidDestination`, which is also its `BaseError`), and leave the store and
the call log as they were: the store is not called. -/
theorem invalid_accommodation_rejected {σ : Type} (d : Decls) (s : Service σ)
    (now : Time) (rnd : Nat → Nat) (ac : String)
    (creq : CreateReservationRequest) (ureq : UpdateReservationRequest) (w : World σ)
    (h1 : ac ≠ "beach") (h2 : ac ≠ "city") (h3 : ac ≠ "mountain") :
    Service.CreateReservation d s now rnd { creq with Accommodation := ac } w
        = ({ Result := some (badRequestWith ErrNotValidDestination), Data := none }, w)
    ∧ Service.UpdateReservation d s now { ureq with Accommodation := ac } w
        = ({ Result := some (badRequestWith ErrNotValidDestination), Data := none }, w) := by
  have hva := validAccommodation_false ac h1 h2 h3
  constructor
  · simp [Service.CreateReservation, hva]
  · simp [Service.UpdateReservation, hva]

/-- Witness of C1 at the accommodation `Beach`, which differs from `beach` in case only. -/
theorem invalid_accommodation_rejected_witness :
    Service.CreateReservation sampleDecls sampleService sampleNow sampleRnd
        { sampleCreate with Accommodation := "Beach" } sampleWorld
        = ({ Result := some (badRequestWith ErrNotValidDestination), Data := none }, sampleWorld)
    ∧ Service.UpdateReservation sampleDecls sampleService sampleNow
        { sampleUpdate with Accommodation := "Beach" } sampleWorld
        = ({ Result := some (badRequestWith ErrNotValidDestination), Data := none },
           sampleWorld) :=
  invalid_accommodation_rejected sampleDecls sampleService sampleNow sampleRnd "Beach"
    sampleCreate sampleUpdate sampleWorld (by decide) (by decide) (by decide)

/-- C2: for every create request with a whitelisted accommodation and two well-formed dates
whose check-in is strictly after the check-out, `Service.CreateReservation` returns
`Data = nil` with the `CheckInAfterCheckout` error (`CouldNotCheckInGreaterThanCheckout`)
and leaves the store and the call log as they were. -/
theorem create_checkin_after_checkout {σ : Type} (d : Decls) (s : Service σ)
    (now : Time) (rnd : Nat → Nat) (req : CreateReservationRequest) (w : World σ)
    (checkIn checkOut : Time)
    (hac : req.Accommodation = "beach" ∨ req.Accommodation = "city"
      ∨ req.Accommodation = "mountain")
    (hin : timeParse req.CheckInDate = some checkIn)
    (hout : timeParse req.CheckOutDate = some checkOut)
    (hlt : checkOut < checkIn) :
    Service.CreateReservation d s now rnd req w
      = ({ Result := some d.CouldNotCheckInGreaterThanCheckout, Data := none }, w) := by
  have hva := (validAccommodation_iff req.Accommodation).2 hac
  simp [Service.CreateReservation, hva, parseDate_of_timeParse _ _ hin,
    parseDate_of_timeParse _ _ hout, Time.After, hlt]

/-- Witness of C2: check-in 2030-02-05, check-out 2030-02-01. -/
theorem create_checkin_after_checkout_witness :
    Service.CreateReservation sampleDecls sampleService sampleNow sampleRnd
        { sampleCreate with CheckInDate := "2030-02-05" } sampleWorld
      = ({ Result := some sampleDecls.CouldNotCheckInGreaterThanCheckout, Data := none },
         sampleWorld) :=
  create_checkin_after_checkout sampleDecls sampleService sampleNow sampleRnd
    { sampleCreate with CheckInDate := "2030-02-05" } sampleWorld
    (Time.date 2030 2 5) (Time.date 2030 2 1) (Or.inl rfl) (by decide) (by decide) (by decide)

/-- C3, as stated, fails: with check-in 2020-01-05 after check-out 2020-01-01 and the clock
at 2025-01-01, `Service.UpdateReservation` answers `CouldNotChangeReservationCheckInDate`,
not the `CheckInAfterCheckout` error. -/
theorem update_checkin_after_checkout_counterexample :
    (Service.UpdateReservation sampleDecls sampleService sampleNow
        { sampleUpdate with CheckInDate := "2020-01-05", CheckOutDate := "2020-01-01" }
        sampleWorld).1.Result
      = some (CouldNotChangeReservationCheckInDate sampleDecls)
    ∧ (Service.UpdateReservation sampleDecls sampleService sampleNow
        { sampleUpdate with CheckInDate := "2020-01-05", CheckOutDate := "2020-01-01" }
        sampleWorld).1.Result
      ≠ some sampleDecls.CouldNotCheckInGreaterThanCheckout := by
  decide

/-- C3, amended: for every update request with a whitelisted accommodation and two
well-formed dates whose proposed check-in is strictly after the proposed check-out,
`Service.UpdateReservation` fails with `Data = nil` and without calling the store; the error
is `CheckInAfterCheckout` for every current time that is not after the proposed check-in,
and `CouldNotChangeReservationCheckInDate` when the current time is after it. -/
theorem update_checkin_after_checkout {σ : Type} (d : Decls) (s : Service σ)
    (now : Time) (req : UpdateReservationRequest) (w : World σ) (checkIn checkOut : Time)
    (hac : req.Accommodation = "beach" ∨ req.Accommodation = "city"
      ∨ req.Accommodation = "mountain")
    (hin : timeParse req.CheckInDate = some checkIn)
    (hout : timeParse req.CheckOutDate = some checkOut)
    (hlt : checkOut < checkIn) :
    (now ≤ checkIn → Service.UpdateReservation d s now req w
      = ({ Result := some d.CouldNotCheckInGreaterThanCheckout, Data := none }, w))
    ∧ (checkIn < now → Service.UpdateReservation d s now req w
      = ({ Result := some (CouldNotChangeReservationCheckInDate d), Data := none }, w)) := by
  have hva := (validAccommodation_iff req.Accommodation).2 hac
  constructor
  · intro hnow
    simp [Service.UpdateReservation, hva, parseDate_of_timeParse _ _ hin,
      parseDate_of_timeParse _ _ hout, Time.After, hlt, not_lt.2 hnow]
  · intro hnow
    simp [Service.UpdateReservation, hva, parseDate_of_timeParse _ _ hin,
      parseDate_of_timeParse _ _ hout, Time.After, hnow]

/-- Witness of the amended C3: check-in 2031-01-05, check-out 2031-01-02, clock at
2025-01-01. -/
theorem update_checkin_after_checkout_witness :
    Service.UpdateReservation sampleDecls sampleService sampleNow
        { sampleUpdate with CheckInDate := "2031-01-05" } sampleWorld
      = ({ Result := some sampleDecls.CouldNotCheckInGreaterThanCheckout, Data := none },
         sampleWorld) :=
  (update_checkin_after_checkout sampleDecls sampleService sampleNow
    { sampleUpdate with CheckInDate := "2031-01-05" } sampleWorld
    (Time.date 2031 1 5) (Time.date 2031 1 2) (Or.inl rfl) (by decide) (by decide)
    (by decide)).1 (by decide)

/-- C4: for every create request with a whitelisted accommodation and one well-formed date
string as both check-in and check-out, if the store's `CreateReservation` returns no error
for the reservation built from the request, then `Service.CreateReservation` succeeds:
`Result = nil`, `Data.IsSuccessfully = true` and `Data.PNR` is the generated PNR. -/
theorem create_same_day_succeeds {σ : Type} (d : Decls) (s : Service σ)
    (now : Time) (rnd : Nat → Nat) (req : CreateReservationRequest) (w : World σ)
    (day : Time)
    (hac : req.Accommodation = "beach" ∨ req.Accommodation = "city"
      ∨ req.Accommodation = "mountain")
    (hsame : req.CheckOutDate = req.CheckInDate)
    (hin : timeParse req.CheckInDate = some day)
    (hstore : (s.ms.CreateReservation
      { Reservation.zeroValue with
        UserID := req.UserId, PNR := generatePNR rnd pnrLen, Destination := req.Destination,
        CheckInDate := day, CheckOutDate := day, CreatedAt := now,
        Accommodation := req.Accommodation, GuestCount := req.GuestCount,
        IsActive := true, IsDeleted := false } w.db).1 = none) :
    (Service.CreateReservation d s now rnd req w).1
      = { Result := none
          Data := some { IsSuccessfully := true, PNR := generatePNR rnd pnrLen } } := by
  have hva := (validAccommodation_iff req.Accommodation).2 hac
  simp [Service.CreateReservation, hva, hsame, parseDate_of_timeParse _ _ hin, Time.After,
    World.callCreateReservation, hstore]

/-- Witness of C4: the sample request is a same-day stay on 2030-02-01 and the MySQL store
without driver errors accepts the reservation. -/
theorem create_same_day_succeeds_witness :
    (Service.CreateReservation sampleDecls sampleService sampleNow sampleRnd sampleCreate
        sampleWorld).1
      = { Result := none
          Data := some { IsSuccessfully := true, PNR := generatePNR sampleRnd pnrLen } } :=
  create_same_day_succeeds sampleDecls sampleService sampleNow sampleRnd sampleCreate
    sampleWorld (Time.date 2030 2 1) (Or.inl rfl) rfl (by decide) rfl

/-- C5: for every outcome of the random source the generated PNR `generatePNR(pnrLen)` has
exactly 8 characters, each of them in `[A-Za-z0-9]`; and whenever `Service.CreateReservation`
returns data, its `PNR` is the generated one and the store was called once, with a
reservation that carries the same PNR. -/
theorem generated_pnr_wellformed {σ : Type} (d : Decls) (s : Service σ)
    (now : Time) (rnd : Nat → Nat) (req : CreateReservationRequest) (w : World σ) :
    (generatePNR rnd pnrLen).length = 8
    ∧ (∀ c ∈ (generatePNR rnd pnrLen).toList,
        ('a' ≤ c ∧ c ≤ 'z') ∨ ('A' ≤ c ∧ c ≤ 'Z') ∨ ('0' ≤ c ∧ c ≤ '9'))
    ∧ (∀ data, (Service.CreateReservation d s now rnd req w).1.Data = some data →
        data.PNR = generatePNR rnd pnrLen
        ∧ ∃ rev, (Service.CreateReservation d s now rnd req w).2.calls
              = w.calls ++ [StoreCall.CreateReservation rev]
            ∧ rev.PNR = data.PNR) := by
  refine ⟨generatePNR_length rnd pnrLen, ?_, ?_⟩
  · intro c hc
    rw [generatePNR_toList, List.mem_map] at hc
    obtain ⟨i, _, rfl⟩ := hc
    have hk : Intn (rnd i) charset.length < 62 := by
      rw [charset_length]
      exact Nat.mod_lt _ (by decide)
    exact charset_alphanumeric _ hk
  · intro data hdata
    unfold Service.CreateReservation at hdata ⊢
    by_cases hva : validAccommodation req.Accommodation = true
    · rcases hci : parseDate req.CheckInDate with ⟨checkIn, _ | e1⟩
      · rcases hco : parseDate req.CheckOutDate with ⟨checkOut, _ | e2⟩
        · by_cases hafter : checkIn.After checkOut = true
          · simp [hva, hci, hco, hafter] at hdata
          · rcases hst : s.ms.CreateReservation
              { Reservation.zeroValue with
                UserID := req.UserId, PNR := generatePNR rnd pnrLen,
                Destination := req.Destination, CheckInDate := checkIn,
                CheckOutDate := checkOut, CreatedAt := now,
                Accommodation := req.Accommodation, GuestCount := req.GuestCount,
                IsActive := true, IsDeleted := false } w.db with ⟨_ | e3, db1⟩
            · simp [hva, hci, hco, hafter, World.callCreateReservation, hst] at hdata ⊢
              subst hdata
              exact ⟨rfl, rfl⟩
            · simp [hva, hci, hco, hafter, World.callCreateReservation, hst] at hdata
        · simp [hva, hci, hco] at hdata
      · simp [hva, hci] at hdata
    · simp [hva] at hdata

/-- Witness of C5: the sample request succeeds over the MySQL store without driver errors. -/
theorem generated_pnr_wellformed_witness :
    ({ IsSuccessfully := true, PNR := generatePNR sampleRnd pnrLen } :
        CreateReservationData).PNR = generatePNR sampleRnd pnrLen
    ∧ ∃ rev, (Service.CreateReservation sampleDecls sampleService sampleNow sampleRnd
              sampleCreate sampleWorld).2.calls
          = sampleWorld.calls ++ [StoreCall.CreateReservation rev]
        ∧ rev.PNR = ({ IsSuccessfully := true, PNR := generatePNR sampleRnd pnrLen } :
            CreateReservationData).PNR :=
  (generated_pnr_wellformed sampleDecls sampleService sampleNow sampleRnd sampleCreate
    sampleWorld).2.2 { IsSuccessfully := true, PNR := generatePNR sampleRnd pnrLen } (by decide)

/-- C6, as stated, fails: the stored check-in 2020-01-01 lies before the clock reading
2025-01-01, the owner proposes 2031-01-01 to 2031-01-02, and `Service.UpdateReservation`
over the MySQL store answers the bad-request error that wraps the error of the store, not
`CouldNotChangeReservationCheckInDate`. -/
theorem update_past_reservation_counterexample :
    (Service.UpdateReservation sampleDecls sampleService sampleNow sampleUpdate
        samplePastWorld).1.Result
      = some (badRequestWith
          (.errorString "the check-in date of a past reservation cannot be changed"))
    ∧ (Service.UpdateReservation sampleDecls sampleService sampleNow sampleUpdate
        samplePastWorld).1.Result
      ≠ some (CouldNotChangeReservationCheckInDate sampleDecls) := by
  decide

/-- C6, amended: for every stored reservation `R` (the one reservation with its PNR) whose
stored check-in date is before the current time, and every update request for it by its owner
with a whitelisted accommodation and well-formed proposed dates, `Service.UpdateReservation`
over the MySQL store fails (`Data = nil`, `Result` non-nil) and the stored reservations are
unchanged. When the proposed dates pass the checks of the service (`now ≤ checkIn ≤ checkOut`)
and the driver answers the begin and the lookup, `Result` is the bad-request error wrapping
the error of the store, `the check-in date of a past reservation cannot be changed`. -/
theorem update_past_reservation_fails (d : Decls) (s : Service DB) (f : Faults)
    (now storeNow : Time) (req : UpdateReservationRequest) (w : World DB) (R : Reservation)
    (checkIn checkOut : Time)
    (hac : req.Accommodation = "beach" ∨ req.Accommodation = "city"
      ∨ req.Accommodation = "mountain")
    (hin : timeParse req.CheckInDate = some checkIn)
    (hout : timeParse req.CheckOutDate = some checkOut)
    (hmem : R ∈ w.db.reservations)
    (hunique : w.db.reservations.Pairwise fun a b => a.PNR ≠ b.PNR)
    (hpnr : req.PNR = R.PNR) (howner : req.UserId = R.UserID)
    (hpast : R.CheckInDate < now) (hclock : now ≤ storeNow) :
    (Service.UpdateReservation d { s with ms := mysqlStore f storeNow } now req w).1.Data
        = none
    ∧ (Service.UpdateReservation d { s with ms := mysqlStore f storeNow } now req w).1.Result
        ≠ none
    ∧ (Service.UpdateReservation d { s with ms := mysqlStore f storeNow } now req
        w).2.db.reservations = w.db.reservations
    ∧ (now ≤ checkIn → checkIn ≤ checkOut → f.beginErr = none → f.firstErr = none →
        (Service.UpdateReservation d { s with ms := mysqlStore f storeNow } now req
            w).1.Result
          = some (badRequestWith
              (.errorString "the check-in date of a past reservation cannot be changed"))) := by
  have hstore : ∀ ci co, ∃ err db1,
      store.UpdateReservation f storeNow (updateRev req ci co) w.db = (some err, db1)
        ∧ db1.reservations = w.db.reservations := fun ci co =>
    store_update_past_fails f storeNow (updateRev req ci co) w.db R hmem hunique hpnr howner
      (lt_of_lt_of_le hpast hclock)
  refine ⟨?_, ?_, ?_, ?_⟩
  · rcases service_update_shape d { s with ms := mysqlStore f storeNow } now req w with
      ⟨e, h⟩ | ⟨ci, co, _, _, h⟩
    · rw [h]
    · obtain ⟨err, db1, he, _⟩ := hstore ci co
      rw [h, updateViaStore_of_error s f storeNow _ w err db1 he]
  · rcases service_update_shape d { s with ms := mysqlStore f storeNow } now req w with
      ⟨e, h⟩ | ⟨ci, co, _, _, h⟩
    · rw [h]; simp
    · obtain ⟨err, db1, he, _⟩ := hstore ci co
      rw [h, updateViaStore_of_error s f storeNow _ w err db1 he]; simp
  · rcases service_update_shape d { s with ms := mysqlStore f storeNow } now req w with
      ⟨e, h⟩ | ⟨ci, co, _, _, h⟩
    · rw [h]
    · obtain ⟨err, db1, he, hrows⟩ := hstore ci co
      rw [h, updateViaStore_of_error s f storeNow _ w err db1 he]
      exact hrows
  · intro hnow hord hb hf
    have hfirst := first_of_unique w.db f R req.PNR hmem hpnr hunique hf
    have he := store_update_past_checkin f storeNow (updateRev req checkIn checkOut) w.db R
      hb hfirst howner (lt_of_lt_of_le hpast hclock)
    rw [service_update_passes d _ now req w checkIn checkOut hac hin hout hnow hord,
      updateViaStore_of_error s f storeNow _ w _ _ he]

/-- Witness of the amended C6: the sample reservation with stored check-in 2020-01-01, the
clock at 2025-01-01, the owner proposing 2031-01-01 to 2031-01-02. -/
theorem update_past_reservation_fails_witness :
    (Service.UpdateReservation sampleDecls sampleService sampleNow sampleUpdate
        samplePastWorld).1.Result
      = some (badRequestWith
          (.errorString "the check-in date of a past reservation cannot be changed")) :=
  (update_past_reservation_fails sampleDecls sampleService Faults.none sampleNow sampleNow
    sampleUpdate samplePastWorld samplePastRow (Time.date 2031 1 1) (Time.date 2031 1 2)
    (Or.inl rfl) (by decide) (by decide) (by decide) (by decide) (by decide) (by decide)
    (by decide) (by decide)).2.2.2 (by decide) (by decide) rfl rfl

/-- C7, as stated, fails: the stored check-in 2030-01-01 of the sample reservation lies after
the clock reading 2025-01-01, its owner proposes 2020-01-01 to 2020-01-02 with accommodation
`beach`, and `Service.UpdateReservation` rejects the update with
`CouldNotChangeReservationCheckInDate`, without calling the store. -/
theorem update_future_reservation_counterexample :
    sampleRow ∈ sampleWorld.db.reservations
    ∧ sampleNow < sampleRow.CheckInDate
    ∧ sampleUpdate.PNR = sampleRow.PNR ∧ sampleUpdate.UserId = sampleRow.UserID
    ∧ Service.UpdateReservation sampleDecls sampleService sampleNow
        { sampleUpdate with CheckInDate := "2020-01-01", CheckOutDate := "2020-01-02" }
        sampleWorld
      = ({ Result := some (CouldNotChangeReservationCheckInDate sampleDecls), Data := none },
         sampleWorld) := by
  decide

/-- C7, amended: whether `Service.UpdateReservation` rejects with
`CouldNotChangeReservationCheckInDate` is decided by the proposed check-in date and the
current time only, not by the stored check-in date: for every store, every state of it and
every request with a whitelisted accommodation and well-formed proposed dates, the result is
that error exactly when the current time is after the proposed check-in date. (The error
value `CheckInAfterCheckout` is taken to differ from it.) -/
theorem update_checkin_rule_reads_proposed_date {σ : Type} (d : Decls) (s : Service σ)
    (now : Time) (req : UpdateReservationRequest) (w : World σ) (checkIn checkOut : Time)
    (hac : req.Accommodation = "beach" ∨ req.Accommodation = "city"
      ∨ req.Accommodation = "mountain")
    (hin : timeParse req.CheckInDate = some checkIn)
    (hout : timeParse req.CheckOutDate = some checkOut)
    (hd : d.CouldNotCheckInGreaterThanCheckout ≠ CouldNotChangeReservationCheckInDate d) :
    (Service.UpdateReservation d s now req w).1.Result
        = some (CouldNotChangeReservationCheckInDate d)
      ↔ checkIn < now := by
  have hva := (validAccommodation_iff req.Accommodation).2 hac
  by_cases hnow : checkIn < now
  · simp [Service.UpdateReservation, hva, parseDate_of_timeParse _ _ hin,
      parseDate_of_timeParse _ _ hout, Time.After, hnow]
  · by_cases hord : checkOut < checkIn
    · simp [Service.UpdateReservation, hva, parseDate_of_timeParse _ _ hin,
        parseDate_of_timeParse _ _ hout, Time.After, hnow, hord, hd]
    · rw [service_update_passes d s now req w checkIn checkOut hac hin hout
        (not_lt.1 hnow) (not_lt.1 hord)]
      unfold updateViaStore
      rcases hcall : w.callUpdateReservation s.ms (updateRev req checkIn checkOut) with
        ⟨_ | err, w1⟩
      · simp [hnow]
      · simp [hnow, badRequestWith, NewBadRequestError, CouldNotChangeReservationCheckInDate,
          NameBadRequestError, NameCouldNotChangeReservationCheckInDateError,
          CodeBadRequestError, CodeCouldNotChangeReservationCheckInDateError]

/-- Witness of the amended C7: the stored check-in of the sample reservation is in the
future, the proposed check-in 2020-01-01 is before the clock reading 2025-01-01. -/
theorem update_checkin_rule_reads_proposed_date_witness :
    (Service.UpdateReservation sampleDecls sampleService sampleNow
        { sampleUpdate with CheckInDate := "2020-01-01", CheckOutDate := "2020-01-02" }
        sampleWorld).1.Result
        = some (CouldNotChangeReservationCheckInDate sampleDecls)
      ↔ Time.date 2020 1 1 < sampleNow :=
  update_checkin_rule_reads_proposed_date sampleDecls sampleService sampleNow
    { sampleUpdate with CheckInDate := "2020-01-01", CheckOutDate := "2020-01-02" }
    sampleWorld (Time.date 2020 1 1) (Time.date 2020 1 2) (Or.inl rfl) (by decide) (by decide)
    (by decide)

/-- C8, as stated, fails when two stored reservations carry the same PNR: `R` of user 7 is
stored, the update of user 8 has the PNR of `R` and another user id, and the lookup by PNR
finds the reservation of user 8 first, so the store saves the update and returns nil, and
`Service.UpdateReservation` answers `Data` without an error. -/
theorem update_by_other_user_counterexample :
    ({ sampleRow with ID := 3 } : Reservation) ∈ sampleTwinDB.reservations
    ∧ (updateRev { sampleUpdate with UserId := 8 } (Time.date 2031 1 1)
        (Time.date 2031 1 2)).PNR = ({ sampleRow with ID := 3 } : Reservation).PNR
    ∧ (updateRev { sampleUpdate with UserId := 8 } (Time.date 2031 1 1)
        (Time.date 2031 1 2)).UserID ≠ ({ sampleRow with ID := 3 } : Reservation).UserID
    ∧ (store.UpdateReservation Faults.none sampleNow
        (updateRev { sampleUpdate with UserId := 8 } (Time.date 2031 1 1)
          (Time.date 2031 1 2)) sampleTwinDB).1 = none
    ∧ (Service.UpdateReservation sampleDecls sampleService sampleNow
        { sampleUpdate with UserId := 8 } { db := sampleTwinDB, calls := [] }).1
      = { Result := none, Data := some { IsSuccessfully := true } } := by
  decide

/-- C8, amended: for every stored reservation `R` (the one reservation with its PNR) and
every update whose `UserID` differs from `R.UserID` while its PNR equals `R.PNR`, the
store's `UpdateReservation` returns an error, leaves every stored reservation as it was and
sends no `Save`; and `Service.UpdateReservation` over that store, for every request with
that PNR and another user id, returns an error `Result` with `Data = nil`, the stored
reservations unchanged. This holds for every answer of the database driver and every clock
reading. -/
theorem update_by_other_user_rejected (d : Decls) (s : Service DB) (f : Faults)
    (now storeNow : Time) (res : Reservation) (req : UpdateReservationRequest) (w : World DB)
    (R : Reservation)
    (hmem : R ∈ w.db.reservations)
    (hunique : w.db.reservations.Pairwise fun a b => a.PNR ≠ b.PNR)
    (hpnr : res.PNR = R.PNR) (huser : res.UserID ≠ R.UserID)
    (hreqpnr : req.PNR = R.PNR) (hrequser : req.UserId ≠ R.UserID) :
    (store.UpdateReservation f storeNow res w.db).1 ≠ none
    ∧ (store.UpdateReservation f storeNow res w.db).2.reservations = w.db.reservations
    ∧ (∀ row, DBOp.save row ∈ (store.UpdateReservation f storeNow res w.db).2.trace →
        DBOp.save row ∈ w.db.trace)
    ∧ (Service.UpdateReservation d { s with ms := mysqlStore f storeNow } now req w).1.Data
        = none
    ∧ (Service.UpdateReservation d { s with ms := mysqlStore f storeNow } now req w).1.Result
        ≠ none
    ∧ (Service.UpdateReservation d { s with ms := mysqlStore f storeNow } now req
        w).2.db.reservations = w.db.reservations := by
  obtain ⟨err, db1, he, hrows, hsave⟩ :=
    store_update_other_user f storeNow res w.db R hmem hunique hpnr huser
  have hstore : ∀ ci co, ∃ err db1,
      store.UpdateReservation f storeNow (updateRev req ci co) w.db = (some err, db1)
        ∧ db1.reservations = w.db.reservations := fun ci co => by
    obtain ⟨e2, d2, h2, hr2, _⟩ :=
      store_update_other_user f storeNow (updateRev req ci co) w.db R hmem hunique hreqpnr
        hrequser
    exact ⟨e2, d2, h2, hr2⟩
  refine ⟨?_, ?_, ?_, ?_, ?_, ?_⟩
  · rw [he]; simp
  · rw [he]; exact hrows
  · rw [he]; exact hsave
  · rcases service_update_shape d { s with ms := mysqlStore f storeNow } now req w with
      ⟨e, h⟩ | ⟨ci, co, _, _, h⟩
    · rw [h]
    · obtain ⟨e2, d2, h2, _⟩ := hstore ci co
      rw [h, updateViaStore_of_error s f storeNow _ w e2 d2 h2]
  · rcases service_update_shape d { s with ms := mysqlStore f storeNow } now req w with
      ⟨e, h⟩ | ⟨ci, co, _, _, h⟩
    · rw [h]; simp
    · obtain ⟨e2, d2, h2, _⟩ := hstore ci co
      rw [h, updateViaStore_of_error s f storeNow _ w e2 d2 h2]; simp
  · rcases service_update_shape d { s with ms := mysqlStore f storeNow } now req w with
      ⟨e, h⟩ | ⟨ci, co, _, _, h⟩
    · rw [h]
    · obtain ⟨e2, d2, h2, hr2⟩ := hstore ci co
      rw [h, updateViaStore_of_error s f storeNow _ w e2 d2 h2]
      exact hr2

/-- Witness of the amended C8: user 8 tries to update the sample reservation of user 7. -/
theorem update_by_other_user_rejected_witness :
    (store.UpdateReservation Faults.none sampleNow { sampleRow with UserID := 8 }
        sampleWorld.db).1 ≠ none
    ∧ (store.UpdateReservation Faults.none sampleNow { sampleRow with UserID := 8 }
        sampleWorld.db).2.reservations = sampleWorld.db.reservations
    ∧ (∀ row, DBOp.save row ∈ (store.UpdateReservation Faults.none sampleNow
          { sampleRow with UserID := 8 } sampleWorld.db).2.trace →
        DBOp.save row ∈ sampleWorld.db.trace)
    ∧ (Service.UpdateReservation sampleDecls { sampleService with
          ms := mysqlStore Faults.none sampleNow } sampleNow
          { sampleUpdate with UserId := 8 } sampleWorld).1.Data = none
    ∧ (Service.UpdateReservation sampleDecls { sampleService with
          ms := mysqlStore Faults.none sampleNow } sampleNow
          { sampleUpdate with UserId := 8 } sampleWorld).1.Result ≠ none
    ∧ (Service.UpdateReservation sampleDecls { sampleService with
          ms := mysqlStore Faults.none sampleNow } sampleNow
          { sampleUpdate with UserId := 8 } sampleWorld).2.db.reservations
        = sampleWorld.db.reservations :=
  update_by_other_user_rejected sampleDecls sampleService Faults.none sampleNow sampleNow
    { sampleRow with UserID := 8 } { sampleUpdate with UserId := 8 } sampleWorld sampleRow
    (by decide) (by decide) (by decide) (by decide) (by decide) (by decide)

/-- C9 evaluated on the code: on the owner-mismatch path and on the past-check-in path the
store's `UpdateReservation` returns its error after `Begin` and the lookup without sending a
rollback, so the transaction it began stays open; the lookup-failure path, by contrast, does
roll back. -/
theorem update_failure_leaves_transaction_open :
    store.UpdateReservation Faults.none sampleNow { sampleRow with UserID := 8 } sampleDB
      = (some (.errorString
          "the reservation you are trying to update does not belong to this user"),
         { sampleDB with trace := [.begin, .first "abcdEFGH"] })
    ∧ openTransactions (store.UpdateReservation Faults.none sampleNow
        { sampleRow with UserID := 8 } sampleDB).2.trace = 1
    ∧ store.UpdateReservation Faults.none sampleNow samplePastRow samplePastDB
      = (some (.errorString "the check-in date of a past reservation cannot be changed"),
         { samplePastDB with trace := [.begin, .first "abcdEFGH"] })
    ∧ openTransactions (store.UpdateReservation Faults.none sampleNow samplePastRow
        samplePastDB).2.trace = 1
    ∧ store.UpdateReservation Faults.none sampleNow { sampleRow with PNR := "zzzzzzzz" }
        sampleDB
      = (some ErrRecordNotFound,
         { sampleDB with trace := [.begin, .first "zzzzzzzz", .rollback] })
    ∧ openTransactions (store.UpdateReservation Faults.none sampleNow
        { sampleRow with PNR := "zzzzzzzz" } sampleDB).2.trace = 0 := by
  decide

/-- C10, as stated, fails for a token whose `exp` claim is 0, which the parser reads as no
expiry. Checked at second 1700000000, long after the epoch, a validly signed token with
`exp = 0` and a `nbf` in the future is rejected with the parser's not-valid-yet error, which
is not expiry-classed; and checked at the epoch itself, a validly signed token with `exp = 0`
is accepted, although the clock reading is at its `exp`. -/
theorem expired_token_counterexample :
    sampleMiddleware.isTokenValid
        (sampleDecodeWith [("exp", .number 0), ("nbf", .number 2000000000),
          ("sub", .string "42")])
        (Time.unix 1700000000) (Time.unix 1700000000) "tok"
      = .returns (0, some (.validationError
          { Malformed := false, SignatureInvalid := false, Expired := false,
            IssuedAt := false, NotValidYet := true }))
    ∧ expiryClassed (.validationError
          { Malformed := false, SignatureInvalid := false, Expired := false,
            IssuedAt := false, NotValidYet := true }) = false
    ∧ sampleMiddleware.isTokenValid
        (sampleDecodeWith [("exp", .number 0), ("sub", .string "42")])
        (Time.unix 0) (Time.unix 0) "tok"
      = .returns (42, none) := by
  decide

/-- C10, amended: for every token whose signature verifies under the configured secret and
whose `exp` claim is a non-zero number (the library reads a zero `exp` as no expiry), if
the clock reading at which the token is checked is at or after `exp`, then `isTokenValid`
returns a non-nil expiry-classed error with user id 0, and each of the four protected
operations returns `DefaultUnauthorizedError` with `Data = nil` without calling the wrapped
service. -/
theorem expired_token_rejected {ω : Type} (decode : String → Option RawToken)
    (m : AuthMiddleware ω) (parseNow now : Time) (tokenString : String) (raw : RawToken)
    (exp : Int) (creq : CreateReservationRequest) (ureq : UpdateReservationRequest)
    (freq : FindReservationRequest) (lreq : FindReservationsRequest) (w : ω)
    (hdecode : decode tokenString = some raw)
    (hsig : raw.verifies m.jw.Secret = true)
    (hexp : raw.Claims.lookup "exp" = some (.number exp)) (hnz : exp ≠ 0)
    (hnow : Time.unix exp ≤ parseNow) :
    (∃ err, m.isTokenValid decode parseNow now tokenString = .returns (0, some err)
      ∧ expiryClassed err = true)
    ∧ m.CreateReservation decode parseNow now { creq with Token := tokenString } w
        = .returns ({ Result := some DefaultUnauthorizedError, Data := none }, w)
    ∧ m.UpdateReservation decode parseNow now { ureq with Token := tokenString } w
        = .returns ({ Result := some DefaultUnauthorizedError, Data := none }, w)
    ∧ m.FindReservation decode parseNow now { freq with Token := tokenString } w
        = .returns ({ Result := some DefaultUnauthorizedError, Data := none }, w)
    ∧ m.FindReservations decode parseNow now { lreq with Token := tokenString } w
        = .returns ({ Result := some DefaultUnauthorizedError, Data := none }, w) := by
  obtain ⟨flags, hflag, hparse⟩ :=
    jwtParse_expired decode m.jw.Secret parseNow tokenString raw exp hdecode hsig hexp hnz
      hnow
  have hvalid : m.isTokenValid decode parseNow now tokenString
      = .returns (0, some (.validationError flags)) := by
    simp [AuthMiddleware.isTokenValid, hparse, isTokenValidWith]
  refine ⟨⟨_, hvalid, by simpa [expiryClassed] using hflag⟩, ?_, ?_, ?_, ?_⟩
  · simp [AuthMiddleware.CreateReservation, hvalid]
  · simp [AuthMiddleware.UpdateReservation, hvalid]
  · simp [AuthMiddleware.FindReservation, hvalid]
  · simp [AuthMiddleware.FindReservations, hvalid]

/-- Witness of the amended C10: the sample token expires at second 1735689600 and is checked at that
very second. -/
theorem expired_token_rejected_witness :
    (∃ err, sampleMiddleware.isTokenValid sampleDecode (Time.unix 1735689600)
          (Time.unix 1735689600) "tok" = .returns (0, some err)
      ∧ expiryClassed err = true)
    ∧ sampleMiddleware.CreateReservation sampleDecode (Time.unix 1735689600)
          (Time.unix 1735689600) { sampleCreate with Token := "tok" } ()
        = .returns ({ Result := some DefaultUnauthorizedError, Data := none }, ())
    ∧ sampleMiddleware.UpdateReservation sampleDecode (Time.unix 1735689600)
          (Time.unix 1735689600) { sampleUpdate with Token := "tok" } ()
        = .returns ({ Result := some DefaultUnauthorizedError, Data := none }, ())
    ∧ sampleMiddleware.FindReservation sampleDecode (Time.unix 1735689600)
          (Time.unix 1735689600) { sampleFind with Token := "tok" } ()
        = .returns ({ Result := some DefaultUnauthorizedError, Data := none }, ())
    ∧ sampleMiddleware.FindReservations sampleDecode (Time.unix 1735689600)
          (Time.unix 1735689600) { sampleFindAll with Token := "tok" } ()
        = .returns ({ Result := some DefaultUnauthorizedError, Data := none }, ()) :=
  expired_token_rejected sampleDecode sampleMiddleware (Time.unix 1735689600)
    (Time.unix 1735689600) "tok" sampleRawToken 1735689600 sampleCreate sampleUpdate
    sampleFind sampleFindAll () rfl rfl rfl (by decide) (by decide)

/-- C11 evaluated on the code: for a validly signed token that expires at second 1735689600,
checked at second 1700000000, `isTokenValid` panics at the type assertion on `sub` when the
claim is missing and when it is a number, and so does the protected operation
`CreateReservation`; only a string that is not a base-10 integer yields `errParsingUserId`
and `DefaultUnauthorizedError`. -/
theorem malformed_subject_panics :
    sampleMiddleware.isTokenValid (sampleDecodeWith [("exp", .number 1735689600)])
        (Time.unix 1700000000) (Time.unix 1700000000) "tok"
      = .panics "interface conversion: interface is not string"
    ∧ sampleMiddleware.isTokenValid
        (sampleDecodeWith [("exp", .number 1735689600), ("sub", .number 42)])
        (Time.unix 1700000000) (Time.unix 1700000000) "tok"
      = .panics "interface conversion: interface is not string"
    ∧ sampleMiddleware.CreateReservation (sampleDecodeWith [("exp", .number 1735689600)])
        (Time.unix 1700000000) (Time.unix 1700000000) sampleCreate ()
      = .panics "interface conversion: interface is not string"
    ∧ sampleMiddleware.isTokenValid
        (sampleDecodeWith [("exp", .number 1735689600), ("sub", .string "4x2")])
        (Time.unix 1700000000) (Time.unix 1700000000) "tok"
      = .returns (0, some errParsingUserId)
    ∧ sampleMiddleware.CreateReservation
        (sampleDecodeWith [("exp", .number 1735689600), ("sub", .string "4x2")])
        (Time.unix 1700000000) (Time.unix 1700000000) sampleCreate ()
      = .returns ({ Result := some DefaultUnauthorizedError, Data := none }, ()) := by
  decide

/-- C12: for each of `CreateReservation`, `UpdateReservation`, `FindReservation` and
`FindReservations` of the auth middleware, whenever `isTokenValid` returns an error for the
token of the request, the response has `Result = DefaultUnauthorizedError` (name
`UnauthorizedError`, code 4, status 401) and `Data = nil`, and the wrapped service is not
invoked: its state and the log of its calls are unchanged. `Health` and `SignIn` are
forwarded to the wrapped service for every request; they read no token at all. -/
theorem unauthorized_without_calling_next {ω : Type} (decode : String → Option RawToken)
    (next : ServiceInterface ω) (jw : JWTToken) (parseNow now : Time) (tokenString : String)
    (uid : Int) (err : GoError)
    (creq : CreateReservationRequest) (ureq : UpdateReservationRequest)
    (freq : FindReservationRequest) (lreq : FindReservationsRequest)
    (hreq : HealthRequest) (sreq : SignInRequest) (w : ω × List ServiceCall)
    (herr : (recordingMiddleware next jw).isTokenValid decode parseNow now tokenString
      = .returns (uid, some err)) :
    (recordingMiddleware next jw).CreateReservation decode parseNow now
        { creq with Token := tokenString } w
      = .returns ({ Result := some DefaultUnauthorizedError, Data := none }, w)
    ∧ (recordingMiddleware next jw).UpdateReservation decode parseNow now
        { ureq with Token := tokenString } w
      = .returns ({ Result := some DefaultUnauthorizedError, Data := none }, w)
    ∧ (recordingMiddleware next jw).FindReservation decode parseNow now
        { freq with Token := tokenString } w
      = .returns ({ Result := some DefaultUnauthorizedError, Data := none }, w)
    ∧ (recordingMiddleware next jw).FindReservations decode parseNow now
        { lreq with Token := tokenString } w
      = .returns ({ Result := some DefaultUnauthorizedError, Data := none }, w)
    ∧ DefaultUnauthorizedError.Name = "UnauthorizedError"
    ∧ DefaultUnauthorizedError.Code = 4 ∧ DefaultUnauthorizedError.StatusCode = 401
    ∧ (recordingMiddleware next jw).Health hreq w
      = ((next.Health hreq w.1).1, (next.Health hreq w.1).2, w.2 ++ [ServiceCall.Health hreq])
    ∧ (recordingMiddleware next jw).SignIn sreq w
      = ((next.SignIn sreq w.1).1, (next.SignIn sreq w.1).2,
          w.2 ++ [ServiceCall.SignIn sreq]) := by
  refine ⟨?_, ?_, ?_, ?_, rfl, rfl, rfl, rfl, rfl⟩
  · simp [AuthMiddleware.CreateReservation, herr]
  · simp [AuthMiddleware.UpdateReservation, herr]
  · simp [AuthMiddleware.FindReservation, herr]
  · simp [AuthMiddleware.FindReservations, herr]

/-- Witness of C12: the sample token, checked after it expired, around the recording version
of the sample service. -/
theorem unauthorized_without_calling_next_witness :
    (recordingMiddleware sampleNext { Secret := "secret" }).CreateReservation sampleDecode
        (Time.unix 1800000000) (Time.unix 1800000000) { sampleCreate with Token := "tok" }
        ((), [])
      = .returns ({ Result := some DefaultUnauthorizedError, Data := none }, ((), [])) :=
  (unauthorized_without_calling_next sampleDecode sampleNext { Secret := "secret" }
    (Time.unix 1800000000) (Time.unix 1800000000) "tok" 0
    (.validationError { Malformed := false, SignatureInvalid := false, Expired := true,
                        IssuedAt := false, NotValidYet := false })
    sampleCreate sampleUpdate sampleFind sampleFindAll sampleHealth sampleSignIn ((), [])
    (by decide)).1

/-- C13: for each protected operation of the auth middleware, when `isTokenValid` succeeds
with principal `p` for the token of the request, the wrapped service is called exactly once,
with the incoming request in which `UserId` is set to `p` (whatever it was before) and
nothing else is changed, and the middleware returns the response of the wrapped service
unchanged. -/
theorem principal_attached_and_forwarded {ω : Type} (decode : String → Option RawToken)
    (next : ServiceInterface ω) (jw : JWTToken) (parseNow now : Time) (tokenString : String)
    (p : Int)
    (creq : CreateReservationRequest) (ureq : UpdateReservationRequest)
    (freq : FindReservationRequest) (lreq : FindReservationsRequest)
    (w : ω × List ServiceCall)
    (hok : (recordingMiddleware next jw).isTokenValid decode parseNow now tokenString
      = .returns (p, none)) :
    (recordingMiddleware next jw).CreateReservation decode parseNow now
        { creq with Token := tokenString } w
      = .returns
          ((next.CreateReservation { creq with Token := tokenString, UserId := p } w.1).1,
           (next.CreateReservation { creq with Token := tokenString, UserId := p } w.1).2,
           w.2 ++ [ServiceCall.CreateReservation
                    { creq with Token := tokenString, UserId := p }])
    ∧ (recordingMiddleware next jw).UpdateReservation decode parseNow now
        { ureq with Token := tokenString } w
      = .returns
          ((next.UpdateReservation { ureq with Token := tokenString, UserId := p } w.1).1,
           (next.UpdateReservation { ureq with Token := tokenString, UserId := p } w.1).2,
           w.2 ++ [ServiceCall.UpdateReservation
                    { ureq with Token := tokenString, UserId := p }])
    ∧ (recordingMiddleware next jw).FindReservation decode parseNow now
        { freq with Token := tokenString } w
      = .returns
          ((next.FindReservation { freq with Token := tokenString, UserId := p } w.1).1,
           (next.FindReservation { freq with Token := tokenString, UserId := p } w.1).2,
           w.2 ++ [ServiceCall.FindReservation
                    { freq with Token := tokenString, UserId := p }])
    ∧ (recordingMiddleware next jw).FindReservations decode parseNow now
        { lreq with Token := tokenString } w
      = .returns
          ((next.FindReservations { lreq with Token := tokenString, UserId := p } w.1).1,
           (next.FindReservations { lreq with Token := tokenString, UserId := p } w.1).2,
           w.2 ++ [ServiceCall.FindReservations
                    { lreq with Token := tokenString, UserId := p }]) := by
  refine ⟨?_, ?_, ?_, ?_⟩
  · simp only [AuthMiddleware.CreateReservation, hok]
    rfl
  · simp only [AuthMiddleware.UpdateReservation, hok]
    rfl
  · simp only [AuthMiddleware.FindReservation, hok]
    rfl
  · simp only [AuthMiddleware.FindReservations, hok]
    rfl

/-- Witness of C13: the sample token of user 42, checked before it expires; the request
arrives with `UserId = 7`, the wrapped service receives `UserId = 42`. -/
theorem principal_attached_and_forwarded_witness :
    (recordingMiddleware sampleNext { Secret := "secret" }).CreateReservation sampleDecode
        (Time.unix 1700000000) (Time.unix 1700000000) { sampleCreate with Token := "tok" }
        ((), [])
      = .returns
          ({ Result := none, Data := none }, (),
           [ServiceCall.CreateReservation { sampleCreate with Token := "tok", UserId := 42 }]) :=
  (principal_attached_and_forwarded sampleDecode sampleNext { Secret := "secret" }
    (Time.unix 1700000000) (Time.unix 1700000000) "tok" 42
    sampleCreate sampleUpdate sampleFind sampleFindAll ((), []) (by decide)).1

/-- C14: for every reservation `r` that the store returns without error for the PNR and the
user id of the request, `Service.FindReservation` returns `Result = nil` and `Data` with the
`PNR`, `Destination`, `Accommodation` and `GuestCount` of `r`, its two dates formatted with
the layout `2006-01-02`, each in the location that the date carries, and `UserName` made of
the first name, one space and the last name of `r.User`; the store is called once, with that
PNR and user id. -/
theorem find_reservation_success {σ : Type} (s : Service σ) (req : FindReservationRequest)
    (w : World σ) (r : Reservation) (db1 : σ)
    (hstore : s.ms.FindReservation req.PNR req.UserId w.db = ((some r, none), db1)) :
    Service.FindReservation s req w
      = .returns
          ({ Result := none
             Data := some
               { PNR := r.PNR, Destination := r.Destination
                 CheckInDate := r.CheckInDate.Format r.CheckInDateOffset
                 CheckOutDate := r.CheckOutDate.Format r.CheckOutDateOffset
                 Accommodation := r.Accommodation, GuestCount := r.GuestCount
                 UserName := r.User.FirstName ++ " " ++ r.User.LastName } },
           { w with
             db := db1, calls := w.calls ++ [StoreCall.FindReservation req.PNR req.UserId] }) := by
  simp [Service.FindReservation, World.callFindReservation, hstore, findReservationData]

/-- Witness of C14: a store hands out the reservation of John Doe with its dates in a
location fourteen hours east of UTC; the dates are printed as they read in that location,
2030-01-01 and 2030-01-05, not as the UTC dates of the two instants. -/
theorem find_reservation_success_witness :
    Service.FindReservation
        { environment := "dev", ms := sampleEasternStore, jw := { Secret := "secret" } }
        sampleFindOwn { db := (), calls := [] }
      = .returns
          ({ Result := none
             Data := some
               { PNR := "abcdEFGH", Destination := "Rome", CheckInDate := "2030-01-01"
                 CheckOutDate := "2030-01-05", Accommodation := "city", GuestCount := 2
                 UserName := "John Doe" } },
           { db := (), calls := [StoreCall.FindReservation "abcdEFGH" 7] })
    ∧ sampleEasternRow.CheckInDate.Format 0 = "2029-12-31" :=
  ⟨(find_reservation_success
      { environment := "dev", ms := sampleEasternStore, jw := { Secret := "secret" } }
      sampleFindOwn { db := (), calls := [] } sampleEasternRow () rfl).trans (by decide),
    by decide⟩

/-- C15: for every error `e` that the store's `FindReservation` returns, whatever
reservation comes with it, `Service.FindReservation` returns `Data = nil` and as `Result`
the value of `NewBadRequestError(e)` with `BaseError = e`: name `BadRequestError`, code 2,
status 400, `Message` the text of `e`. -/
theorem find_reservation_store_error {σ : Type} (s : Service σ)
    (req : FindReservationRequest) (w : World σ) (e : GoError) (r : Option Reservation)
    (db1 : σ)
    (hstore : s.ms.FindReservation req.PNR req.UserId w.db = ((r, some e), db1)) :
    Service.FindReservation s req w
      = .returns
          ({ Result := some { NewBadRequestError e with BaseError := some e }, Data := none },
           { w with
             db := db1, calls := w.calls ++ [StoreCall.FindReservation req.PNR req.UserId] })
    ∧ (NewBadRequestError e).Name = "BadRequestError"
    ∧ (NewBadRequestError e).Code = 2
    ∧ (NewBadRequestError e).StatusCode = 400
    ∧ (NewBadRequestError e).Message = e.Error := by
  refine ⟨?_, rfl, rfl, rfl, rfl⟩
  simp [Service.FindReservation, World.callFindReservation, hstore, badRequestWith]

/-- Witness of C15: user 7 asks for the unknown PNR `zzzzzzzz` and the store answers
`record not found`. -/
theorem find_reservation_store_error_witness :
    Service.FindReservation sampleService { sampleFindOwn with PNR := "zzzzzzzz" }
        sampleUsersWorld
      = .returns
          ({ Result := some { NewBadRequestError ErrRecordNotFound with
                              BaseError := some ErrRecordNotFound }, Data := none },
           { db := sampleUsersWorld.db.record (.find "zzzzzzzz" 7)
             calls := sampleUsersWorld.calls ++ [StoreCall.FindReservation "zzzzzzzz" 7] }) :=
  (find_reservation_store_error sampleService { sampleFindOwn with PNR := "zzzzzzzz" }
    sampleUsersWorld ErrRecordNotFound none (sampleUsersWorld.db.record (.find "zzzzzzzz" 7))
    (by decide)).1

/-- C17, as stated, fails when the text of the store error is the message that the shared
variable holds. In a fresh process that message is empty as declared: when the store answers
the create call with `errors.New("")`, the `Message` of the result is the text of that
error. After one failure was encoded with the sample localizer the variable holds the
localized text, and a store error with that very text is answered with it. -/
theorem create_store_error_counterexample :
    ((Service.CreateReservation sampleDecls
        { sampleService with
          ms := mysqlStore { Faults.none with createErr := some (.errorString "") } sampleNow }
        sampleNow sampleRnd sampleCreate sampleWorld).1.Result.map fun r => r.Message)
      = some (GoError.errorString "").Error
    ∧ ((Service.CreateReservation sampleDecls
        { sampleService with
          ms := mysqlStore
            { Faults.none with
              createErr := some (.errorString "The reservation could not be created") }
            sampleNow }
        sampleNow sampleRnd sampleCreate sampleWorldAfterFailure).1.Result.map
          fun r => r.Message)
      = some (GoError.errorString "The reservation could not be created").Error := by
  decide

/-- C17, amended: for every valid create request (whitelisted accommodation, well-formed
dates, check-in not after check-out) and every error `e` that the store's
`CreateReservation` returns, `Service.CreateReservation` returns `Data = nil` and, as
`Result`, the shared variable `apierror.CouldNotCreateReservation` after assigning `e` to
its `BaseError`: name `CouldNotCreateReservationError`, code 5, status 400, `BaseError = e`,
and as `Message` the message that the variable holds at that moment, whatever `e` is (empty
as declared in a fresh process, the localized text once `errorEncoder` has encoded an
earlier failure, which leaves the localization of the declared key in the variable). So the
`Message` is not the text of `e` unless that text equals what the variable holds. -/
theorem create_store_error {σ : Type} (d : Decls) (s : Service σ) (now : Time)
    (rnd : Nat → Nat) (req : CreateReservationRequest) (w : World σ) (checkIn checkOut : Time)
    (e : GoError) (db1 : σ) (l : Localizer) (internal : APIError)
    (hac : req.Accommodation = "beach" ∨ req.Accommodation = "city"
      ∨ req.Accommodation = "mountain")
    (hin : timeParse req.CheckInDate = some checkIn)
    (hout : timeParse req.CheckOutDate = some checkOut)
    (hord : checkIn ≤ checkOut)
    (hstore : s.ms.CreateReservation (createRev req now rnd checkIn checkOut) w.db
      = (some e, db1)) :
    Service.CreateReservation d s now rnd req w
      = ({ Result := some
             { Message := w.createErrorMessage, Name := "CouldNotCreateReservationError",
               Code := 5, StatusCode := 400, ErrorAction := 0, BaseError := some e,
               MessageLocalizerKey := d.locCouldNotCreateReservation }
           Data := none },
         { w with
           db := db1
           calls := w.calls
             ++ [StoreCall.CreateReservation (createRev req now rnd checkIn checkOut)]
           createErrorBaseError := some e })
    ∧ (e.Error ≠ w.createErrorMessage →
        ∀ r, (Service.CreateReservation d s now rnd req w).1.Result = some r →
          r.Message ≠ e.Error)
    ∧ (errorEncoder l
        (.apiError
          { Message := w.createErrorMessage, Name := "CouldNotCreateReservationError",
            Code := 5, StatusCode := 400, ErrorAction := 0, BaseError := some e,
            MessageLocalizerKey := d.locCouldNotCreateReservation }) internal).2.2
      = some
          { Message := Localize l d.locCouldNotCreateReservation w.createErrorMessage
            Name := "CouldNotCreateReservationError", Code := 5, StatusCode := 400,
            ErrorAction := 0, BaseError := some e,
            MessageLocalizerKey := d.locCouldNotCreateReservation } := by
  have hres : Service.CreateReservation d s now rnd req w
      = ({ Result := some
             { Message := w.createErrorMessage, Name := "CouldNotCreateReservationError",
               Code := 5, StatusCode := 400, ErrorAction := 0, BaseError := some e,
               MessageLocalizerKey := d.locCouldNotCreateReservation }
           Data := none },
         { w with
           db := db1
           calls := w.calls
             ++ [StoreCall.CreateReservation (createRev req now rnd checkIn checkOut)]
           createErrorBaseError := some e }) :=
    service_create_store_error d s now rnd req w checkIn checkOut e db1 hac hin hout hord
      hstore
  refine ⟨hres, ?_, ?_⟩
  · intro hne r hr
    rw [hres] at hr
    cases hr
    exact fun h => hne h.symm
  · simp only [errorEncoder, errorsAs, APIError.Localize]

/-- Witness of the amended C17: the driver answers the insert of the sample request with
`duplicate entry` a second time, after `errorEncoder` has encoded the first failure with the
sample localizer; the response now carries the localized text that the first encoding left
in the shared variable. -/
theorem create_store_error_witness :
    (Service.CreateReservation sampleDecls sampleFailingService sampleNow sampleRnd
        sampleCreate sampleWorldAfterFailure).1.Result.map (fun r => r.Message)
      = some "The reservation could not be created" :=
  (congrArg (fun r => r.1.Result.map fun a => a.Message)
    (create_store_error sampleDecls sampleFailingService sampleNow sampleRnd sampleCreate
      sampleWorldAfterFailure (Time.date 2030 2 1) (Time.date 2030 2 1)
      (.errorString "duplicate entry")
      (sampleWorldAfterFailure.db.record (.create (createRev sampleCreate sampleNow
        sampleRnd (Time.date 2030 2 1) (Time.date 2030 2 1))))
      sampleLocalizer DefaultInternalServerError
      (Or.inl rfl) (by decide) (by decide) (by decide) (by decide)).1).trans (by decide)

/-- C20, as stated, fails in its scenario: for a create request whose `guestCount` was
omitted (decoded as 0) the message of `validate` names the Go field `GuestCount`; the text
`guestCount` does not occur in it. -/
theorem validation_names_go_field_counterexample :
    validate ({ sampleCreate with GuestCount := 0 } : CreateReservationRequest).checks
      = some (.errorString "validation failed, tag: required, field: GuestCount")
    ∧ ¬ List.IsInfix "guestCount".toList
        "validation failed, tag: required, field: GuestCount".toList := by
  decide

/-- C20, amended: validation is fail-fast and names the offending field by its Go name: for
every decoded request with at least one field that violates its tag, `validate` returns an
error built from the first violating field in declaration order and its tag only, and the
decoder turns it into a `ValidationError` (code 3, status 400) with that text as message; a
create request in which only `GuestCount` is left at zero fails with
`validation failed, tag: required, field: GuestCount`. -/
theorem validation_fails_fast {α : Type} (req : α) (checks : List FieldCheck)
    (creq : CreateReservationRequest) (h : ∃ c ∈ checks, c.violated = true) :
    (∃ ok bad rest, checks = ok ++ bad :: rest ∧ (∀ c ∈ ok, c.violated = false)
      ∧ bad.violated = true
      ∧ validate checks
          = some (.errorString
              ("validation failed, tag: " ++ bad.Tag ++ ", field: " ++ bad.Field))
      ∧ validateDecoded req checks
          = (none, some
              { Message := "validation failed, tag: " ++ bad.Tag ++ ", field: " ++ bad.Field
                Name := "ValidationError", Code := 3, StatusCode := 400, ErrorAction := 0
                BaseError := some (.errorString
                  ("validation failed, tag: " ++ bad.Tag ++ ", field: " ++ bad.Field))
                MessageLocalizerKey := "" }))
    ∧ (creq.Destination ≠ "" → creq.CheckInDate ≠ "" → creq.CheckOutDate ≠ "" →
        creq.Accommodation ≠ "" → creq.GuestCount = 0 →
        validate creq.checks
          = some (.errorString "validation failed, tag: required, field: GuestCount")) := by
  constructor
  · obtain ⟨ok, bad, rest, hsplit, hok, hbad, hval⟩ := validate_first_failure checks h
    refine ⟨ok, bad, rest, hsplit, hok, hbad, hval, ?_⟩
    simp [validateDecoded, hval, NewValidationError, GoError.Error, NameValidationError,
      CodeValidationError]
  · intro h1 h2 h3 h4 h5
    simp [validate, structErrors, CreateReservationRequest.checks, h1, h2, h3, h4, h5]

/-- Witness of the amended C20: the sample create request with `GuestCount` left at zero. -/
theorem validation_fails_fast_witness :
    validate ({ sampleCreate with GuestCount := 0 } : CreateReservationRequest).checks
      = some (.errorString "validation failed, tag: required, field: GuestCount") :=
  (validation_fails_fast ({ sampleCreate with GuestCount := 0 } : CreateReservationRequest)
    ({ sampleCreate with GuestCount := 0 } : CreateReservationRequest).checks
    { sampleCreate with GuestCount := 0 }
    ⟨{ Field := "GuestCount", Tag := "required", violated := true }, by decide, rfl⟩).2
    (by decide) (by decide) (by decide) (by decide) rfl

/-- C18: a string is accepted by `parseDate` exactly when it is a well-formed `YYYY-MM-DD`
calendar date (four-digit year, two-digit month, two-digit day, joined by `-`, denoting an
existing date); and for every request with a whitelisted accommodation in which the check-in
or the check-out is not such a date, `Service.CreateReservation` and
`Service.UpdateReservation` fail with `Data = nil` and the date-parse error (the bad-request
error built from `ErrFailedParseDate`), and leave the store and the call log as they were. -/
theorem malformed_date_rejected {σ : Type} (d : Decls) (s : Service σ) (now : Time)
    (rnd : Nat → Nat) (w : World σ) :
    (∀ dateString, (parseDate dateString).2 = none ↔ wellFormedDate dateString)
    ∧ (∀ creq : CreateReservationRequest,
        (creq.Accommodation = "beach" ∨ creq.Accommodation = "city"
          ∨ creq.Accommodation = "mountain") →
        (¬ wellFormedDate creq.CheckInDate ∨ ¬ wellFormedDate creq.CheckOutDate) →
        Service.CreateReservation d s now rnd creq w
          = ({ Result := some (badRequestWith ErrFailedParseDate), Data := none }, w))
    ∧ (∀ ureq : UpdateReservationRequest,
        (ureq.Accommodation = "beach" ∨ ureq.Accommodation = "city"
          ∨ ureq.Accommodation = "mountain") →
        (¬ wellFormedDate ureq.CheckInDate ∨ ¬ wellFormedDate ureq.CheckOutDate) →
        Service.UpdateReservation d s now ureq w
          = ({ Result := some (badRequestWith ErrFailedParseDate), Data := none }, w)) := by
  refine ⟨parseDate_accepts_iff, ?_, ?_⟩
  · intro creq hac hdates
    have hva := (validAccommodation_iff creq.Accommodation).2 hac
    by_cases hin : wellFormedDate creq.CheckInDate
    · have hout : ¬ wellFormedDate creq.CheckOutDate := hdates.resolve_left (not_not.2 hin)
      obtain ⟨t, ht⟩ := (timeParse_accepts_iff _).2 hin
      simp [Service.CreateReservation, hva, parseDate_of_timeParse _ _ ht,
        parseDate_of_not_wellFormed _ hout]
    · simp [Service.CreateReservation, hva, parseDate_of_not_wellFormed _ hin]
  · intro ureq hac hdates
    have hva := (validAccommodation_iff ureq.Accommodation).2 hac
    by_cases hin : wellFormedDate ureq.CheckInDate
    · have hout : ¬ wellFormedDate ureq.CheckOutDate := hdates.resolve_left (not_not.2 hin)
      obtain ⟨t, ht⟩ := (timeParse_accepts_iff _).2 hin
      simp [Service.UpdateReservation, hva, parseDate_of_timeParse _ _ ht,
        parseDate_of_not_wellFormed _ hout]
    · simp [Service.UpdateReservation, hva, parseDate_of_not_wellFormed _ hin]

/-- Witness of C18: 2030-02-30 is not a calendar date, so the sample create request with
that check-out is rejected. -/
theorem malformed_date_rejected_witness :
    Service.CreateReservation sampleDecls sampleService sampleNow sampleRnd
        { sampleCreate with CheckOutDate := "2030-02-30" } sampleWorld
      = ({ Result := some (badRequestWith ErrFailedParseDate), Data := none }, sampleWorld) :=
  (malformed_date_rejected sampleDecls sampleService sampleNow sampleRnd sampleWorld).2.1
    { sampleCreate with CheckOutDate := "2030-02-30" } (Or.inl rfl)
    (Or.inr fun hwf =>
      absurd (((malformed_date_rejected sampleDecls sampleService sampleNow sampleRnd
        sampleWorld).1 "2030-02-30").2 hwf) (by decide))

/-- C16: round trip over the MySQL store when it returns what was stored: for every principal
with a user record `u` and every valid create request (whitelisted accommodation, well-formed
dates, check-in not after check-out), after `Service.CreateReservation` succeeded with PNR
`pnr` (no reservation of the principal with that PNR being stored before), the call
`Service.FindReservation` of the principal for `pnr` returns the destination, accommodation
and guest count of the request, check-in and check-out strings equal to the date strings of
the request, and as `UserName` the first name, one space and the last name of `u`. -/
theorem create_then_find_roundtrip (d : Decls) (s : Service DB) (f : Faults)
    (now storeNow : Time) (rnd : Nat → Nat) (creq : CreateReservationRequest)
    (freq : FindReservationRequest) (w : World DB) (u : User) (checkIn checkOut : Time)
    (pnr : String)
    (hac : creq.Accommodation = "beach" ∨ creq.Accommodation = "city"
      ∨ creq.Accommodation = "mountain")
    (hin : timeParse creq.CheckInDate = some checkIn)
    (hout : timeParse creq.CheckOutDate = some checkOut)
    (hord : checkIn ≤ checkOut)
    (huser : w.db.users.find? (fun x => x.ID == creq.UserId) = some u)
    (hfresh : ∀ r ∈ w.db.reservations, ¬ (r.PNR = pnr ∧ r.UserID = creq.UserId))
    (hfind : f.findErr = none)
    (hcreated : (Service.CreateReservation d { s with ms := mysqlStore f storeNow } now rnd
        creq w).1 = { Result := none, Data := some { IsSuccessfully := true, PNR := pnr } }) :
    ∃ w2, Service.FindReservation { s with ms := mysqlStore f storeNow }
        { freq with PNR := pnr, UserId := creq.UserId }
        (Service.CreateReservation d { s with ms := mysqlStore f storeNow } now rnd creq w).2
      = .returns
          ({ Result := none
             Data := some
               { PNR := pnr, Destination := creq.Destination
                 CheckInDate := creq.CheckInDate, CheckOutDate := creq.CheckOutDate
                 Accommodation := creq.Accommodation, GuestCount := creq.GuestCount
                 UserName := u.FirstName ++ " " ++ u.LastName } }, w2) := by
  have hpass := service_create_passes d { s with ms := mysqlStore f storeNow } now rnd creq w
    checkIn checkOut hac hin hout hord
  rw [hpass] at hcreated ⊢
  cases hce : f.createErr with
  | some e =>
    simp [World.callCreateReservation, mysqlStore, store.CreateReservation, hce] at hcreated
  | none =>
    have hpnr : generatePNR rnd pnrLen = pnr := by
      simpa [World.callCreateReservation, mysqlStore, store.CreateReservation, hce]
        using hcreated
    have hrev : (createRev creq now rnd checkIn checkOut).PNR = pnr := hpnr
    obtain ⟨hnone, row, db2, hfound, h1, h2, h3, h4, h5, h6, h7, h8, h9⟩ :=
      store_create_then_find f (createRev creq now rnd checkIn checkOut) w.db u rfl hfind hce
        huser (by rw [hrev]; exact hfresh)
    rw [hrev] at hfound h1
    have hrest : (createRev creq now rnd checkIn checkOut).UserID = creq.UserId := rfl
    rw [hrest] at hfound
    refine ⟨{ w with
              db := db2
              calls := (w.calls
                ++ [StoreCall.CreateReservation (createRev creq now rnd checkIn checkOut)])
                ++ [StoreCall.FindReservation pnr creq.UserId] }, ?_⟩
    simp only [World.callCreateReservation, mysqlStore, hnone, Service.FindReservation,
      World.callFindReservation, hfound, findReservationData, h1, h2, h3, h4, h5, h6, h7,
      h8, h9]
    simp only [createRev, format_timeParse _ _ hin, format_timeParse _ _ hout]

/-- Witness of C16: user 7 (John Doe) creates the sample same-day stay and looks it up. -/
theorem create_then_find_roundtrip_witness :
    ∃ w2, Service.FindReservation
        { sampleService with ms := mysqlStore Faults.none sampleNow }
        { sampleFind with PNR := generatePNR sampleRnd pnrLen, UserId := sampleCreate.UserId }
        (Service.CreateReservation sampleDecls
          { sampleService with ms := mysqlStore Faults.none sampleNow } sampleNow sampleRnd
          sampleCreate sampleUsersWorld).2
      = .returns
          ({ Result := none
             Data := some
               { PNR := generatePNR sampleRnd pnrLen, Destination := sampleCreate.Destination
                 CheckInDate := sampleCreate.CheckInDate
                 CheckOutDate := sampleCreate.CheckOutDate
                 Accommodation := sampleCreate.Accommodation
                 GuestCount := sampleCreate.GuestCount
                 UserName := sampleUser.FirstName ++ " " ++ sampleUser.LastName } }, w2) :=
  create_then_find_roundtrip sampleDecls sampleService Faults.none sampleNow sampleNow
    sampleRnd sampleCreate sampleFind sampleUsersWorld sampleUser (Time.date 2030 2 1)
    (Time.date 2030 2 1) (generatePNR sampleRnd pnrLen) (Or.inl rfl) (by decide) (by decide)
    (by decide) (by decide) (by decide) rfl (by decide)

/-- C19, counterexample: a sign-in one nanosecond after 2025-01-01T00:00:00Z issues a token
whose `exp` claim is second 1735776000, which is not the issuance time plus 24 hours. -/
theorem sign_in_expiry_counterexample :
    (∃ w, Service.SignIn sampleMd5hex sampleEncode sampleService (sampleNow + 1) sampleSignIn
        sampleUsersWorld
      = .returns ({ Result := none
                    Data := some { IsSuccessfully := true, Token := "sub=7;exp=1735776000" } }, w))
    ∧ Time.unix 1735776000 ≠ (sampleNow + 1) + 24 * (3600 * nsPerSecond) := by
  refine ⟨⟨_, rfl⟩, by decide⟩

/-- C19, amended: for every sign-in request for which the store, called with the user name
and the hex MD5 digest of the password, returns a user `u`, `Service.SignIn` returns
`Result = nil` and the token that serialises, under the configured secret, the claims
`sub` = decimal string of `u.ID` and `exp` = the whole seconds of the issuance time plus
86400 (issuance time + 24 hours, cut to the second); when the decoder reads that token back
with a signature that verifies under the same secret, `isTokenValid` at clock readings
strictly before that second returns the principal `u.ID` and no error. -/
theorem sign_in_issues_token {σ ω : Type} (md5hex : String → String)
    (encode : MapClaims → String → String) (decode : String → Option RawToken)
    (s : Service σ) (m : AuthMiddleware ω) (now parseNow checkNow : Time)
    (req : SignInRequest) (w : World σ) (u : User) (db1 : σ) (raw : RawToken)
    (hstore : s.ms.SignIn req.UserName (md5hex req.Password) w.db = ((some u, none), db1))
    (h1 : -9223372036854775808 ≤ u.ID) (h2 : u.ID ≤ 9223372036854775807)
    (hsecret : m.jw.Secret = s.jw.Secret)
    (hdec : decode (encode [("sub", .string (FormatInt u.ID)),
        ("exp", .number (now.toUnix + 86400))] s.jw.Secret) = some raw)
    (hclaims : raw.Claims
      = [("sub", .string (FormatInt u.ID)), ("exp", .number (now.toUnix + 86400))])
    (hsig : raw.verifies s.jw.Secret = true)
    (hp : parseNow < Time.unix (now.toUnix + 86400))
    (hn : checkNow < Time.unix (now.toUnix + 86400)) :
    Service.SignIn md5hex encode s now req w
      = .returns
          ({ Result := none
             Data := some
               { IsSuccessfully := true
                 Token := encode [("sub", .string (FormatInt u.ID)),
                   ("exp", .number (now.toUnix + 86400))] s.jw.Secret } },
           { w with
             db := db1
             calls := w.calls ++ [StoreCall.SignIn req.UserName (md5hex req.Password)] })
    ∧ m.isTokenValid decode parseNow checkNow
        (encode [("sub", .string (FormatInt u.ID)), ("exp", .number (now.toUnix + 86400))]
          s.jw.Secret)
      = .returns (u.ID, none) := by
  constructor
  · simp only [Service.SignIn, World.callSignIn, hstore, createToken, SignedString,
      registeredClaims_eq, expiry_toUnix]
  · unfold AuthMiddleware.isTokenValid
    rw [hsecret]
    exact issued_claims_accepted raw s.jw.Secret u.ID (now.toUnix + 86400) decode _ parseNow
      checkNow hdec hclaims hsig h1 h2 hp hn

/-- Witness of C19 (amended): user `jdoe` signs in with the password `secret` at
2025-01-01T00:00:00Z and the token is checked twelve hours later. -/
theorem sign_in_issues_token_witness :
    Service.SignIn sampleMd5hex sampleEncode sampleService sampleNow sampleSignIn
        sampleUsersWorld
      = .returns
          ({ Result := none
             Data := some
               { IsSuccessfully := true
                 Token := sampleEncode [("sub", .string (FormatInt sampleUser.ID)),
                   ("exp", .number (sampleNow.toUnix + 86400))] sampleService.jw.Secret } },
           { db := sampleUsersWorld.db.record
               (.signIn "jdoe" "5ebe2294ecd0e0f08eab7690d2a6ee69")
             calls := sampleUsersWorld.calls
               ++ [StoreCall.SignIn sampleSignIn.UserName (sampleMd5hex sampleSignIn.Password)] })
    ∧ sampleMiddleware.isTokenValid sampleDecodeIssued (sampleNow + 12 * (3600 * nsPerSecond))
        (sampleNow + 12 * (3600 * nsPerSecond))
        (sampleEncode [("sub", .string (FormatInt sampleUser.ID)),
          ("exp", .number (sampleNow.toUnix + 86400))] sampleService.jw.Secret)
      = .returns (sampleUser.ID, none) :=
  sign_in_issues_token sampleMd5hex sampleEncode sampleDecodeIssued sampleService
    sampleMiddleware sampleNow (sampleNow + 12 * (3600 * nsPerSecond))
    (sampleNow + 12 * (3600 * nsPerSecond)) sampleSignIn sampleUsersWorld sampleUser
    (sampleUsersWorld.db.record (.signIn "jdoe" "5ebe2294ecd0e0f08eab7690d2a6ee69"))
    { Claims := [("sub", .string "7"), ("exp", .number 1735776000)]
      verifies := fun key => key == "secret" }
    (by decide) (by decide) (by decide) rfl (by rfl) (by rfl) (by decide) (by decide)
    (by decide)

/-- C21: for every error value that neither is nor wraps an `*APIError`, `errorEncoder`
writes the `InternalServerError` envelope: `data` null, name `InternalServerError`, code 1,
status 500, and as message the localization of the generic message id (the text of the
localizer when it has one for that id, otherwise the message the variable holds), which does
not depend on the error; the variable `DefaultInternalServerError` keeps its name, code and
status. For an error that is or wraps an `*APIError`, it writes the status code, name, code
and error action of that `*APIError`, with its message localized under its own message
key, and leaves that localized message in the `*APIError`. -/
theorem unclassified_error_encoded_as_internal (l : Localizer) (err : ErrorChain)
    (msg : String) (internal : APIError) :
    (errorsAs err = none →
      errorEncoder l err { DefaultInternalServerError with Message := msg }
        = ({ ContentType := "application/json; charset=utf-8", StatusCode := 500,
             body :=
               { data := none
                 result :=
                   { message := Localize l "default-internal-server-error-message" msg
                     name := "InternalServerError", code := 1, statusCode := 500,
                     errorAction := none } } },
           { DefaultInternalServerError with
             Message := Localize l "default-internal-server-error-message" msg }, none))
    ∧ (∀ text, errorsAs err = none → l "default-internal-server-error-message" = some text →
        (errorEncoder l err
          { DefaultInternalServerError with Message := msg }).1.body.result.message = text)
    ∧ (∀ apiErr, errorsAs err = some apiErr →
        errorEncoder l err internal
          = ({ ContentType := "application/json; charset=utf-8"
               StatusCode := apiErr.StatusCode
               body :=
                 { data := none
                   result :=
                     { message := Localize l apiErr.MessageLocalizerKey apiErr.Message
                       name := apiErr.Name, code := apiErr.Code
                       statusCode := apiErr.StatusCode
                       errorAction :=
                         if apiErr.ErrorAction = 0 then none else some apiErr.ErrorAction } } },
             internal,
             some { apiErr with
                    Message := Localize l apiErr.MessageLocalizerKey apiErr.Message })) := by
  refine ⟨?_, ?_, ?_⟩
  · intro h
    simp only [errorEncoder, h, APIError.Localize, errorResponse.toJSON, APIError.toJSON,
      DefaultInternalServerError, NameInternalServerError, CodeInternalServerError]
    rfl
  · intro text h hl
    simp only [errorEncoder, h, APIError.Localize, errorResponse.toJSON, APIError.toJSON,
      DefaultInternalServerError, Localize, hl]
  · intro apiErr h
    simp only [errorEncoder, h, APIError.Localize, errorResponse.toJSON, APIError.toJSON]
    by_cases h0 : apiErr.ErrorAction = 0 <;> simp [h0]

/-- Witness of C21: a connection error of the driver, wrapped once, is answered with the
generic message of the sample localizer; a validation error wrapped once keeps its status
and fields. -/
theorem unclassified_error_encoded_as_internal_witness :
    (errorEncoder sampleLocalizer
        (.wraps "query failed: dial tcp: refused" (.other (.errorString "dial tcp: refused")))
        { DefaultInternalServerError with Message := "" }).1.body.result.message
      = "An unexpected error occurred"
    ∧ errorEncoder sampleLocalizer
        (.wraps "decoding failed" (.apiError (NewValidationError "bad field" "")))
        DefaultInternalServerError
      = ({ ContentType := "application/json; charset=utf-8"
           StatusCode := (NewValidationError "bad field" "").StatusCode
           body :=
             { data := none
               result :=
                 { message := Localize sampleLocalizer
                     (NewValidationError "bad field" "").MessageLocalizerKey
                     (NewValidationError "bad field" "").Message
                   name := (NewValidationError "bad field" "").Name
                   code := (NewValidationError "bad field" "").Code
                   statusCode := (NewValidationError "bad field" "").StatusCode
                   errorAction :=
                     if (NewValidationError "bad field" "").ErrorAction = 0 then none
                     else some (NewValidationError "bad field" "").ErrorAction } } },
         DefaultInternalServerError,
         some { NewValidationError "bad field" "" with
                Message := Localize sampleLocalizer
                  (NewValidationError "bad field" "").MessageLocalizerKey
                  (NewValidationError "bad field" "").Message }) :=
  ⟨(unclassified_error_encoded_as_internal sampleLocalizer
      (.wraps "query failed: dial tcp: refused" (.other (.errorString "dial tcp: refused")))
      "" DefaultInternalServerError).2.1 "An unexpected error occurred" rfl (by decide),
   (unclassified_error_encoded_as_internal sampleLocalizer
      (.wraps "decoding failed" (.apiError (NewValidationError "bad field" "")))
      "" DefaultInternalServerError).2.2 (NewValidationError "bad field" "") rfl⟩

/-- C22, as stated, fails: a lookup of user 7 for a PNR that is not stored makes the store
answer `record not found`; the response of `Service.FindReservation` carries that error, and
the message that `errorEncoder` serialises for it is the text of that error. -/
theorem serialized_message_is_cause_counterexample :
    Service.FindReservation sampleService { sampleFindOwn with PNR := "zzzzzzzz" }
        sampleUsersWorld
      = .returns
          ({ Result := some (badRequestWith ErrRecordNotFound), Data := none },
           { db := sampleUsersWorld.db.record (.find "zzzzzzzz" 7)
             calls := sampleUsersWorld.calls ++ [StoreCall.FindReservation "zzzzzzzz" 7] })
    ∧ (errorEncoder sampleLocalizer (.apiError (badRequestWith ErrRecordNotFound))
        DefaultInternalServerError).1.body.result.message = ErrRecordNotFound.Error := by
  decide

/-- C22, amended: for the error responses of the service, `BaseError` is excluded from the
serialisation, and the serialised name, code and status are those of the error value. The
serialised message is the localization of the message key of the error with its `Message` as
default. For an error `e` of the store's `CreateReservation` the error value is the shared
variable `apierror.CouldNotCreateReservation`: the serialised message is the localization of
the declared key with the message that the variable holds at that moment as default, it
does not depend on `e`, and it stays in the variable. For the errors built with
`NewBadRequestError` (an
error `e` of the store's `SignIn`, `UpdateReservation`, `FindReservation` or
`FindReservations`, and a date that does not parse) the key is empty and the default is the
text of the cause, so the serialised message is the text of `e` whenever the localizer has no
message for the empty id. -/
theorem serialized_error_fields {σ : Type} (d : Decls) (s : Service σ)
    (md5hex : String → String) (encode : MapClaims → String → String) (now : Time)
    (rnd : Nat → Nat) (l : Localizer) (internal : APIError) :
    (∀ (r : APIError) (b : Option GoError),
        (errorEncoder l (.apiError { r with BaseError := b }) internal).1
          = (errorEncoder l (.apiError r) internal).1)
    ∧ (∀ (req : SignInRequest) (w : World σ) (u : Option User) (e : GoError) (db1 : σ),
        s.ms.SignIn req.UserName (md5hex req.Password) w.db = ((u, some e), db1) →
        Service.SignIn md5hex encode s now req w
            = .returns ({ Result := some (badRequestWith e), Data := none },
                { w with
                  db := db1
                  calls := w.calls ++ [StoreCall.SignIn req.UserName (md5hex req.Password)] })
          ∧ (errorEncoder l (.apiError (badRequestWith e)) internal).1.body.result
            = { message := Localize l "" e.Error, name := "BadRequestError", code := 2,
                statusCode := 400, errorAction := none })
    ∧ (∀ (req : UpdateReservationRequest) (w : World σ) (checkIn checkOut : Time)
        (e : GoError) (db1 : σ),
        (req.Accommodation = "beach" ∨ req.Accommodation = "city"
          ∨ req.Accommodation = "mountain") →
        timeParse req.CheckInDate = some checkIn →
        timeParse req.CheckOutDate = some checkOut →
        now ≤ checkIn → checkIn ≤ checkOut →
        s.ms.UpdateReservation (updateRev req checkIn checkOut) w.db = (some e, db1) →
        Service.UpdateReservation d s now req w
            = ({ Result := some (badRequestWith e), Data := none },
                { w with
                  db := db1
                  calls := w.calls
                    ++ [StoreCall.UpdateReservation (updateRev req checkIn checkOut)] })
          ∧ (errorEncoder l (.apiError (badRequestWith e)) internal).1.body.result
            = { message := Localize l "" e.Error, name := "BadRequestError", code := 2,
                statusCode := 400, errorAction := none })
    ∧ (∀ (req : FindReservationRequest) (w : World σ) (r : Option Reservation) (e : GoError)
        (db1 : σ),
        s.ms.FindReservation req.PNR req.UserId w.db = ((r, some e), db1) →
        Service.FindReservation s req w
            = .returns ({ Result := some (badRequestWith e), Data := none },
                { w with
                  db := db1
                  calls := w.calls ++ [StoreCall.FindReservation req.PNR req.UserId] })
          ∧ (errorEncoder l (.apiError (badRequestWith e)) internal).1.body.result
            = { message := Localize l "" e.Error, name := "BadRequestError", code := 2,
                statusCode := 400, errorAction := none })
    ∧ (∀ (req : FindReservationsRequest) (w : World σ) (rs : List Reservation) (e : GoError)
        (db1 : σ),
        s.ms.FindReservations req.UserId w.db = ((rs, some e), db1) →
        Service.FindReservations s req w
            = ({ Result := some (badRequestWith e), Data := none },
                { w with
                  db := db1, calls := w.calls ++ [StoreCall.FindReservations req.UserId] })
          ∧ (errorEncoder l (.apiError (badRequestWith e)) internal).1.body.result
            = { message := Localize l "" e.Error, name := "BadRequestError", code := 2,
                statusCode := 400, errorAction := none })
    ∧ (∀ (req : CreateReservationRequest) (w : World σ),
        (req.Accommodation = "beach" ∨ req.Accommodation = "city"
          ∨ req.Accommodation = "mountain") →
        timeParse req.CheckInDate = none →
        Service.CreateReservation d s now rnd req w
            = ({ Result := some (badRequestWith ErrFailedParseDate), Data := none }, w)
          ∧ (errorEncoder l (.apiError (badRequestWith ErrFailedParseDate))
              internal).1.body.result
            = { message := Localize l "" "failed to parse date", name := "BadRequestError",
                code := 2, statusCode := 400, errorAction := none })
    ∧ (∀ (req : CreateReservationRequest) (w : World σ) (checkIn checkOut : Time)
        (e : GoError) (db1 : σ),
        (req.Accommodation = "beach" ∨ req.Accommodation = "city"
          ∨ req.Accommodation = "mountain") →
        timeParse req.CheckInDate = some checkIn →
        timeParse req.CheckOutDate = some checkOut →
        checkIn ≤ checkOut →
        s.ms.CreateReservation (createRev req now rnd checkIn checkOut) w.db = (some e, db1) →
        Service.CreateReservation d s now rnd req w
            = ({ Result := some
                   { Message := w.createErrorMessage
                     Name := "CouldNotCreateReservationError", Code := 5, StatusCode := 400,
                     ErrorAction := 0, BaseError := some e,
                     MessageLocalizerKey := d.locCouldNotCreateReservation }
                 Data := none },
                { w with
                  db := db1
                  calls := w.calls
                    ++ [StoreCall.CreateReservation (createRev req now rnd checkIn checkOut)]
                  createErrorBaseError := some e })
          ∧ errorEncoder l
              (.apiError
                { Message := w.createErrorMessage
                  Name := "CouldNotCreateReservationError", Code := 5, StatusCode := 400,
                  ErrorAction := 0, BaseError := some e,
                  MessageLocalizerKey := d.locCouldNotCreateReservation })
              internal
            = ({ ContentType := "application/json; charset=utf-8", StatusCode := 400
                 body :=
                   { data := none
                     result :=
                       { message :=
                           Localize l d.locCouldNotCreateReservation w.createErrorMessage
                         name := "CouldNotCreateReservationError", code := 5,
                         statusCode := 400, errorAction := none } } },
               internal,
               some
                 { Message := Localize l d.locCouldNotCreateReservation w.createErrorMessage
                   Name := "CouldNotCreateReservationError", Code := 5, StatusCode := 400,
                   ErrorAction := 0, BaseError := some e,
                   MessageLocalizerKey := d.locCouldNotCreateReservation }))
    ∧ (l "" = none → ∀ text : String, Localize l "" text = text) := by
  refine ⟨?_, ?_, ?_, ?_, ?_, ?_, ?_, ?_⟩
  · intro r b
    simp only [errorEncoder, errorsAs, APIError.Localize, errorResponse.toJSON,
      APIError.toJSON]
  · intro req w u e db1 hstore
    refine ⟨?_, badRequest_serialized l e internal⟩
    simp only [Service.SignIn, World.callSignIn, hstore]
  · intro req w checkIn checkOut e db1 hac hin hout hnow hord hstore
    refine ⟨?_, badRequest_serialized l e internal⟩
    rw [service_update_passes d s now req w checkIn checkOut hac hin hout hnow hord]
    simp only [updateViaStore, World.callUpdateReservation, hstore]
  · intro req w r e db1 hstore
    refine ⟨?_, badRequest_serialized l e internal⟩
    simp only [Service.FindReservation, World.callFindReservation, hstore]
  · intro req w rs e db1 hstore
    refine ⟨?_, badRequest_serialized l e internal⟩
    simp only [Service.FindReservations, World.callFindReservations, hstore]
  · intro req w hac hin
    have hva := (validAccommodation_iff req.Accommodation).2 hac
    refine ⟨?_, badRequest_serialized l ErrFailedParseDate internal⟩
    simp [Service.CreateReservation, hva, parseDate, hin]
  · intro req w checkIn checkOut e db1 hac hin hout hord hstore
    refine ⟨service_create_store_error d s now rnd req w checkIn checkOut e db1 hac hin hout
      hord hstore, ?_⟩
    simp only [errorEncoder, errorsAs, APIError.Localize, errorResponse.toJSON,
      APIError.toJSON]
    rfl
  · intro hl text
    simp only [Localize, hl]

/-- Witness of the amended C22: the lookup of user 7 for a PNR that is not stored, encoded
with the sample localizer. -/
theorem serialized_error_fields_witness :
    Service.FindReservation sampleService { sampleFindOwn with PNR := "zzzzzzzz" }
        sampleUsersWorld
      = .returns
          ({ Result := some (badRequestWith ErrRecordNotFound), Data := none },
           { db := sampleUsersWorld.db.record (.find "zzzzzzzz" 7)
             calls := sampleUsersWorld.calls ++ [StoreCall.FindReservation "zzzzzzzz" 7] })
    ∧ (errorEncoder sampleLocalizer (.apiError (badRequestWith ErrRecordNotFound))
        DefaultInternalServerError).1.body.result
      = { message := Localize sampleLocalizer "" ErrRecordNotFound.Error
          name := "BadRequestError", code := 2, statusCode := 400, errorAction := none } :=
  (serialized_error_fields sampleDecls sampleService sampleMd5hex sampleEncode sampleNow
    sampleRnd sampleLocalizer DefaultInternalServerError).2.2.2.1
    { sampleFindOwn with PNR := "zzzzzzzz" } sampleUsersWorld none ErrRecordNotFound
    (sampleUsersWorld.db.record (.find "zzzzzzzz" 7)) (by decide)

/-- C23: every reservation value that `Service.CreateReservation` or
`Service.UpdateReservation` passes to the store has `CheckInDate` not after `CheckOutDate`,
an accommodation among `beach`, `city` and `mountain`, and the principal of the request as
`UserID`; a created one also has `IsActive = true` and `IsDeleted = false`. Each operation
either leaves the log of store calls as it was or appends one call, with such a value. -/
theorem store_receives_checked_reservations {σ : Type} (d : Decls) (s : Service σ)
    (now : Time) (rnd : Nat → Nat) (creq : CreateReservationRequest)
    (ureq : UpdateReservationRequest) (w : World σ) :
    ((Service.CreateReservation d s now rnd creq w).2.calls = w.calls
      ∨ ∃ rev, (Service.CreateReservation d s now rnd creq w).2.calls
            = w.calls ++ [StoreCall.CreateReservation rev]
          ∧ rev.CheckInDate ≤ rev.CheckOutDate
          ∧ (rev.Accommodation = "beach" ∨ rev.Accommodation = "city"
              ∨ rev.Accommodation = "mountain")
          ∧ rev.UserID = creq.UserId ∧ rev.IsActive = true ∧ rev.IsDeleted = false)
    ∧ ((Service.UpdateReservation d s now ureq w).2.calls = w.calls
      ∨ ∃ rev, (Service.UpdateReservation d s now ureq w).2.calls
            = w.calls ++ [StoreCall.UpdateReservation rev]
          ∧ rev.CheckInDate ≤ rev.CheckOutDate
          ∧ (rev.Accommodation = "beach" ∨ rev.Accommodation = "city"
              ∨ rev.Accommodation = "mountain")
          ∧ rev.UserID = ureq.UserId) := by
  constructor
  · by_cases hva : validAccommodation creq.Accommodation = true
    · have hac := (validAccommodation_iff creq.Accommodation).1 hva
      cases hci : timeParse creq.CheckInDate with
      | none => exact Or.inl (by simp [Service.CreateReservation, hva, parseDate, hci])
      | some checkIn =>
        cases hco : timeParse creq.CheckOutDate with
        | none => exact Or.inl (by simp [Service.CreateReservation, hva, parseDate, hci, hco])
        | some checkOut =>
          by_cases hord : checkIn ≤ checkOut
          · refine Or.inr ⟨createRev creq now rnd checkIn checkOut, ?_, hord, hac, rfl, rfl,
              rfl⟩
            rw [service_create_passes d s now rnd creq w checkIn checkOut hac hci hco hord]
            cases hst : s.ms.CreateReservation (createRev creq now rnd checkIn checkOut) w.db
              with
            | mk err db1 => cases err <;> simp [World.callCreateReservation, hst]
          · exact Or.inl (by
              simp [Service.CreateReservation, hva, parseDate, hci, hco, Time.After,
                not_le.1 hord])
    · exact Or.inl (by simp [Service.CreateReservation, hva])
  · by_cases hva : validAccommodation ureq.Accommodation = true
    · have hac := (validAccommodation_iff ureq.Accommodation).1 hva
      cases hci : timeParse ureq.CheckInDate with
      | none => exact Or.inl (by simp [Service.UpdateReservation, hva, parseDate, hci])
      | some checkIn =>
        cases hco : timeParse ureq.CheckOutDate with
        | none => exact Or.inl (by simp [Service.UpdateReservation, hva, parseDate, hci, hco])
        | some checkOut =>
          by_cases hnow : now ≤ checkIn
          · by_cases hord : checkIn ≤ checkOut
            · refine Or.inr ⟨updateRev ureq checkIn checkOut, ?_, hord, hac, rfl⟩
              rw [service_update_passes d s now ureq w checkIn checkOut hac hci hco hnow hord]
              cases hst : s.ms.UpdateReservation (updateRev ureq checkIn checkOut) w.db with
              | mk err db1 =>
                cases err <;> simp [updateViaStore, World.callUpdateReservation, hst]
            · exact Or.inl (by
                simp [Service.UpdateReservation, hva, parseDate, hci, hco, Time.After,
                  not_lt.2 hnow, not_le.1 hord])
          · exact Or.inl (by
              simp [Service.UpdateReservation, hva, parseDate, hci, hco, Time.After,
                not_le.1 hnow])
    · exact Or.inl (by simp [Service.UpdateReservation, hva])

/-- C24: let `R` be the stored reservation that the lookup by the PNR of the update `U`
returns, in a table with distinct primary keys, the one of `R` not zero. When the store's
`UpdateReservation` succeeds, `U` has the owner of `R`, the stored check-in of `R` is not
past, and the table afterwards is the old one with `R` replaced by a row that has
`Destination`, `CheckInDate`, `CheckOutDate`, `Accommodation` and `GuestCount` of `U` and
`ID`, `PNR`, `UserID`, `CreatedAt`, `IsActive` and `IsDeleted` of `R`; every other row is as
before, in the same place. With the same owner, a stored check-in that is not past and no
driver error, the operation does succeed. -/
theorem store_update_changes_only_target (f : Faults) (now : Time) (U R : Reservation)
    (db : DB)
    (hfind : db.reservations.find? (fun r => r.PNR == U.PNR) = some R)
    (hkeys : (db.reservations.map fun r => r.ID).Nodup) (hkey : R.ID ≠ 0) :
    ((store.UpdateReservation f now U db).1 = none →
      U.UserID = R.UserID ∧ ¬ R.CheckInDate < now
      ∧ ∃ R2 : Reservation,
          R2.Destination = U.Destination ∧ R2.CheckInDate = U.CheckInDate
          ∧ R2.CheckOutDate = U.CheckOutDate ∧ R2.Accommodation = U.Accommodation
          ∧ R2.GuestCount = U.GuestCount
          ∧ R2.ID = R.ID ∧ R2.PNR = R.PNR ∧ R2.UserID = R.UserID
          ∧ R2.CreatedAt = R.CreatedAt ∧ R2.IsActive = R.IsActive
          ∧ R2.IsDeleted = R.IsDeleted
          ∧ R2 ∈ (store.UpdateReservation f now U db).2.reservations
          ∧ (store.UpdateReservation f now U db).2.reservations
              = db.reservations.map fun r => if r = R then R2 else r)
    ∧ (f.beginErr = none → f.firstErr = none → f.saveErr = none → f.commitErr = none →
        U.UserID = R.UserID → ¬ R.CheckInDate < now →
        (store.UpdateReservation f now U db).1 = none) := by
  have hmem : R ∈ db.reservations := List.mem_of_find?_eq_some hfind
  constructor
  · intro hok
    have hb : f.beginErr = none := by
      cases hb : f.beginErr with
      | none => rfl
      | some err => simp [store.UpdateReservation, hb] at hok
    have hf : f.firstErr = none := by
      cases hf : f.firstErr with
      | none => rfl
      | some err => simp [store.UpdateReservation, hb, DB.first, hf] at hok
    have hu : U.UserID = R.UserID := by
      by_contra hu
      simp [store.UpdateReservation, hb, DB.first, hf, hfind, hu] at hok
    have hp : ¬ R.CheckInDate < now := by
      intro hp
      simp [store.UpdateReservation, hb, DB.first, hf, hfind, hu, Time.After, hp] at hok
    have hs : f.saveErr = none := by
      cases hs : f.saveErr with
      | none => rfl
      | some err =>
        simp [store.UpdateReservation, hb, DB.first, hf, hfind, hu, Time.After, hp, hs] at hok
    have hc : f.commitErr = none := by
      cases hc : f.commitErr with
      | none => rfl
      | some err =>
        simp [store.UpdateReservation, hb, DB.first, hf, hfind, hu, Time.After, hp, hs, hc]
          at hok
    have hrows : (store.UpdateReservation f now U db).2.reservations
        = db.reservations.map fun r =>
            if r = R then
              { R with
                Destination := U.Destination, CheckInDate := U.CheckInDate,
                CheckInDateOffset := U.CheckInDateOffset, CheckOutDate := U.CheckOutDate,
                CheckOutDateOffset := U.CheckOutDateOffset,
                Accommodation := U.Accommodation, GuestCount := U.GuestCount }
            else r := by
      rw [store_update_rows f now U R db hfind hb hf hs hc hu hp]
      show (DB.saveRow _ _).reservations = _
      rw [saveRow_record, saveRow_record, saveRow_record]
      exact saveRow_of_unique db R _ hmem hkeys rfl hkey
    refine ⟨hu, hp, { R with
      Destination := U.Destination, CheckInDate := U.CheckInDate,
      CheckInDateOffset := U.CheckInDateOffset, CheckOutDate := U.CheckOutDate,
      CheckOutDateOffset := U.CheckOutDateOffset,
      Accommodation := U.Accommodation, GuestCount := U.GuestCount }, rfl, rfl, rfl, rfl, rfl, rfl, rfl, rfl, rfl, rfl, rfl,
      ?_, hrows⟩
    rw [hrows]
    exact List.mem_map.2 ⟨R, hmem, by simp⟩
  · intro hb hf hs hc hu hp
    rw [store_update_rows f now U R db hfind hb hf hs hc hu hp]

/-- Witness of C24: the update of `sampleRow` by its owner in a table of two rows succeeds,
rewrites the five fields of that row and leaves the row of user 8 as it was. -/
theorem store_update_changes_only_target_witness :
    (store.UpdateReservation Faults.none sampleNow sampleUpdateRev sampleTwoRowsDB).1 = none
    ∧ (store.UpdateReservation Faults.none sampleNow sampleUpdateRev
        sampleTwoRowsDB).2.reservations
      = [sampleOtherRow,
         { sampleRow with
           Destination := "Oslo", CheckInDate := Time.date 2031 1 1,
           CheckOutDate := Time.date 2031 1 2, Accommodation := "beach", GuestCount := 1 }] :=
  ⟨(store_update_changes_only_target Faults.none sampleNow sampleUpdateRev sampleRow
      sampleTwoRowsDB (by decide) (by decide) (by decide)).2 rfl rfl rfl rfl (by decide)
      (by decide),
   by decide⟩

/-- C25: for every request and every behaviour of the store, each response of
`Service.SignIn`, `CreateReservation`, `UpdateReservation`, `FindReservation` and
`FindReservations` has exactly one of `Data` and `Result` non-nil, and `Data` is the non-nil
one exactly when the operation succeeded. For `SignIn`, `FindReservation` and
`FindReservations` that is exactly when the store returned a nil error. For
`CreateReservation` and `UpdateReservation` it is exactly when the request passes the checks
of the service (a whitelisted accommodation, two dates that parse, for an update a clock
reading not after the check-in, and a check-in not after the check-out) and the store,
called with the reservation built from the request, returns a nil error; the store was then
called once. `SignIn` and `FindReservation` fail to return a response, because they panic,
only when the store answers nil with a nil error. -/
theorem response_has_data_or_result {σ : Type} (d : Decls) (s : Service σ)
    (md5hex : String → String) (encode : MapClaims → String → String) (now : Time)
    (rnd : Nat → Nat) (sreq : SignInRequest) (creq : CreateReservationRequest)
    (ureq : UpdateReservationRequest) (freq : FindReservationRequest)
    (lreq : FindReservationsRequest) (w : World σ) :
    (match Service.SignIn md5hex encode s now sreq w with
      | .returns (res, _) =>
        res.Result.isSome = !res.Data.isSome
        ∧ (res.Data.isSome = true
            ↔ (s.ms.SignIn sreq.UserName (md5hex sreq.Password) w.db).1.2 = none)
      | .panics _ =>
        (s.ms.SignIn sreq.UserName (md5hex sreq.Password) w.db).1 = (none, none))
    ∧ ((Service.CreateReservation d s now rnd creq w).1.Result.isSome
          = !(Service.CreateReservation d s now rnd creq w).1.Data.isSome
        ∧ ((Service.CreateReservation d s now rnd creq w).1.Data.isSome = true →
            ∃ rev, (Service.CreateReservation d s now rnd creq w).2.calls
                = w.calls ++ [StoreCall.CreateReservation rev]
              ∧ (s.ms.CreateReservation rev w.db).1 = none))
    ∧ ((Service.UpdateReservation d s now ureq w).1.Result.isSome
          = !(Service.UpdateReservation d s now ureq w).1.Data.isSome
        ∧ ((Service.UpdateReservation d s now ureq w).1.Data.isSome = true →
            ∃ rev, (Service.UpdateReservation d s now ureq w).2.calls
                = w.calls ++ [StoreCall.UpdateReservation rev]
              ∧ (s.ms.UpdateReservation rev w.db).1 = none))
    ∧ (match Service.FindReservation s freq w with
      | .returns (res, _) =>
        res.Result.isSome = !res.Data.isSome
        ∧ (res.Data.isSome = true
            ↔ (s.ms.FindReservation freq.PNR freq.UserId w.db).1.2 = none)
      | .panics _ => (s.ms.FindReservation freq.PNR freq.UserId w.db).1 = (none, none))
    ∧ ((Service.FindReservations s lreq w).1.Result.isSome
          = !(Service.FindReservations s lreq w).1.Data.isSome
        ∧ ((Service.FindReservations s lreq w).1.Data.isSome = true
            ↔ (s.ms.FindReservations lreq.UserId w.db).1.2 = none))
    ∧ ((Service.CreateReservation d s now rnd creq w).1.Data.isSome = true
        ↔ ∃ checkIn checkOut,
            (creq.Accommodation = "beach" ∨ creq.Accommodation = "city"
              ∨ creq.Accommodation = "mountain")
            ∧ timeParse creq.CheckInDate = some checkIn
            ∧ timeParse creq.CheckOutDate = some checkOut
            ∧ checkIn ≤ checkOut
            ∧ (s.ms.CreateReservation (createRev creq now rnd checkIn checkOut) w.db).1
                = none)
    ∧ ((Service.UpdateReservation d s now ureq w).1.Data.isSome = true
        ↔ ∃ checkIn checkOut,
            (ureq.Accommodation = "beach" ∨ ureq.Accommodation = "city"
              ∨ ureq.Accommodation = "mountain")
            ∧ timeParse ureq.CheckInDate = some checkIn
            ∧ timeParse ureq.CheckOutDate = some checkOut
            ∧ now ≤ checkIn ∧ checkIn ≤ checkOut
            ∧ (s.ms.UpdateReservation (updateRev ureq checkIn checkOut) w.db).1 = none) := by
  refine ⟨?_, ?_, ?_, ?_, ?_, create_data_iff d s now rnd creq w,
    update_data_iff d s now ureq w⟩
  · cases hst : s.ms.SignIn sreq.UserName (md5hex sreq.Password) w.db with
    | mk r db1 =>
      obtain ⟨u, e⟩ := r
      cases e with
      | some err => simp [Service.SignIn, World.callSignIn, hst]
      | none =>
        cases u with
        | none => simp [Service.SignIn, World.callSignIn, hst]
        | some usr =>
          simp [Service.SignIn, World.callSignIn, hst, createToken, SignedString]
  · by_cases hva : validAccommodation creq.Accommodation = true
    · have hac := (validAccommodation_iff creq.Accommodation).1 hva
      cases hci : timeParse creq.CheckInDate with
      | none => simp [Service.CreateReservation, hva, parseDate, hci]
      | some checkIn =>
        cases hco : timeParse creq.CheckOutDate with
        | none => simp [Service.CreateReservation, hva, parseDate, hci, hco]
        | some checkOut =>
          by_cases hord : checkIn ≤ checkOut
          · rw [service_create_passes d s now rnd creq w checkIn checkOut hac hci hco hord]
            cases hst : s.ms.CreateReservation (createRev creq now rnd checkIn checkOut) w.db
              with
            | mk err db1 =>
              cases err with
              | some e => simp [World.callCreateReservation, hst]
              | none =>
                simp only [World.callCreateReservation, hst]
                exact ⟨rfl, fun _ => ⟨_, rfl, by rw [hst]⟩⟩
          · simp [Service.CreateReservation, hva, parseDate, hci, hco, Time.After,
              not_le.1 hord]
    · simp [Service.CreateReservation, hva]
  · by_cases hva : validAccommodation ureq.Accommodation = true
    · have hac := (validAccommodation_iff ureq.Accommodation).1 hva
      cases hci : timeParse ureq.CheckInDate with
      | none => simp [Service.UpdateReservation, hva, parseDate, hci]
      | some checkIn =>
        cases hco : timeParse ureq.CheckOutDate with
        | none => simp [Service.UpdateReservation, hva, parseDate, hci, hco]
        | some checkOut =>
          by_cases hnow : now ≤ checkIn
          · by_cases hord : checkIn ≤ checkOut
            · rw [service_update_passes d s now ureq w checkIn checkOut hac hci hco hnow hord]
              cases hst : s.ms.UpdateReservation (updateRev ureq checkIn checkOut) w.db with
              | mk err db1 =>
                cases err with
                | some e => simp [updateViaStore, World.callUpdateReservation, hst]
                | none =>
                  simp only [updateViaStore, World.callUpdateReservation, hst]
                  exact ⟨rfl, fun _ => ⟨_, rfl, by rw [hst]⟩⟩
            · simp [Service.UpdateReservation, hva, parseDate, hci, hco, Time.After,
                not_lt.2 hnow, not_le.1 hord]
          · simp [Service.UpdateReservation, hva, parseDate, hci, hco, Time.After,
              not_le.1 hnow]
    · simp [Service.UpdateReservation, hva]
  · cases hst : s.ms.FindReservation freq.PNR freq.UserId w.db with
    | mk r db1 =>
      obtain ⟨u, e⟩ := r
      cases e with
      | some err => simp [Service.FindReservation, World.callFindReservation, hst]
      | none =>
        cases u with
        | none => simp [Service.FindReservation, World.callFindReservation, hst]
        | some row => simp [Service.FindReservation, World.callFindReservation, hst]
  · cases hst : s.ms.FindReservations lreq.UserId w.db with
    | mk r db1 =>
      obtain ⟨rows, e⟩ := r
      cases e with
      | some err => simp [Service.FindReservations, World.callFindReservations, hst]
      | none => simp [Service.FindReservations, World.callFindReservations, hst]

/-- Witness of C25: the sample create request passes the checks and the store accepts it,
so its response carries `Data`. -/
theorem response_has_data_or_result_witness :
    (Service.CreateReservation sampleDecls sampleService sampleNow sampleRnd sampleCreate
      sampleWorld).1.Data.isSome = true :=
  (response_has_data_or_result sampleDecls sampleService sampleMd5hex sampleEncode sampleNow
    sampleRnd sampleSignIn sampleCreate sampleUpdate sampleFind sampleFindAll
    sampleWorld).2.2.2.2.2.1.2
    ⟨Time.date 2030 2 1, Time.date 2030 2 1, Or.inl rfl, by decide, by decide, by decide,
      by decide⟩

/-- C26 evaluated on the code. `isTokenValid` is sound: whenever it returns a nil error, the
token decoded, its signature verified under the configured secret, the parser accepted its
claims, and the principal returned is the base-10 value of its string claim `sub`. A validly
signed token whose `exp` claim is not a number is answered with an error of the parser. But
`isTokenValid` is not total: for a validly signed token without an `exp` claim, which the
parser accepts, it panics at the type assertion on `exp`. -/
theorem token_check_sound_not_total {ω : Type} (decode : String → Option RawToken)
    (m : AuthMiddleware ω) (parseNow now : Time) (tokenString : String) :
    (∀ p, m.isTokenValid decode parseNow now tokenString = .returns (p, none) →
      ∃ raw sub, decode tokenString = some raw ∧ raw.verifies m.jw.Secret = true
        ∧ jwtParse decode m.jw.Secret parseNow tokenString
            = { token := some { Claims := .mapClaims raw.Claims, Valid := true }, err := none }
        ∧ raw.Claims.lookup "sub" = some (.string sub) ∧ ParseInt sub = some p)
    ∧ (∀ raw v, decode tokenString = some raw → raw.verifies m.jw.Secret = true →
        raw.Claims.lookup "exp" = some v → (∀ n, v ≠ .number n) →
        ∃ flags, flags.Expired = true
          ∧ m.isTokenValid decode parseNow now tokenString
            = .returns (0, some (.validationError flags)))
    ∧ (∀ raw, decode tokenString = some raw → raw.verifies m.jw.Secret = true →
        raw.Claims.lookup "exp" = none →
        verifyIssuedAt raw.Claims (Time.unix parseNow.toUnix) = true →
        verifyNotBefore raw.Claims (Time.unix parseNow.toUnix) = true →
        m.isTokenValid decode parseNow now tokenString
          = .panics "interface conversion: interface is not float64") := by
  refine ⟨?_, ?_, ?_⟩
  · intro p h
    unfold AuthMiddleware.isTokenValid at h
    cases hdec : decode tokenString with
    | none => simp [jwtParse, hdec, isTokenValidWith] at h
    | some raw =>
      cases hsig : raw.verifies m.jw.Secret with
      | false => simp [jwtParse, hdec, hsig, isTokenValidWith] at h
      | true =>
        by_cases hfl : (!verifyExpiresAt raw.Claims (Time.unix parseNow.toUnix)
            || !verifyIssuedAt raw.Claims (Time.unix parseNow.toUnix)
            || !verifyNotBefore raw.Claims (Time.unix parseNow.toUnix)) = true
        · simp [jwtParse, hdec, hsig, hfl, isTokenValidWith] at h
        · have hparse : jwtParse decode m.jw.Secret parseNow tokenString
              = { token := some { Claims := .mapClaims raw.Claims, Valid := true }
                  err := none } := by
            simp [jwtParse, hdec, hsig, hfl]
          rw [hparse] at h
          simp only [isTokenValidWith] at h
          cases hexp : raw.Claims.lookup "exp" with
          | none => simp [hexp] at h
          | some v =>
            cases v with
            | number exp =>
              by_cases hafter : now.After (Time.unix exp) = true
              · simp [hexp, hafter] at h
              · cases hsub : raw.Claims.lookup "sub" with
                | none => simp [hexp, hafter, hsub] at h
                | some sv =>
                  cases sv with
                  | string sub =>
                    cases hint : ParseInt sub with
                    | none => simp [hexp, hafter, hsub, hint] at h
                    | some userid =>
                      simp [hexp, hafter, hsub, hint] at h
                      exact ⟨raw, sub, rfl, hsig, hparse, hsub, by rw [hint, h]⟩
                  | _ => simp [hexp, hafter, hsub] at h
            | _ => simp [hexp] at h
  · intro raw v hdec hsig hexp hnum
    have hver : verifyExpiresAt raw.Claims (Time.unix parseNow.toUnix) = false := by
      unfold verifyExpiresAt
      rw [hexp]
      cases v with
      | number n => exact absurd rfl (hnum n)
      | _ => rfl
    refine ⟨{ Malformed := false, SignatureInvalid := false, Expired := true
              IssuedAt := !verifyIssuedAt raw.Claims (Time.unix parseNow.toUnix)
              NotValidYet := !verifyNotBefore raw.Claims (Time.unix parseNow.toUnix) },
      rfl, ?_⟩
    simp [AuthMiddleware.isTokenValid, jwtParse, hdec, hsig, hver, isTokenValidWith]
  · intro raw hdec hsig hexp hiat hnbf
    have hver : verifyExpiresAt raw.Claims (Time.unix parseNow.toUnix) = true := by
      unfold verifyExpiresAt
      rw [hexp]
    simp [AuthMiddleware.isTokenValid, jwtParse, hdec, hsig, hver, hiat, hnbf,
      isTokenValidWith, hexp]

/-- Witness of C26: a token of user 42 signed with the configured secret and carrying no
`exp` claim makes `isTokenValid` panic. -/
theorem token_check_sound_not_total_witness :
    sampleMiddleware.isTokenValid (sampleDecodeWith [("sub", .string "42")])
        (Time.unix 1700000000) (Time.unix 1700000000) "tok"
      = .panics "interface conversion: interface is not float64" :=
  (token_check_sound_not_total (sampleDecodeWith [("sub", .string "42")]) sampleMiddleware
    (Time.unix 1700000000) (Time.unix 1700000000) "tok").2.2
    { Claims := [("sub", .string "42")], verifies := fun key => key == "secret" }
    rfl (by decide) (by decide) (by decide) (by decide)

end HotelCalifornia
